import Mathlib

/-!
MHT Tunnel, Arduino 1: PID supervisor, interlock and main loop.

A shallow embedding of `Arduino/lib/DvG_PID/PID_v1.cpp`,
`Arduino/lib/DvG_SensorClasses/DvG_SensorClasses.cpp`,
`Arduino/lib/DvG_ArduinoState/DvG_ArduinoState.cpp`,
`Arduino/lib/DvG_RT_Click_mA/DvG_RT_Click_mA.cpp` and
`Arduino/src/Arduino_1_source.cpp`.

Conventions of the embedding:
* `float` and `double` values are exact rationals (`ℚ`); the one division whose
  divisor is zero in ordinary operation (the deviation from the setpoint) is
  carried out in `FDiv`, which keeps the IEEE results `inf` and `NaN` apart;
* `uint32_t` / `unsigned long` values are naturals below `2^32`, and unsigned
  subtraction is `usub32`;
* `int` values are integers;
* the variables a `PID` is linked to through pointers (`myInput`, `myOutput`,
  `mySetpoint`) are passed to each operation as values, and an operation that
  writes `*myOutput` returns the new value.
-/

namespace MHT

set_option maxRecDepth 100000

/-! ## Arduino core helpers -/

/-- The modulus of 32-bit unsigned arithmetic. -/
def U32 : Nat := 4294967296

/-- Unsigned 32-bit subtraction `a - b` as the hardware computes it. -/
def usub32 (a b : Nat) : Nat := (a % U32 + (U32 - b % U32)) % U32

/-- The Arduino macro `constrain(amt, low, high)`:
`((amt)<(low)?(low):((amt)>(high)?(high):(amt)))`. -/
def constrain (amt low high : ℚ) : ℚ :=
  if amt < low then low else if amt > high then high else amt

/-- The Arduino macro `abs(x)`: `((x)>0?(x):-(x))`. -/
def absMacro (x : ℚ) : ℚ := if x > 0 then x else -x

/-! ## PID_v1.cpp -/

/-- Modelled from the spec: `PID_v1.h` is not among the sources. The value of
`AUTOMATIC` is the one `Arduino_1_source.cpp` states where it selects the PID
mode ("on (AUTOMATIC == 1) or off (MANUAL == 0)"). -/
def AUTOMATIC : Int := 1

/-- Modelled from the spec: `PID_v1.h` is not among the sources; see
`AUTOMATIC`. -/
def MANUAL : Int := 0

/-- Modelled from the spec: `PID_v1.h` is not among the sources; the value is
that of the Arduino PID library 1.2.1 the file derives from. -/
def DIRECT : Int := 0

/-- Modelled from the spec: `PID_v1.h` is not among the sources; the value is
that of the Arduino PID library 1.2.1 the file derives from. -/
def REVERSE : Int := 1

/-- Modelled from the spec: `PID_v1.h` is not among the sources; the value is
that of the Arduino PID library 1.2.1 the file derives from. -/
def P_ON_E : Int := 1

/-- The member variables of `class PID` (the three pointers apart). -/
structure PID where
  dispKp : ℚ
  dispKi : ℚ
  dispKd : ℚ
  kp : ℚ
  ki : ℚ
  kd : ℚ
  pTerm : ℚ
  iTerm : ℚ
  dTerm : ℚ
  controllerDirection : Int
  pOn : Int
  pOnE : Bool
  lastTime : Nat
  lastInput : ℚ
  SampleTime : Nat
  outMin : ℚ
  outMax : ℚ
  inAuto : Bool
deriving DecidableEq

namespace PID

/-- The function `PID::Compute()`. `now` is the value `millis()` returns inside the call,
`Input` and `Setpoint` are `*myInput` and `*mySetpoint`, `Output` is `*myOutput`
before the call. The result is the return value, the new object and the new
`*myOutput`. -/
def Compute (p : PID) (now : Nat) (Input Setpoint Output : ℚ) : Bool × PID × ℚ :=
  if !p.inAuto then (false, p, Output)
  else if usub32 now p.lastTime ≥ p.SampleTime then
    let input := Input
    let error := Setpoint - input
    let pTerm := p.kp * error
    let iTerm := p.iTerm + (p.ki * error)
    let iTerm := constrain iTerm p.outMin p.outMax
    let dTerm := -p.kd * (input - p.lastInput)
    let output := pTerm + iTerm + dTerm
    let output := constrain output p.outMin p.outMax
    (true,
     { p with pTerm := pTerm, iTerm := iTerm, dTerm := dTerm,
              lastInput := input, lastTime := now },
     output)
  else (false, p, Output)

/-- The function `PID::SetTunings(Kp, Ki, Kd, POn)`. -/
def SetTunings (p : PID) (Kp Ki Kd : ℚ) (POn : Int) : PID :=
  if Kp < 0 ∨ Ki < 0 ∨ Kd < 0 then p
  else
    let SampleTimeInSec : ℚ := (p.SampleTime : ℚ) / 1000
    let kp := Kp
    let ki := Ki * SampleTimeInSec
    let kd := Kd / SampleTimeInSec
    let q : PID :=
      { p with pOn := POn, pOnE := decide (POn = P_ON_E),
               dispKp := Kp, dispKi := Ki, dispKd := Kd,
               kp := kp, ki := ki, kd := kd }
    if q.controllerDirection = REVERSE then
      { q with kp := 0 - q.kp, ki := 0 - q.ki, kd := 0 - q.kd }
    else q

/-- The function `PID::SetTunings(Kp, Ki, Kd)`: the last remembered `pOn` is used. -/
def SetTunings3 (p : PID) (Kp Ki Kd : ℚ) : PID :=
  p.SetTunings Kp Ki Kd p.pOn

/-- The function `PID::SetSampleTime(NewSampleTime)`. -/
def SetSampleTime (p : PID) (NewSampleTime : Int) : PID :=
  if NewSampleTime > 0 then
    let ratio : ℚ := (NewSampleTime : ℚ) / (p.SampleTime : ℚ)
    { p with ki := p.ki * ratio, kd := p.kd / ratio,
             SampleTime := NewSampleTime.toNat % U32 }
  else p

/-- The function `PID::SetOutputLimits(Min, Max)`; `Output` is `*myOutput` before the call
and the second component of the result is `*myOutput` after it. -/
def SetOutputLimits (p : PID) (Output Min Max : ℚ) : PID × ℚ :=
  if Min ≥ Max then (p, Output)
  else
    let q : PID := { p with outMin := Min, outMax := Max }
    if q.inAuto then
      ({ q with iTerm := constrain q.iTerm q.outMin q.outMax },
       constrain Output q.outMin q.outMax)
    else (q, Output)

/-- The function `PID::Initialize()`. -/
def Initialize (p : PID) (Input Output : ℚ) : PID :=
  let q : PID := { p with iTerm := Output, lastInput := Input }
  { q with iTerm := constrain q.iTerm q.outMin q.outMax }

/-- The function `PID::SetMode(Mode)`. -/
def SetMode (p : PID) (Input Output : ℚ) (Mode : Int) : PID :=
  let newAuto : Bool := decide (Mode = AUTOMATIC)
  let q : PID := if newAuto && !p.inAuto then p.Initialize Input Output else p
  { q with inAuto := newAuto }

/-- The function `PID::SetControllerDirection(Direction)`. -/
def SetControllerDirection (p : PID) (Direction : Int) : PID :=
  let q : PID :=
    if p.inAuto ∧ Direction ≠ p.controllerDirection then
      { p with kp := 0 - p.kp, ki := 0 - p.ki, kd := 0 - p.kd }
    else p
  { q with controllerDirection := Direction }

/-- The function `PID::GetMode()`. -/
def GetMode (p : PID) : Int := if p.inAuto then AUTOMATIC else MANUAL

/-- The constructor `PID::PID(Input, Output, Setpoint, Kp, Ki, Kd, POn,
ControllerDirection)`. `raw` is the content of the object's memory before the
constructor runs (the constructor leaves `lastInput` as it finds it, and the
gains too when `SetTunings` rejects them); `now` is what `millis()` returns. -/
def ctor (raw : PID) (Kp Ki Kd : ℚ) (POn ControllerDirection : Int) (now : Nat) : PID :=
  let p : PID := { raw with inAuto := false }
  let p : PID := { p with pTerm := 0, iTerm := 0, dTerm := 0 }
  -- `*myOutput` is not written: the object is in manual mode
  let p : PID := (p.SetOutputLimits 0 0 100).1
  let p : PID := { p with SampleTime := 1000 }
  let p : PID := p.SetControllerDirection ControllerDirection
  let p : PID := p.SetTunings Kp Ki Kd POn
  { p with lastTime := now }

end PID

/-! ## IEEE division by a divisor that may be zero -/

/-- The value of a `float` expression that contains a division: a finite
number, an infinity or NaN. -/
inductive FDiv where
  | fin (q : ℚ)
  | pinf
  | ninf
  | nan
deriving DecidableEq

namespace FDiv

/-- The quotient `a / b` of two finite values in exact arithmetic, a zero
divisor being `+0.0`. The quotient rounded to single precision, and the
quotient by `-0.0`, are those of `F32.div`. -/
def div (a b : ℚ) : FDiv :=
  if b ≠ 0 then fin (a / b)
  else if a > 0 then pinf
  else if a < 0 then ninf
  else nan

/-- The product `d * c` with a finite, positive `c`. -/
def mulPos (d : FDiv) (c : ℚ) : FDiv :=
  match d with
  | fin q => fin (q * c)
  | pinf => pinf
  | ninf => ninf
  | nan => nan

/-- The comparison `d > x` (false on NaN). -/
def gt (d : FDiv) (x : ℚ) : Bool :=
  match d with
  | fin q => decide (q > x)
  | pinf => true
  | ninf => false
  | nan => false

/-- The comparison `d < x` (false on NaN). -/
def lt (d : FDiv) (x : ℚ) : Bool :=
  match d with
  | fin q => decide (q < x)
  | pinf => false
  | ninf => true
  | nan => false

end FDiv

/-! ## DvG_SensorClasses.cpp -/

/-- The type `enum Relay::relay_action`. -/
inductive relay_action where
  | toggle
  | on
  | off
deriving DecidableEq

/-- The member variables of `class Relay`. -/
structure Relay where
  _pin : Nat
  _fState : Bool
  _fPrevState : Bool
deriving DecidableEq

/-- What a `Relay` operation that may touch the pin yields: the new object,
the return value and the `digitalWrite(pin, value)` calls it made. -/
structure RelayResult where
  relay : Relay
  ret : Bool
  writes : List (Nat × Bool)
deriving DecidableEq

namespace Relay

/-- The constructor `Relay::Relay(pin)`. -/
def ctor (pin : Nat) : Relay :=
  { _pin := pin, _fState := false, _fPrevState := false }

/-- The function `Relay::setStateToBeActuated(newState)`. -/
def setStateToBeActuated (r : Relay) (newState : relay_action) : Relay :=
  if newState = relay_action.toggle then { r with _fState := !r._fState }
  else if newState = relay_action.on then { r with _fState := true }
  else { r with _fState := false }

/-- The function `Relay::needsUpdate()`. -/
def needsUpdate (r : Relay) : Bool := r._fState != r._fPrevState

/-- The function `Relay::actuateState()`. -/
def actuateState (r : Relay) : RelayResult :=
  { relay := { r with _fPrevState := r._fState },
    ret := r._fState,
    writes := [(r._pin, r._fState)] }

/-- The function `Relay::update()`. -/
def update (r : Relay) : RelayResult :=
  if r.needsUpdate then r.actuateState
  else { relay := r, ret := r._fState, writes := [] }

/-- The function `Relay::begin()` (the `pinMode` call has no effect on the object). -/
def begin (r : Relay) : RelayResult := r.actuateState

end Relay

/-- The member variables of `class IIR_LP_DAQ` (the read function apart). -/
structure IIR_LP_DAQ where
  _DAQ_interval_ms : Nat
  _f_LP_Hz : ℚ
  _IIR_LP_value : ℚ
  _prevMicros : Nat
  _fStartup : Bool
  _alpha : ℚ
deriving DecidableEq

namespace IIR_LP_DAQ

/-- The constructor `IIR_LP_DAQ::IIR_LP_DAQ(DAQ_interval_ms, f_LP_Hz, readFunction)`. -/
def ctor (DAQ_interval_ms : Nat) (f_LP_Hz : ℚ) : IIR_LP_DAQ :=
  { _DAQ_interval_ms := DAQ_interval_ms, _f_LP_Hz := f_LP_Hz,
    _IIR_LP_value := 0, _prevMicros := 0, _fStartup := true, _alpha := 1 }

/-- The function `IIR_LP_DAQ::pollUpdate()`. `exp` is the C library function, `curMicros`
is what `micros()` returns, `reading` is what `_readFunction()` returns when it
is called. The result is the return value and the new object. The test
`(curMicros - _prevMicros) > _DAQ_interval_ms * 1e3` compares two whole numbers
that a `double` holds exactly. -/
def pollUpdate (exp : ℚ → ℚ) (d : IIR_LP_DAQ) (curMicros reading : Nat) :
    Bool × IIR_LP_DAQ :=
  if usub32 curMicros d._prevMicros > d._DAQ_interval_ms * 1000 then
    let alpha : ℚ :=
      1 - exp (-((usub32 curMicros d._prevMicros : Nat) : ℚ) * (1 / 1000000) * d._f_LP_Hz)
    let d1 : IIR_LP_DAQ := { d with _alpha := alpha }
    let d2 : IIR_LP_DAQ :=
      if d1._fStartup then
        { d1 with _IIR_LP_value := (reading : ℚ), _fStartup := false }
      else
        { d1 with _IIR_LP_value :=
            d1._IIR_LP_value + d1._alpha * ((reading : ℚ) - d1._IIR_LP_value) }
    (true, { d2 with _prevMicros := curMicros })
  else (false, d)

/-- The function `IIR_LP_DAQ::getValue()`. -/
def getValue (d : IIR_LP_DAQ) : ℚ := d._IIR_LP_value

/-- The function `IIR_LP_DAQ::getAlpha()`. -/
def getAlpha (d : IIR_LP_DAQ) : ℚ := d._alpha

end IIR_LP_DAQ

/-! ## DvG_RT_Click_mA.cpp -/

/-- The C library function `round` (halfway cases away from zero). -/
def cround (x : ℚ) : Int :=
  if x ≥ 0 then Int.floor (x + 1 / 2) else -Int.floor (-x + 1 / 2)

/-- The member variables of `class T_Click`. -/
structure T_Click where
  _SS_pin : Nat
  _p1_mA : ℚ
  _p2_mA : ℚ
  _p1_bitVal : Nat
  _p2_bitVal : Nat
  _set_bitVal : Nat
deriving DecidableEq

namespace T_Click

/-- The function `T_Click::set_mA(mA_value)`: the bit value is stored and sent over SPI. -/
def set_mA (t : T_Click) (mA_value : ℚ) : T_Click :=
  let bitVal : Int :=
    cround ((mA_value - t._p1_mA) / (t._p2_mA - t._p1_mA) *
            (((t._p2_bitVal : Int) - (t._p1_bitVal : Int) : Int) : ℚ) + (t._p1_bitVal : ℚ))
  { t with _set_bitVal := (bitVal % 65536).toNat }

/-- The function `T_Click::begin()`. -/
def begin (t : T_Click) : T_Click := t.set_mA 4

/-- The function `T_Click::get_last_set_bitVal()`. -/
def get_last_set_bitVal (t : T_Click) : Nat := t._set_bitVal

end T_Click

/-- The member variables of `class R_Click`. -/
structure R_Click where
  _SS_pin : Nat
  _p1_mA : ℚ
  _p2_mA : ℚ
  _p1_bitVal : Nat
  _p2_bitVal : Nat
deriving DecidableEq

namespace R_Click

/-- The function `R_Click::bitVal2mA(bitVal)`. -/
def bitVal2mA (r : R_Click) (bitVal : ℚ) : ℚ :=
  r._p1_mA + (bitVal - (r._p1_bitVal : ℚ)) /
    ((((r._p2_bitVal : Int) - (r._p1_bitVal : Int) : Int) : ℚ)) * (r._p2_mA - r._p1_mA)

end R_Click

/-! ## DvG_ArduinoState.cpp -/

/-- The member variables of `class State_Arduino_1`. -/
structure State_Arduino_1 where
  relay_01 : Bool
  relay_02 : Bool
  relay_03 : Bool
  relay_04 : Bool
  relay_05 : Bool
  relay_06 : Bool
  relay_07 : Bool
  relay_08 : Bool
  relay_09 : Bool
  set_pump_speed_mA : ℚ
  set_pump_speed_pct : ℚ
  read_GVF_P_diff_bitV : ℚ
  read_GVF_P_diff_mA : ℚ
  read_GVF_P_diff_mbar : ℚ
  read_flow_rate_bitV : ℚ
  read_flow_rate_mA : ℚ
  read_flow_rate_m3h : ℚ
  ENA_PID_pump : Bool
  setpoint_flow_rate_m3h : ℚ
  ENA_OTP : Bool
deriving DecidableEq

/-- The constructor `State_Arduino_1::State_Arduino_1()`. The six readings start as `NAN`,
which has no rational value: `NAN` is the placeholder they hold until the first
sample is accepted. The request for a PID set on a reading that is still NaN
is evaluated by `requestStep32`, which takes the reading as a `float`. -/
def State_Arduino_1.ctor (NAN : ℚ) : State_Arduino_1 :=
  { relay_01 := false, relay_02 := false, relay_03 := false, relay_04 := false,
    relay_05 := false, relay_06 := false, relay_07 := false, relay_08 := false,
    relay_09 := false,
    set_pump_speed_mA := 4, set_pump_speed_pct := 0,
    read_GVF_P_diff_bitV := NAN, read_GVF_P_diff_mA := NAN, read_GVF_P_diff_mbar := NAN,
    read_flow_rate_bitV := NAN, read_flow_rate_mA := NAN, read_flow_rate_m3h := NAN,
    ENA_PID_pump := false, setpoint_flow_rate_m3h := 0,
    ENA_OTP := true }

/-! ## Arduino_1_source.cpp -/

/-- Functions the program calls whose code is outside the repository's
sources: the C library `exp` and `parseFloatInString` of `DvG_SerialCommand.h`. -/
structure Env where
  exp : ℚ → ℚ
  parseFloatInString : String → Nat → ℚ

/-- What one pass of `loop()` reads from outside the program. -/
structure LoopInput where
  /-- The value of `millis()` at the top of `loop()`. -/
  curMillis : Nat
  /-- The value of `micros()` inside `R_click_1_DAQ.pollUpdate()`. -/
  micros_1 : Nat
  /-- What `read_R_click_1()` returns when it is called. -/
  reading_1 : Nat
  /-- The value of `micros()` inside `R_click_2_DAQ.pollUpdate()`. -/
  micros_2 : Nat
  /-- What `read_R_click_2()` returns when it is called. -/
  reading_2 : Nat
  /-- The command of `sc_debug`, when one is available. -/
  debugCmd : Option String
  /-- The command of `sc_python`, when one is available. -/
  pythonCmd : Option String
  /-- The value of `millis()` inside `PID_pump.Compute()`. -/
  nowPID : Nat

def PIN_RELAY_01 : Nat := 0
def PIN_RELAY_02 : Nat := 1
def PIN_RELAY_03 : Nat := 2
def PIN_RELAY_04 : Nat := 3
def PIN_RELAY_05 : Nat := 4
def PIN_RELAY_06 : Nat := 6
def PIN_RELAY_07 : Nat := 7
def PIN_RELAY_08 : Nat := 8
def PIN_RELAY_09 : Nat := 12
def PIN_SS_SET_PUMP_SPEED : Nat := 9
def PIN_SS_READ_GVF_P_DIFF : Nat := 10
def PIN_SS_READ_FLOW_READ : Nat := 11

def R_CLICK_1_DAQ_INTERVAL_MS : Nat := 2
def R_CLICK_1_DAQ_LP_FILTER_Hz : ℚ := 1
def R_CLICK_2_DAQ_INTERVAL_MS : Nat := 25
def R_CLICK_2_DAQ_LP_FILTER_Hz : ℚ := 2 / 10

def QMAX_FLOW_METER : ℚ := 30

def PID_pump_sample_time : Int := 1000
def PID_pump_set_1_Kp : ℚ := 75 / 100
def PID_pump_set_1_Ki : ℚ := 2 / 10
def PID_pump_set_1_Kd : ℚ := 0
def PID_pump_set_2_Kp : ℚ := 3 / 10
def PID_pump_set_2_Ki : ℚ := 5 / 100
def PID_pump_set_2_Kd : ℚ := 0

def PID_pump_switch_pct : ℚ := 3
def PID_pump_switch_deadband : ℚ := 2
def PID_pump_switch_wait_period : Nat := 20

def OTP_OKAY_TIMEOUT_MS : Nat := 3000

def millisPeriod_WDT_reset : Nat := 800

/-- The global objects and variables of `Arduino_1_source.cpp`, with two
records of what the program did to the hardware: `digitalWrites`, the
`digitalWrite(pin, value)` calls of the relays, oldest first, and
`Watchdog_resets`, the number of `Watchdog.reset()` calls. -/
structure Arduino1 where
  T_click_1 : T_Click
  R_click_1 : R_Click
  R_click_2 : R_Click
  R_click_1_DAQ : IIR_LP_DAQ
  R_click_2_DAQ : IIR_LP_DAQ
  relay_01 : Relay
  relay_02 : Relay
  relay_03 : Relay
  relay_04 : Relay
  relay_05 : Relay
  relay_06 : Relay
  relay_07 : Relay
  relay_08 : Relay
  relay_09 : Relay
  state : State_Arduino_1
  PID_pump_old_set : Nat
  PID_pump_req_set : Nat
  PID_pump_cur_set : Nat
  PID_pump_Kp : ℚ
  PID_pump_Ki : ℚ
  PID_pump_Kd : ℚ
  PID_pump_millis_when_set1_was_requested_last : Nat
  PID_pump : PID
  OTP_okay_prevMillis : Nat
  OTP_tripped_status : Bool
  OTP_tripped_status_old : Bool
  prevMillis_WDT_reset : Nat
  digitalWrites : List (Nat × Bool)
  Watchdog_resets : Nat
deriving DecidableEq

/-- The branches of the two `if ... else if ...` chains of `loop()` that
dispatch on the command string. `relay n a` is
`relay_0n.setStateToBeActuated(a)`, `bub a` acts on relays 4 to 8, and `none`
is the case in which no comparison succeeds. -/
inductive Cmd where
  | id
  | reboot
  | report
  | soft_reset
  | relay (n : Nat) (a : relay_action)
  | bub (a : relay_action)
  | sps
  | ena_pfr (b : Bool)
  | ena_otp (b : Bool)
  | otp_okay
  | otp_trip
  | sfr
  | none
deriving DecidableEq

/-- The three string comparisons the command chains use. -/
inductive Pat where
  /-- The test `strcmpi(strCmd, s) == 0`: equality up to the case of letters. -/
  | icase (s : String)
  /-- The test `strcmp(strCmd, s) == 0`. -/
  | exact (s : String)
  /-- The test `strncmp(strCmd, s, 3) == 0`. -/
  | first3 (s : String)
deriving DecidableEq

/-- Whether the comparison succeeds on the command `strCmd`. -/
def Pat.test : Pat → String → Bool
  | Pat.icase s, strCmd =>
    decide (strCmd.toList.map Char.toLower = s.toList.map Char.toLower)
  | Pat.exact s, strCmd => decide (strCmd = s)
  | Pat.first3 s, strCmd => decide (strCmd.toList.take 3 = s.toList.take 3)

/-- The `if ... else if ...` chain of the debug channel: each comparison with
the branch it guards, in the order of the source. -/
def debugChain : List (Pat × Cmd) :=
  [ (Pat.icase "id?", Cmd.id),
    (Pat.exact "reboot", Cmd.reboot),
    (Pat.exact "?", Cmd.report),
    (Pat.exact "r1", Cmd.relay 1 relay_action.toggle),
    (Pat.exact "r1 on", Cmd.relay 1 relay_action.on),
    (Pat.exact "r1 off", Cmd.relay 1 relay_action.off),
    (Pat.exact "r2", Cmd.relay 2 relay_action.toggle),
    (Pat.exact "r2 on", Cmd.relay 2 relay_action.on),
    (Pat.exact "r2 off", Cmd.relay 2 relay_action.off),
    (Pat.exact "r3", Cmd.relay 3 relay_action.toggle),
    (Pat.exact "r3 on", Cmd.relay 3 relay_action.on),
    (Pat.exact "r3 off", Cmd.relay 3 relay_action.off),
    (Pat.exact "bub on", Cmd.bub relay_action.on),
    (Pat.exact "bub off", Cmd.bub relay_action.off),
    (Pat.exact "ena_otp on", Cmd.ena_otp true),
    (Pat.exact "ena_otp off", Cmd.ena_otp false) ]

/-- The `if ... else if ...` chain of the Python channel: each comparison with
the branch it guards, in the order of the source. -/
def pythonChain : List (Pat × Cmd) :=
  [ (Pat.icase "id?", Cmd.id),
    (Pat.exact "soft_reset", Cmd.soft_reset),
    (Pat.exact "r1", Cmd.relay 1 relay_action.toggle),
    (Pat.exact "r1 on", Cmd.relay 1 relay_action.on),
    (Pat.exact "r1 off", Cmd.relay 1 relay_action.off),
    (Pat.exact "r2", Cmd.relay 2 relay_action.toggle),
    (Pat.exact "r2 on", Cmd.relay 2 relay_action.on),
    (Pat.exact "r2 off", Cmd.relay 2 relay_action.off),
    (Pat.exact "r3", Cmd.relay 3 relay_action.toggle),
    (Pat.exact "r3 on", Cmd.relay 3 relay_action.on),
    (Pat.exact "r3 off", Cmd.relay 3 relay_action.off),
    (Pat.exact "r4", Cmd.relay 4 relay_action.toggle),
    (Pat.exact "r4 on", Cmd.relay 4 relay_action.on),
    (Pat.exact "r4 off", Cmd.relay 4 relay_action.off),
    (Pat.exact "r5", Cmd.relay 5 relay_action.toggle),
    (Pat.exact "r5 on", Cmd.relay 5 relay_action.on),
    (Pat.exact "r5 off", Cmd.relay 5 relay_action.off),
    (Pat.exact "r6", Cmd.relay 6 relay_action.toggle),
    (Pat.exact "r6 on", Cmd.relay 6 relay_action.on),
    (Pat.exact "r6 off", Cmd.relay 6 relay_action.off),
    (Pat.exact "r7", Cmd.relay 7 relay_action.toggle),
    (Pat.exact "r7 on", Cmd.relay 7 relay_action.on),
    (Pat.exact "r7 off", Cmd.relay 7 relay_action.off),
    (Pat.exact "r8", Cmd.relay 8 relay_action.toggle),
    (Pat.exact "r8 on", Cmd.relay 8 relay_action.on),
    (Pat.exact "r8 off", Cmd.relay 8 relay_action.off),
    (Pat.exact "r9", Cmd.relay 9 relay_action.toggle),
    (Pat.exact "r9 on", Cmd.relay 9 relay_action.on),
    (Pat.exact "r9 off", Cmd.relay 9 relay_action.off),
    (Pat.first3 "sps", Cmd.sps),
    (Pat.exact "ena_pfr on", Cmd.ena_pfr true),
    (Pat.exact "ena_pfr off", Cmd.ena_pfr false),
    (Pat.exact "ena_otp on", Cmd.ena_otp true),
    (Pat.exact "ena_otp off", Cmd.ena_otp false),
    (Pat.exact "otp_okay", Cmd.otp_okay),
    (Pat.exact "otp_trip", Cmd.otp_trip),
    (Pat.first3 "sfr", Cmd.sfr),
    (Pat.exact "?", Cmd.report) ]

/-- The branch an `if ... else if ...` chain takes on `strCmd`: that of the
first comparison that succeeds, `Cmd.none` when none does. -/
def dispatch (chain : List (Pat × Cmd)) (strCmd : String) : Cmd :=
  match chain.find? (fun e => e.1.test strCmd) with
  | some e => e.2
  | none => Cmd.none

/-- The branch taken on a command of the debug channel. -/
def decodeDebug (strCmd : String) : Cmd := dispatch debugChain strCmd

/-- The branch taken on a command of the Python channel. -/
def decodePython (strCmd : String) : Cmd := dispatch pythonChain strCmd

/-- The call `relay_0n.setStateToBeActuated(a)`. -/
def setRelay (g : Arduino1) (n : Nat) (a : relay_action) : Arduino1 :=
  match n with
  | 1 => { g with relay_01 := g.relay_01.setStateToBeActuated a }
  | 2 => { g with relay_02 := g.relay_02.setStateToBeActuated a }
  | 3 => { g with relay_03 := g.relay_03.setStateToBeActuated a }
  | 4 => { g with relay_04 := g.relay_04.setStateToBeActuated a }
  | 5 => { g with relay_05 := g.relay_05.setStateToBeActuated a }
  | 6 => { g with relay_06 := g.relay_06.setStateToBeActuated a }
  | 7 => { g with relay_07 := g.relay_07.setStateToBeActuated a }
  | 8 => { g with relay_08 := g.relay_08.setStateToBeActuated a }
  | 9 => { g with relay_09 := g.relay_09.setStateToBeActuated a }
  | _ => g

/-- The statements of the branch `cmd` of either chain. `strCmd` is the
command string (`sps` and `sfr` parse their argument out of it) and
`curMillis` the time read at the top of `loop()`. The replies printed on the
serial port and `state.report` do not change the program's variables;
`delay(1500)` of "reboot" only lets time pass (the restart by the hardware
watchdog that follows is outside this function). -/
def execCmd (E : Env) (g : Arduino1) (curMillis : Nat) (strCmd : String) : Cmd → Arduino1
  | Cmd.id => g
  | Cmd.reboot => g
  | Cmd.report => g
  | Cmd.soft_reset =>
    { g with
        relay_01 := g.relay_01.setStateToBeActuated relay_action.off,
        relay_02 := g.relay_02.setStateToBeActuated relay_action.off,
        relay_03 := g.relay_03.setStateToBeActuated relay_action.off,
        relay_04 := g.relay_04.setStateToBeActuated relay_action.off,
        relay_05 := g.relay_05.setStateToBeActuated relay_action.off,
        relay_06 := g.relay_06.setStateToBeActuated relay_action.off,
        relay_07 := g.relay_07.setStateToBeActuated relay_action.off,
        relay_08 := g.relay_08.setStateToBeActuated relay_action.off,
        relay_09 := g.relay_09.setStateToBeActuated relay_action.off,
        state := { g.state with set_pump_speed_mA := 4, set_pump_speed_pct := 0,
                                ENA_PID_pump := false, setpoint_flow_rate_m3h := 0,
                                ENA_OTP := true },
        T_click_1 := g.T_click_1.set_mA 4,
        OTP_tripped_status := false,
        OTP_tripped_status_old := false }
  | Cmd.relay n a => setRelay g n a
  | Cmd.bub a =>
    { g with relay_04 := g.relay_04.setStateToBeActuated a,
             relay_05 := g.relay_05.setStateToBeActuated a,
             relay_06 := g.relay_06.setStateToBeActuated a,
             relay_07 := g.relay_07.setStateToBeActuated a,
             relay_08 := g.relay_08.setStateToBeActuated a }
  | Cmd.sps =>
    let mA : ℚ := constrain (E.parseFloatInString strCmd 3) 4 20
    { g with state := { g.state with set_pump_speed_mA := mA,
                                     set_pump_speed_pct := (mA - 4) / (16 / 100) },
             T_click_1 := g.T_click_1.set_mA mA }
  | Cmd.ena_pfr b => { g with state := { g.state with ENA_PID_pump := b } }
  | Cmd.ena_otp true =>
    { g with state := { g.state with ENA_OTP := true },
             OTP_tripped_status_old := false }
  | Cmd.ena_otp false => { g with state := { g.state with ENA_OTP := false } }
  | Cmd.otp_okay => { g with OTP_tripped_status := false, OTP_okay_prevMillis := curMillis }
  | Cmd.otp_trip => { g with OTP_tripped_status := true }
  | Cmd.sfr =>
    let sp : ℚ := constrain (E.parseFloatInString strCmd 3) 0 QMAX_FLOW_METER
    { g with state := { g.state with setpoint_flow_rate_m3h := sp } }
  | Cmd.none => g

/-- The branch of `loop()` that handles a command of the debug channel. -/
def debugCommand (E : Env) (g : Arduino1) (curMillis : Nat) (strCmd : String) : Arduino1 :=
  execCmd E g curMillis strCmd (decodeDebug strCmd)

/-- The branch of `loop()` that handles a command of the Python channel. -/
def pythonCommand (E : Env) (g : Arduino1) (curMillis : Nat) (strCmd : String) : Arduino1 :=
  execCmd E g curMillis strCmd (decodePython strCmd)

/-- The conversion of a `bool` to an `int`. -/
def boolToInt (b : Bool) : Int := if b then 1 else 0

/-- The section "Update R_click readings" of `loop()`. -/
def daqStep (E : Env) (g : Arduino1) (i : LoopInput) : Arduino1 :=
  let r1 := IIR_LP_DAQ.pollUpdate E.exp g.R_click_1_DAQ i.micros_1 i.reading_1
  let g : Arduino1 := { g with R_click_1_DAQ := r1.2 }
  let g : Arduino1 :=
    if r1.1 then
      let bitV : ℚ := g.R_click_1_DAQ.getValue
      let mA : ℚ := g.R_click_1.bitVal2mA bitV
      { g with state := { g.state with
          read_GVF_P_diff_bitV := bitV,
          read_GVF_P_diff_mA := mA,
          read_GVF_P_diff_mbar := (mA - 401 / 100) / (16072 / 1000) * 170 } }
    else g
  let r2 := IIR_LP_DAQ.pollUpdate E.exp g.R_click_2_DAQ i.micros_2 i.reading_2
  let g : Arduino1 := { g with R_click_2_DAQ := r2.2 }
  if r2.1 then
    let bitV : ℚ := g.R_click_2_DAQ.getValue
    let mA : ℚ := g.R_click_2.bitVal2mA bitV
    { g with state := { g.state with
        read_flow_rate_bitV := bitV,
        read_flow_rate_mA := mA,
        read_flow_rate_m3h := constrain ((mA - 4) / 16) 0 1 * QMAX_FLOW_METER } }
  else g

/-- The section "Process incoming serial command when available" of `loop()`:
first the debug channel, then the Python channel. -/
def commandStep (E : Env) (g : Arduino1) (i : LoopInput) : Arduino1 :=
  let g : Arduino1 :=
    match i.debugCmd with
    | some strCmd => debugCommand E g i.curMillis strCmd
    | none => g
  match i.pythonCmd with
  | some strCmd => pythonCommand E g i.curMillis strCmd
  | none => g

/-- The PID mode selection of `loop()`: automatic when the PID is enabled and
the pump relay is reported on. -/
def pidModeStep (g : Arduino1) : Arduino1 :=
  let switch_to_PID_mode : Bool := g.state.ENA_PID_pump && g.state.relay_09
  if boolToInt switch_to_PID_mode ≠ g.PID_pump.GetMode then
    let pid : PID := g.PID_pump.SetMode g.state.read_flow_rate_m3h
      g.state.set_pump_speed_pct (boolToInt switch_to_PID_mode)
    { g with PID_pump := pid }
  else g

/-- The deviation `dev_setp_pct` of `loop()` in exact arithmetic, for a
reading and a setpoint that are numbers, a zero setpoint being `+0.0`. The
deviation as the program rounds it to single precision, also for a reading
that is NaN and a setpoint that is `-0.0`, is `dev_setp_pct32`. -/
def dev_setp_pct (g : Arduino1) : FDiv :=
  (FDiv.div (absMacro (g.state.read_flow_rate_m3h - g.state.setpoint_flow_rate_m3h))
    g.state.setpoint_flow_rate_m3h).mulPos 100

/-- The part of `loop()` that determines which PID set is requested. -/
def requestStep (g : Arduino1) (curMillis : Nat) : Arduino1 :=
  if (dev_setp_pct g).gt (PID_pump_switch_pct + PID_pump_switch_deadband / 2) then
    { g with PID_pump_req_set := 1,
             PID_pump_millis_when_set1_was_requested_last := curMillis }
  else if (dev_setp_pct g).lt (PID_pump_switch_pct - PID_pump_switch_deadband / 2) then
    { g with PID_pump_req_set := 2 }
  else g

/-- The part of `loop()` that tests whether the requested PID set is granted.
The test `(curMillis - ...) > PID_pump_switch_wait_period * 1e3` compares two
whole numbers that a `double` holds exactly. -/
def grantStep (g : Arduino1) (curMillis : Nat) : Arduino1 :=
  if g.state.ENA_PID_pump && (g.PID_pump_cur_set != g.PID_pump_req_set) then
    if g.PID_pump_req_set = 1 then
      { g with PID_pump_cur_set := g.PID_pump_req_set }
    else if g.PID_pump_req_set = 2 then
      if usub32 curMillis g.PID_pump_millis_when_set1_was_requested_last >
          PID_pump_switch_wait_period * 1000 then
        { g with PID_pump_cur_set := g.PID_pump_req_set }
      else g
    else g
  else g

/-- The part "Make the switch definite" of `loop()`. -/
def applySetStep (g : Arduino1) : Arduino1 :=
  if g.PID_pump_cur_set ≠ g.PID_pump_old_set then
    let g : Arduino1 :=
      if g.PID_pump_cur_set = 1 then
        { g with PID_pump_Kp := PID_pump_set_1_Kp, PID_pump_Ki := PID_pump_set_1_Ki,
                 PID_pump_Kd := PID_pump_set_1_Kd }
      else if g.PID_pump_cur_set = 2 then
        { g with PID_pump_Kp := PID_pump_set_2_Kp, PID_pump_Ki := PID_pump_set_2_Ki,
                 PID_pump_Kd := PID_pump_set_2_Kd }
      else g
    let pid : PID := g.PID_pump.SetTunings g.PID_pump_Kp g.PID_pump_Ki g.PID_pump_Kd P_ON_E
    { g with PID_pump := pid, PID_pump_old_set := g.PID_pump_cur_set }
  else g

/-- The part "Compute the new PID output" of `loop()`. The first component is
what `PID_pump.Compute()` returned. -/
def computeStep (g : Arduino1) (nowPID : Nat) : Bool × Arduino1 :=
  let r := g.PID_pump.Compute nowPID g.state.read_flow_rate_m3h
    g.state.setpoint_flow_rate_m3h g.state.set_pump_speed_pct
  let g : Arduino1 :=
    { g with PID_pump := r.2.1, state := { g.state with set_pump_speed_pct := r.2.2 } }
  if r.1 then
    let mA : ℚ := g.state.set_pump_speed_pct * (16 / 100) + 4
    (true, { g with state := { g.state with set_pump_speed_mA := mA },
                    T_click_1 := g.T_click_1.set_mA mA })
  else (false, g)

/-- The section "Over temperature protection (OTP) of the heaters" of
`loop()`. -/
def otpStep (g : Arduino1) (curMillis : Nat) : Arduino1 :=
  if g.state.ENA_OTP then
    let g : Arduino1 :=
      if usub32 curMillis g.OTP_okay_prevMillis > OTP_OKAY_TIMEOUT_MS then
        { g with OTP_tripped_status := true }
      else g
    if g.OTP_tripped_status != g.OTP_tripped_status_old then
      let g : Arduino1 :=
        if g.OTP_tripped_status then
          { g with relay_01 := g.relay_01.setStateToBeActuated relay_action.off,
                   relay_02 := g.relay_02.setStateToBeActuated relay_action.off,
                   relay_03 := g.relay_03.setStateToBeActuated relay_action.off }
        else
          { g with relay_01 := g.relay_01.setStateToBeActuated relay_action.on,
                   relay_02 := g.relay_02.setStateToBeActuated relay_action.on,
                   relay_03 := g.relay_03.setStateToBeActuated relay_action.on }
      { g with OTP_tripped_status_old := g.OTP_tripped_status }
    else g
  else g

/-- The section "Update relay states" of `loop()`. -/
def relayUpdateStep (g : Arduino1) : Arduino1 :=
  let r := g.relay_01.update
  let g : Arduino1 :=
    { g with relay_01 := r.relay, state := { g.state with relay_01 := r.ret },
             digitalWrites := g.digitalWrites ++ r.writes }
  let r := g.relay_02.update
  let g : Arduino1 :=
    { g with relay_02 := r.relay, state := { g.state with relay_02 := r.ret },
             digitalWrites := g.digitalWrites ++ r.writes }
  let r := g.relay_03.update
  let g : Arduino1 :=
    { g with relay_03 := r.relay, state := { g.state with relay_03 := r.ret },
             digitalWrites := g.digitalWrites ++ r.writes }
  let r := g.relay_04.update
  let g : Arduino1 :=
    { g with relay_04 := r.relay, state := { g.state with relay_04 := r.ret },
             digitalWrites := g.digitalWrites ++ r.writes }
  let r := g.relay_05.update
  let g : Arduino1 :=
    { g with relay_05 := r.relay, state := { g.state with relay_05 := r.ret },
             digitalWrites := g.digitalWrites ++ r.writes }
  let r := g.relay_06.update
  let g : Arduino1 :=
    { g with relay_06 := r.relay, state := { g.state with relay_06 := r.ret },
             digitalWrites := g.digitalWrites ++ r.writes }
  let r := g.relay_07.update
  let g : Arduino1 :=
    { g with relay_07 := r.relay, state := { g.state with relay_07 := r.ret },
             digitalWrites := g.digitalWrites ++ r.writes }
  let r := g.relay_08.update
  let g : Arduino1 :=
    { g with relay_08 := r.relay, state := { g.state with relay_08 := r.ret },
             digitalWrites := g.digitalWrites ++ r.writes }
  let r := g.relay_09.update
  let g : Arduino1 :=
    { g with relay_09 := r.relay, state := { g.state with relay_09 := r.ret },
             digitalWrites := g.digitalWrites ++ r.writes }
  g

/-- The section "Reset the watchdog timer (WDT)" of `loop()`. -/
def wdtStep (g : Arduino1) (curMillis : Nat) : Arduino1 :=
  if usub32 curMillis g.prevMillis_WDT_reset > millisPeriod_WDT_reset then
    { g with Watchdog_resets := g.Watchdog_resets + 1,
             prevMillis_WDT_reset := curMillis }
  else g

/-- The program's variables when `loop()` reaches the request for a PID set:
after the readings, the commands and the PID mode selection. -/
def beforeRequest (E : Env) (g : Arduino1) (i : LoopInput) : Arduino1 :=
  pidModeStep (commandStep E (daqStep E g i) i)

/-- The program's variables when `loop()` reaches the test that grants the
requested PID set. -/
def beforeGrant (E : Env) (g : Arduino1) (i : LoopInput) : Arduino1 :=
  requestStep (beforeRequest E g i) i.curMillis

/-- The program's variables when `loop()` calls `PID_pump.Compute()`. -/
def beforeCompute (E : Env) (g : Arduino1) (i : LoopInput) : Arduino1 :=
  applySetStep (grantStep (beforeGrant E g i) i.curMillis)

/-- The program's variables when the interlock section of `loop()` is
reached: after the readings, the commands and the PID update. -/
def beforeOTP (E : Env) (g : Arduino1) (i : LoopInput) : Arduino1 :=
  (computeStep (beforeCompute E g i) i.nowPID).2

/-- Whether the pass of `loop()` with input `i` from `g` requests PID set 1:
the deviation exceeds `PID_pump_switch_pct + PID_pump_switch_deadband/2`. -/
def fastRequested (E : Env) (g : Arduino1) (i : LoopInput) : Bool :=
  (dev_setp_pct (beforeRequest E g i)).gt (PID_pump_switch_pct + PID_pump_switch_deadband / 2)

/-- One pass of `loop()`. -/
def loop (E : Env) (g : Arduino1) (i : LoopInput) : Arduino1 :=
  wdtStep (relayUpdateStep (otpStep (beforeOTP E g i) i.curMillis)) i.curMillis

/-- Consecutive passes of `loop()`, one for each element of `is`. -/
def run (E : Env) (g : Arduino1) (is : List LoopInput) : Arduino1 :=
  is.foldl (loop E) g

/-- An object of static storage duration before its constructor runs: all
members zero. -/
def PID.zero : PID :=
  { dispKp := 0, dispKi := 0, dispKd := 0, kp := 0, ki := 0, kd := 0,
    pTerm := 0, iTerm := 0, dTerm := 0, controllerDirection := 0, pOn := 0,
    pOnE := false, lastTime := 0, lastInput := 0, SampleTime := 0,
    outMin := 0, outMax := 0, inAuto := false }

/-- The global objects and variables as their definitions initialise them.
`NAN` stands for the readings not yet taken (see `State_Arduino_1.ctor`),
`millis0` is what `millis()` returns in the constructor of `PID_pump`. -/
def Arduino1.globals (NAN : ℚ) (millis0 : Nat) : Arduino1 :=
  { T_click_1 := { _SS_pin := PIN_SS_SET_PUMP_SPEED, _p1_mA := 4, _p1_bitVal := 790,
                   _p2_mA := 205 / 10, _p2_bitVal := 4095, _set_bitVal := 0 },
    R_click_1 := { _SS_pin := PIN_SS_READ_GVF_P_DIFF, _p1_mA := 4, _p1_bitVal := 763,
                   _p2_mA := 2011 / 100, _p2_bitVal := 3967 },
    R_click_2 := { _SS_pin := PIN_SS_READ_FLOW_READ, _p1_mA := 4, _p1_bitVal := 758,
                   _p2_mA := 20, _p2_bitVal := 3928 },
    R_click_1_DAQ := IIR_LP_DAQ.ctor R_CLICK_1_DAQ_INTERVAL_MS R_CLICK_1_DAQ_LP_FILTER_Hz,
    R_click_2_DAQ := IIR_LP_DAQ.ctor R_CLICK_2_DAQ_INTERVAL_MS R_CLICK_2_DAQ_LP_FILTER_Hz,
    relay_01 := Relay.ctor PIN_RELAY_01,
    relay_02 := Relay.ctor PIN_RELAY_02,
    relay_03 := Relay.ctor PIN_RELAY_03,
    relay_04 := Relay.ctor PIN_RELAY_04,
    relay_05 := Relay.ctor PIN_RELAY_05,
    relay_06 := Relay.ctor PIN_RELAY_06,
    relay_07 := Relay.ctor PIN_RELAY_07,
    relay_08 := Relay.ctor PIN_RELAY_08,
    relay_09 := Relay.ctor PIN_RELAY_09,
    state := State_Arduino_1.ctor NAN,
    PID_pump_old_set := 0,
    PID_pump_req_set := 1,
    PID_pump_cur_set := 1,
    PID_pump_Kp := PID_pump_set_1_Kp,
    PID_pump_Ki := PID_pump_set_1_Ki,
    PID_pump_Kd := PID_pump_set_1_Kd,
    PID_pump_millis_when_set1_was_requested_last := 0,
    PID_pump := (PID.ctor PID.zero PID_pump_set_1_Kp PID_pump_set_1_Ki PID_pump_set_1_Kd
      P_ON_E DIRECT millis0),
    OTP_okay_prevMillis := 0,
    OTP_tripped_status := false,
    OTP_tripped_status_old := false,
    prevMillis_WDT_reset := 0,
    digitalWrites := [],
    Watchdog_resets := 0 }

/-- The function `setup()`. -/
def setup (g : Arduino1) : Arduino1 :=
  let g : Arduino1 := { g with T_click_1 := g.T_click_1.begin }
  let r := g.relay_01.begin
  let g : Arduino1 := { g with relay_01 := r.relay, digitalWrites := g.digitalWrites ++ r.writes }
  let r := g.relay_02.begin
  let g : Arduino1 := { g with relay_02 := r.relay, digitalWrites := g.digitalWrites ++ r.writes }
  let r := g.relay_03.begin
  let g : Arduino1 := { g with relay_03 := r.relay, digitalWrites := g.digitalWrites ++ r.writes }
  let r := g.relay_04.begin
  let g : Arduino1 := { g with relay_04 := r.relay, digitalWrites := g.digitalWrites ++ r.writes }
  let r := g.relay_05.begin
  let g : Arduino1 := { g with relay_05 := r.relay, digitalWrites := g.digitalWrites ++ r.writes }
  let r := g.relay_06.begin
  let g : Arduino1 := { g with relay_06 := r.relay, digitalWrites := g.digitalWrites ++ r.writes }
  let r := g.relay_07.begin
  let g : Arduino1 := { g with relay_07 := r.relay, digitalWrites := g.digitalWrites ++ r.writes }
  let r := g.relay_08.begin
  let g : Arduino1 := { g with relay_08 := r.relay, digitalWrites := g.digitalWrites ++ r.writes }
  let r := g.relay_09.begin
  let g : Arduino1 := { g with relay_09 := r.relay, digitalWrites := g.digitalWrites ++ r.writes }
  let g : Arduino1 := { g with PID_pump := g.PID_pump.SetSampleTime PID_pump_sample_time }
  let l := g.PID_pump.SetOutputLimits g.state.set_pump_speed_pct 0 81
  { g with PID_pump := l.1, state := { g.state with set_pump_speed_pct := l.2 } }

/-- The program's variables when `loop()` runs for the first time. -/
def Arduino1.init (NAN : ℚ) (millis0 : Nat) : Arduino1 :=
  setup (Arduino1.globals NAN millis0)

/-- An environment for concrete evaluations: `exp` returns 0, so that an
accepted sample after the first replaces the filtered value, and
`parseFloatInString` returns `x` for every command. -/
def Env.sample (x : ℚ) : Env :=
  { exp := fun _ => 0, parseFloatInString := fun _ _ => x }

/-- A pass of `loop()` together with the time `t` in milliseconds since the
program started, not wrapped, at which it begins. -/
structure Pass where
  t : Nat
  inp : LoopInput

/-- The passes begin at non-decreasing times and each reads the wrapped time
from `millis()`. -/
def WellTimed (ps : List Pass) : Prop :=
  (∀ p ∈ ps, p.inp.curMillis = p.t % U32) ∧ ps.Pairwise (fun a b => a.t ≤ b.t)

/-- The passes of `ps`, run from `g`, that request PID set 1, in order. -/
def fastPasses (E : Env) : Arduino1 → List Pass → List Pass
  | _, [] => []
  | g, p :: ps =>
    if fastRequested E g p.inp then p :: fastPasses E (loop E g p.inp) ps
    else fastPasses E (loop E g p.inp) ps

/-! ## Sequences of PID operations -/

/-- A call of a public operation of `PID`, with the values of the linked
variables at the time of the call. -/
inductive PID.Op where
  | Compute (now : Nat) (Input Setpoint Output : ℚ)
  | SetTunings (Kp Ki Kd : ℚ) (POn : Int)
  | SetTunings3 (Kp Ki Kd : ℚ)
  | SetSampleTime (NewSampleTime : Int)
  | SetOutputLimits (Output Min Max : ℚ)
  | SetMode (Input Output : ℚ) (Mode : Int)
  | SetControllerDirection (Direction : Int)

/-- The object after the call `op`. -/
def PID.call (p : PID) : PID.Op → PID
  | .Compute now Input Setpoint Output => (p.Compute now Input Setpoint Output).2.1
  | .SetTunings Kp Ki Kd POn => p.SetTunings Kp Ki Kd POn
  | .SetTunings3 Kp Ki Kd => p.SetTunings3 Kp Ki Kd
  | .SetSampleTime T => p.SetSampleTime T
  | .SetOutputLimits Output Min Max => (p.SetOutputLimits Output Min Max).1
  | .SetMode Input Output Mode => p.SetMode Input Output Mode
  | .SetControllerDirection Direction => p.SetControllerDirection Direction

/-- The object after the calls `ops`, first to last. -/
def PID.calls (p : PID) (ops : List PID.Op) : PID :=
  ops.foldl PID.call p

/-- A PID in automatic mode, for concrete evaluations. -/
def PID.sample : PID :=
  { dispKp := 1, dispKi := 1, dispKd := 1, kp := 1, ki := 1, kd := 1,
    pTerm := 0, iTerm := 0, dTerm := 0, controllerDirection := 0, pOn := 1,
    pOnE := true, lastTime := 0, lastInput := 0, SampleTime := 1000,
    outMin := 0, outMax := 100, inAuto := true }

/-- A pass of `loop()` that reads no command and accepts no sample when the
filters were last sampled at time zero. -/
def LoopInput.idle (curMillis : Nat) : LoopInput :=
  { curMillis := curMillis, micros_1 := 0, reading_1 := 0, micros_2 := 0, reading_2 := 0,
    debugCmd := none, pythonCmd := none, nowPID := curMillis }

/-- A pass of `loop()` that reads one command from the Python channel and
accepts no sample when the filters were last sampled at time zero. -/
def LoopInput.python (curMillis : Nat) (strCmd : String) : LoopInput :=
  { LoopInput.idle curMillis with pythonCmd := some strCmd }

/-- A pass of `loop()` at `curMillis` milliseconds in which the flow-rate
channel reads `reading` (its clock shows `1000 * curMillis` microseconds) and
the Python channel delivers `pythonCmd`. -/
def LoopInput.sampling (curMillis reading : Nat) (pythonCmd : Option String) : LoopInput :=
  { curMillis := curMillis, micros_1 := 0, reading_1 := 0,
    micros_2 := 1000 * curMillis, reading_2 := reading,
    debugCmd := none, pythonCmd := pythonCmd, nowPID := curMillis }

/-- Two passes from the program's start: at 30 ms the flow rate reads 18 m3/h
and the setpoint is set to 15 m3/h; at 60 ms the flow rate reads 15 m3/h and
"ena_pfr on" arrives. -/
def Pass.settling : List Pass :=
  [ { t := 30, inp := LoopInput.sampling 30 2660 (some "sfr15") },
    { t := 60, inp := LoopInput.sampling 60 2343 (some "ena_pfr on") } ]

/-- The program after two passes from its start: at 30 ms the flow rate reads
18 m3/h and the setpoint is set to 15 m3/h (deviation 20 %, PID set 1 is
requested); at 60 ms the flow rate reads 15 m3/h and "ena_pfr on" arrives (PID
set 2 is requested and has to wait). -/
def Arduino1.settled : Arduino1 :=
  run (Env.sample 15) (Arduino1.init 0 0)
    [LoopInput.sampling 30 2660 (some "sfr15"), LoopInput.sampling 60 2343 (some "ena_pfr on")]

/-- An environment for concrete evaluations: `exp` returns 0, and
`parseFloatInString` reads the decimal digits that follow position `n` of the
command as a whole number ("sfr15" gives 15, "sfr0" gives 0). -/
def Env.digits : Env :=
  { exp := fun _ => 0,
    parseFloatInString := fun s n =>
      (((s.toList.drop n).foldl (fun acc ch => 10 * acc + (ch.toNat - 48)) 0 : Nat) : ℚ) }

/-- The program after the passes `is` from its start. -/
def Arduino1.reach (E : Env) (NAN : ℚ) (millis0 : Nat) (is : List LoopInput) : Arduino1 :=
  run E (Arduino1.init NAN millis0) is

/-- The invariant of the PID set variables: the granted and the requested set
are 1 or 2, and when a set has been applied (`PID_pump_old_set` is 1 or 2) the
PID displays the gains of that set. -/
def Arduino1.SetInv (g : Arduino1) : Prop :=
  (g.PID_pump_cur_set = 1 ∨ g.PID_pump_cur_set = 2) ∧
  (g.PID_pump_req_set = 1 ∨ g.PID_pump_req_set = 2) ∧
  (g.PID_pump_old_set = 1 →
    g.PID_pump.dispKp = PID_pump_set_1_Kp ∧ g.PID_pump.dispKi = PID_pump_set_1_Ki ∧
    g.PID_pump.dispKd = PID_pump_set_1_Kd) ∧
  (g.PID_pump_old_set = 2 →
    g.PID_pump.dispKp = PID_pump_set_2_Kp ∧ g.PID_pump.dispKi = PID_pump_set_2_Ki ∧
    g.PID_pump.dispKd = PID_pump_set_2_Kd)

/-- The tunings of a PID: the displayed gains and the working coefficients. -/
def PID.tunings (p : PID) : ℚ × ℚ × ℚ × ℚ × ℚ × ℚ :=
  (p.dispKp, p.dispKi, p.dispKd, p.kp, p.ki, p.kd)

/-- Whether the pass with input `i` from `g` reaches its request for a PID set
with setpoint `sp`, measured flow rate `m` and automatic control enabled. -/
def inScenario (E : Env) (g : Arduino1) (i : LoopInput) (sp m : ℚ) : Bool :=
  decide ((beforeRequest E g i).state.setpoint_flow_rate_m3h = sp ∧
    (beforeRequest E g i).state.read_flow_rate_m3h = m ∧
    (beforeRequest E g i).state.ENA_PID_pump = true)

/-- Whether every pass of `is`, run from `g`, is in the scenario `sp`, `m`. -/
def holdsAlong (E : Env) (sp m : ℚ) : Arduino1 → List LoopInput → Bool
  | _, [] => true
  | g, i :: is => inScenario E g i sp m && holdsAlong E sp m (loop E g i) is

/-- The number of passes of `is`, run from `g`, in which the granted PID set
changes from 1 to 2. -/
def grantChanges (E : Env) : Arduino1 → List LoopInput → Nat
  | _, [] => 0
  | g, i :: is =>
    (if g.PID_pump_cur_set = 1 ∧ (loop E g i).PID_pump_cur_set = 2 then 1 else 0) +
      grantChanges E (loop E g i) is

/-- The gains `(Kp, Ki, Kd)` that the passes of `is`, run from `g`, push into
`PID_pump.SetTunings` in "Make the switch definite", in order. -/
def tuningPushes (E : Env) : Arduino1 → List LoopInput → List (ℚ × ℚ × ℚ)
  | _, [] => []
  | g, i :: is =>
    (if (grantStep (beforeGrant E g i) i.curMillis).PID_pump_cur_set ≠
        (grantStep (beforeGrant E g i) i.curMillis).PID_pump_old_set then
      [((beforeCompute E g i).PID_pump_Kp, (beforeCompute E g i).PID_pump_Ki,
        (beforeCompute E g i).PID_pump_Kd)]
    else []) ++ tuningPushes E (loop E g i) is

/-- Whether some pass of `is` reads a time more than 20000 ms after `s0`
(wrapped): the wait timer started at `s0` has expired. -/
def expired (s0 : Nat) (is : List LoopInput) : Bool :=
  is.any (fun i => decide (20000 < usub32 i.curMillis s0))

/-- A pass of `loop()` at `curMillis` milliseconds in which the clock of the
flow-rate channel shows `micros_2`, the channel reads `reading` if it samples,
and the Python channel delivers `pythonCmd`. -/
def LoopInput.flow (curMillis micros_2 reading : Nat) (pythonCmd : Option String) :
    LoopInput :=
  { curMillis := curMillis, micros_1 := 0, reading_1 := 0,
    micros_2 := micros_2, reading_2 := reading,
    debugCmd := none, pythonCmd := pythonCmd, nowPID := curMillis }

/-- An environment for the end-to-end scenario: `exp` is tabulated at the two
arguments the scenario evaluates it at (3.465736 s and 3.444840 s after the
previous sample, cut-off 0.2 Hz), and `parseFloatInString` returns 10. -/
def Env.scenario : Env :=
  { exp := fun x =>
      if x = -(3465736 : ℚ) * (1 / 1000000) * (2 / 10) then 1 / 2 else 959 / 1910,
    parseFloatInString := fun _ _ => 10 }

/-- The program before the scenario: one pass at 30 ms that takes the first
sample (10.4953 m3/h) and sets the setpoint to 10 m3/h. -/
def Scenario.start : Arduino1 :=
  loop Env.scenario (Arduino1.init 0 0) (LoopInput.flow 30 30000 1867 (some "sfr10"))

/-- The first pass of the scenario: the filtered flow rate becomes 10.5 m3/h
and "ena_pfr on" arrives. -/
def Scenario.first : LoopInput :=
  LoopInput.flow 3495 3495736 1868 (some "ena_pfr on")

/-- The following passes of the scenario: the filtered flow rate becomes
10.05 m3/h at 6940 ms and stays; the passes at 23495 ms, 23496 ms and 23600 ms
are 20000 ms, 20001 ms and 20105 ms after the fast set was last requested. -/
def Scenario.rest : List LoopInput :=
  [ LoopInput.flow 6940 6940576 1772 none,
    LoopInput.flow 23495 6940576 0 none,
    LoopInput.flow 23496 6940576 0 none,
    LoopInput.flow 23600 6940576 0 none ]

/-- The relay after `n` consecutive calls of `Relay::update()` with no call of
`setStateToBeActuated` in between, and the `digitalWrite` calls they made, in
order. -/
def Relay.updates : Nat → Relay → Relay × List (Nat × Bool)
  | 0, r => (r, [])
  | n + 1, r => ((Relay.updates n r.update.relay).1,
      r.update.writes ++ (Relay.updates n r.update.relay).2)

/-- The program's variables when `loop()` reaches the command of the Python
channel: after the readings and the command of the debug channel. -/
def beforePython (E : Env) (g : Arduino1) (i : LoopInput) : Arduino1 :=
  commandStep E (daqStep E g i) { i with pythonCmd := none }

/-- A pass of `loop()` in which both channels deliver a command: the debug
channel `debugCmd`, then the Python channel `pythonCmd`. -/
def LoopInput.both (curMillis : Nat) (debugCmd pythonCmd : String) : LoopInput :=
  { LoopInput.idle curMillis with debugCmd := some debugCmd, pythonCmd := some pythonCmd }

/-- The program after "ena_otp off" at 10 ms and "otp_trip" at 20 ms: the
interlock is disabled and its tripped flag is set. -/
def Arduino1.disabledTripped : Arduino1 :=
  run (Env.sample 0) (Arduino1.init 0 0)
    [LoopInput.python 10 "ena_otp off", LoopInput.python 20 "otp_trip"]

/-- The program after "otp_trip" at 10 ms: the interlock is enabled and
TRIPPED, relays 1 to 3 are applied off. -/
def Arduino1.tripped : Arduino1 :=
  loop (Env.sample 0) (Arduino1.init 0 0) (LoopInput.python 10 "otp_trip")

/-- The program with the PID enabled and the pump relay switched on by "r9 on"
at 80 ms. -/
def Arduino1.pumping : Arduino1 :=
  run (Env.sample 15) Arduino1.settled [LoopInput.sampling 80 2343 (some "r9 on")]

/-- The channel after the consecutive calls of `pollUpdate()` in which
`micros()` and the read function would return the pairs of `l`. -/
def IIR_LP_DAQ.polls (exp : ℚ → ℚ) (d : IIR_LP_DAQ) (l : List (Nat × Nat)) : IIR_LP_DAQ :=
  l.foldl (fun d p => (IIR_LP_DAQ.pollUpdate exp d p.1 p.2).2) d

/-- The raw readings the calls of `IIR_LP_DAQ.polls` take, in order: those of
the calls that accept a sample. -/
def IIR_LP_DAQ.taken (exp : ℚ → ℚ) : IIR_LP_DAQ → List (Nat × Nat) → List Nat
  | _, [] => []
  | d, p :: l =>
    if (IIR_LP_DAQ.pollUpdate exp d p.1 p.2).1 then
      p.2 :: IIR_LP_DAQ.taken exp (IIR_LP_DAQ.pollUpdate exp d p.1 p.2).2 l
    else IIR_LP_DAQ.taken exp (IIR_LP_DAQ.pollUpdate exp d p.1 p.2).2 l

/-- Whether the call `op` on the object `p` is not a `SetControllerDirection`
that changes the direction in manual mode, and names one of the two
directions. -/
def PID.dirCallOk (p : PID) : PID.Op → Bool
  | .SetControllerDirection Direction =>
    (decide (Direction = DIRECT) || decide (Direction = REVERSE)) &&
      (p.inAuto || decide (Direction = p.controllerDirection))
  | _ => true

/-- Whether each of the calls `ops`, made first to last from `p`, satisfies
`PID.dirCallOk` on the object it is made on. -/
def PID.dirCallsOk : PID → List PID.Op → Bool
  | _, [] => true
  | p, op :: ops => p.dirCallOk op && (p.call op).dirCallsOk ops

/-- The working coefficients carry the sign of the direction. -/
def PID.SignInv (p : PID) : Prop :=
  (p.controllerDirection = DIRECT ∨ p.controllerDirection = REVERSE) ∧
  (p.controllerDirection = DIRECT → 0 ≤ p.kp ∧ 0 ≤ p.ki ∧ 0 ≤ p.kd) ∧
  (p.controllerDirection = REVERSE → p.kp ≤ 0 ∧ p.ki ≤ 0 ∧ p.kd ≤ 0)

/-- The program with the PID enabled, the pump relay applied on and the PID in
automatic mode: one more pass after `Arduino1.pumping`. -/
def Arduino1.regulating : Arduino1 :=
  run (Env.sample 15) Arduino1.pumping [LoopInput.sampling 90 2343 none]

/-- The start times of the passes of `loop()`, among those with inputs `is`
run from `g`, in which the watchdog is reset. -/
def wdtResetTimes (E : Env) : Arduino1 → List LoopInput → List Nat
  | _, [] => []
  | g, i :: is =>
    if (loop E g i).Watchdog_resets = g.Watchdog_resets + 1 then
      i.curMillis :: wdtResetTimes E (loop E g i) is
    else wdtResetTimes E (loop E g i) is

/-- Six passes 150 ms apart, from 1050 ms to 1800 ms. -/
def LoopInput.paced : List LoopInput :=
  [LoopInput.idle 1050, LoopInput.idle 1200, LoopInput.idle 1350, LoopInput.idle 1500,
   LoopInput.idle 1650, LoopInput.idle 1800]

/-- A value of the C type `float` (IEEE 754 binary32): NaN, an infinity, or a
number with sign bit `neg`, exponent field `E` (0 to 254) and fraction field
`M` (23 bits). `E = 0` holds the zeros and the subnormal numbers. -/
inductive F32 where
  | nan
  | inf (neg : Bool)
  | num (neg : Bool) (E : Fin 255) (M : Fin 8388608)
deriving DecidableEq

namespace F32

/-- The magnitude of the number with fields `E` and `M`, in units of
`2^-149`. -/
def units (E : Fin 255) (M : Fin 8388608) : Nat :=
  if E.val = 0 then M.val else (8388608 + M.val) * 2 ^ (E.val - 1)

/-- The number with fields `E` and `M` and sign bit `neg`, in units of
`2^-149`. -/
def signedUnits (neg : Bool) (E : Fin 255) (M : Fin 8388608) : Int :=
  if neg then -(units E M : Int) else (units E M : Int)

/-- The rational value of a number; 0 for NaN and the infinities. -/
def toRat : F32 → ℚ
  | num neg E M => (signedUnits neg E M : ℚ) / ((2 ^ 149 : Nat) : ℚ)
  | _ => 0

/-- The value with bit pattern `b` (taken modulo `2^32`). -/
def ofBits (b : Nat) : F32 :=
  let e : Nat := b / 8388608 % 256
  let m : Nat := b % 8388608
  let s : Bool := decide (b / 2147483648 % 2 = 1)
  if e = 255 then (if m = 0 then inf s else nan)
  else num s (Fin.ofNat e) (Fin.ofNat m)

/-- The whole number nearest to `x >= 0`, the even one of two equally near. -/
def rhe (x : ℚ) : Nat :=
  let f : Nat := x.num.toNat / x.den
  let rem : ℚ := x - (f : ℚ)
  if rem > 1 / 2 then f + 1
  else if rem = 1 / 2 ∧ f % 2 = 1 then f + 1
  else f

/-- The position of the leading bit of `n`: `ilog2 fuel n` is the whole part
of the binary logarithm of `n` when `0 < n < 2^fuel`. -/
def ilog2 : Nat → Nat → Nat
  | 0, _ => 0
  | fuel + 1, n => if n < 2 then 0 else ilog2 fuel (n / 2) + 1

/-- Rounding to nearest, ties to even: the `float` with sign bit `neg`
nearest to the magnitude `t >= 0`, given in units of `2^-149`; an infinity
when the rounded magnitude exceeds the largest number. -/
def round (neg : Bool) (t : ℚ) : F32 :=
  let n : Nat := t.num.toNat / t.den
  if n < 16777216 then
    let r : Nat := rhe t
    if r < 8388608 then num neg 0 (Fin.ofNat r)
    else if r < 16777216 then num neg 1 (Fin.ofNat (r - 8388608))
    else num neg 2 0
  else
    let shift : Nat := ilog2 1024 n - 23
    let r : Nat := rhe (t / ((2 ^ shift : Nat) : ℚ))
    let E : Nat := if r < 16777216 then shift + 1 else shift + 2
    let M : Nat := if r < 16777216 then r - 8388608 else 0
    if E ≥ 255 then inf neg else num neg (Fin.ofNat E) (Fin.ofNat M)

/-- The conversion of a rational constant to `float`. -/
def ofRat (q : ℚ) : F32 :=
  round (decide (q < 0)) (|q| * ((2 ^ 149 : Nat) : ℚ))

/-- The conversion of a non-negative `int` to `float`. -/
def ofNat (k : Nat) : F32 := ofRat (k : ℚ)

/-- The unary minus of `float`. -/
def neg : F32 → F32
  | nan => nan
  | inf s => inf (!s)
  | num s E M => num (!s) E M

/-- The sum of two `float`s. -/
def add : F32 → F32 → F32
  | nan, _ => nan
  | _, nan => nan
  | inf sa, inf sb => if sa = sb then inf sa else nan
  | inf sa, num _ _ _ => inf sa
  | num _ _ _, inf sb => inf sb
  | num sa Ea Ma, num sb Eb Mb =>
    let r : Int := signedUnits sa Ea Ma + signedUnits sb Eb Mb
    if r = 0 then num (sa && sb) 0 0
    else round (decide (r < 0)) (r.natAbs : ℚ)

/-- The difference of two `float`s. -/
def sub (a b : F32) : F32 := a.add b.neg

/-- The product of two `float`s. -/
def mul : F32 → F32 → F32
  | nan, _ => nan
  | _, nan => nan
  | inf sa, inf sb => inf (xor sa sb)
  | inf sa, num sb Eb Mb => if units Eb Mb = 0 then nan else inf (xor sa sb)
  | num sa Ea Ma, inf sb => if units Ea Ma = 0 then nan else inf (xor sa sb)
  | num sa Ea Ma, num sb Eb Mb =>
    round (xor sa sb) (((units Ea Ma * units Eb Mb : Nat) : ℚ) / ((2 ^ 149 : Nat) : ℚ))

/-- The quotient of two `float`s. -/
def div : F32 → F32 → F32
  | nan, _ => nan
  | _, nan => nan
  | inf _, inf _ => nan
  | inf sa, num sb _ _ => inf (xor sa sb)
  | num sa _ _, inf sb => num (xor sa sb) 0 0
  | num sa Ea Ma, num sb Eb Mb =>
    if units Eb Mb = 0 then
      if units Ea Ma = 0 then nan else inf (xor sa sb)
    else
      round (xor sa sb)
        ((units Ea Ma : ℚ) / (units Eb Mb : ℚ) * ((2 ^ 149 : Nat) : ℚ))

/-- The comparison `a < b` of two `float`s: false when either is NaN. -/
def lt : F32 → F32 → Bool
  | nan, _ => false
  | _, nan => false
  | inf sa, inf sb => sa && !sb
  | inf sa, num _ _ _ => sa
  | num _ _ _, inf sb => !sb
  | num sa Ea Ma, num sb Eb Mb => decide (signedUnits sa Ea Ma < signedUnits sb Eb Mb)

/-- The comparison `a > b` of two `float`s. -/
def gt (a b : F32) : Bool := b.lt a

/-- The comparison `a <= b` of two `float`s: false when either is NaN. -/
def le : F32 → F32 → Bool
  | nan, _ => false
  | _, nan => false
  | inf sa, inf sb => sa || !sb
  | inf sa, num _ _ _ => sa
  | num _ _ _, inf sb => !sb
  | num sa Ea Ma, num sb Eb Mb => decide (signedUnits sa Ea Ma ≤ signedUnits sb Eb Mb)

/-- The Arduino macro `abs(x)`, `((x)>0?(x):-(x))`, on a `float`. -/
def absMacro (x : F32) : F32 := if x.gt (ofNat 0) then x else x.neg

/-- The Arduino macro `constrain(amt, low, high)` on `float`s. -/
def constrain (amt low high : F32) : F32 :=
  if amt.lt low then low else if amt.gt high then high else amt

end F32

/-- The variable `PID_pump_switch_pct`, a `float`. -/
def PID_pump_switch_pct32 : F32 := F32.ofRat 3

/-- The variable `PID_pump_switch_deadband`, a `float`. -/
def PID_pump_switch_deadband32 : F32 := F32.ofRat 2

/-- The deviation `dev_setp_pct` of `loop()` as the program evaluates it: in
single precision, from the `float` values of `state.read_flow_rate_m3h` and
`state.setpoint_flow_rate_m3h`. -/
def dev_setp_pct32 (read_flow_rate_m3h setpoint_flow_rate_m3h : F32) : F32 :=
  (((read_flow_rate_m3h.sub setpoint_flow_rate_m3h).absMacro).div
    setpoint_flow_rate_m3h).mul (F32.ofNat 100)

/-- The part of `loop()` that determines which PID set is requested, as the
program evaluates it in single precision; `read_flow_rate_m3h` and
`setpoint_flow_rate_m3h` are the `float` values of the two state variables,
which can be NaN (the reading before the first sample) and a negative zero
(the setpoint after "sfr-0"). -/
def requestStep32 (g : Arduino1) (read_flow_rate_m3h setpoint_flow_rate_m3h : F32)
    (curMillis : Nat) : Arduino1 :=
  if (dev_setp_pct32 read_flow_rate_m3h setpoint_flow_rate_m3h).gt
      (PID_pump_switch_pct32.add (PID_pump_switch_deadband32.div (F32.ofNat 2))) then
    { g with PID_pump_req_set := 1,
             PID_pump_millis_when_set1_was_requested_last := curMillis }
  else if (dev_setp_pct32 read_flow_rate_m3h setpoint_flow_rate_m3h).lt
      (PID_pump_switch_pct32.sub (PID_pump_switch_deadband32.div (F32.ofNat 2))) then
    { g with PID_pump_req_set := 2 }
  else g

/-- The statements of `loop()` that follow the request for a PID set: the
grant of the requested set, the tunings, the PID update, the interlock, the
relays and the watchdog. -/
def afterRequest (g : Arduino1) (i : LoopInput) : Arduino1 :=
  wdtStep (relayUpdateStep (otpStep
    (computeStep (applySetStep (grantStep g i.curMillis)) i.nowPID).2 i.curMillis)) i.curMillis

/-- One pass of `loop()` with the request for a PID set evaluated in single
precision: `read_flow_rate_m3h` and `setpoint_flow_rate_m3h` are the `float`
values that the two state variables hold when the request is reached. -/
def loop32 (E : Env) (g : Arduino1) (i : LoopInput)
    (read_flow_rate_m3h setpoint_flow_rate_m3h : F32) : Arduino1 :=
  afterRequest
    (requestStep32 (beforeRequest E g i) read_flow_rate_m3h setpoint_flow_rate_m3h i.curMillis) i

/-! ## Properties of the PID -/

theorem constrain_mem {a lo hi : ℚ} (h : lo ≤ hi) :
    lo ≤ constrain a lo hi ∧ constrain a lo hi ≤ hi := by
  unfold constrain
  split_ifs with h1 h2
  · exact ⟨le_refl _, h⟩
  · exact ⟨h, le_refl _⟩
  · exact ⟨not_lt.mp h1, not_lt.mp h2⟩

/-- C7: when `PID::Compute` evaluates (returns true), with
`error = Setpoint - Input` it sets `pTerm = kp*error`,
`iTerm = constrain(iTerm + ki*error, outMin, outMax)`,
`dTerm = -kd*(Input - lastInput)`, writes
`constrain(pTerm + iTerm + dTerm, outMin, outMax)` to the output and stores
`lastInput = Input` and `lastTime = now`. -/
theorem Compute_control_law (p : PID) (now : Nat) (Input Setpoint Output : ℚ)
    (hret : (p.Compute now Input Setpoint Output).1 = true) :
    (p.Compute now Input Setpoint Output).2.1.pTerm = p.kp * (Setpoint - Input) ∧
    (p.Compute now Input Setpoint Output).2.1.iTerm =
      constrain (p.iTerm + p.ki * (Setpoint - Input)) p.outMin p.outMax ∧
    (p.Compute now Input Setpoint Output).2.1.dTerm = -p.kd * (Input - p.lastInput) ∧
    (p.Compute now Input Setpoint Output).2.2 =
      constrain (p.kp * (Setpoint - Input) +
                 constrain (p.iTerm + p.ki * (Setpoint - Input)) p.outMin p.outMax +
                 -p.kd * (Input - p.lastInput)) p.outMin p.outMax ∧
    (p.Compute now Input Setpoint Output).2.1.lastInput = Input ∧
    (p.Compute now Input Setpoint Output).2.1.lastTime = now := by
  unfold PID.Compute at hret ⊢
  split_ifs at hret ⊢ with h1 h2
  exact ⟨rfl, rfl, rfl, rfl, rfl, rfl⟩

theorem Compute_control_law_witness :
    (PID.sample.Compute 1000 5 10 0).1 = true ∧
    (PID.sample.Compute 1000 5 10 0).2.1.pTerm = PID.sample.kp * (10 - 5) ∧
    (PID.sample.Compute 1000 5 10 0).2.1.iTerm =
      constrain (PID.sample.iTerm + PID.sample.ki * (10 - 5))
        PID.sample.outMin PID.sample.outMax ∧
    (PID.sample.Compute 1000 5 10 0).2.1.dTerm =
      -PID.sample.kd * (5 - PID.sample.lastInput) ∧
    (PID.sample.Compute 1000 5 10 0).2.2 =
      constrain (PID.sample.kp * (10 - 5) +
                 constrain (PID.sample.iTerm + PID.sample.ki * (10 - 5))
                   PID.sample.outMin PID.sample.outMax +
                 -PID.sample.kd * (5 - PID.sample.lastInput))
        PID.sample.outMin PID.sample.outMax ∧
    (PID.sample.Compute 1000 5 10 0).2.1.lastInput = 5 ∧
    (PID.sample.Compute 1000 5 10 0).2.1.lastTime = 1000 :=
  ⟨by decide, Compute_control_law PID.sample 1000 5 10 0 (by decide)⟩

/-- C8: `PID::Compute` returns true exactly when the PID is in automatic mode
and the wrapped elapsed time `(now - lastTime) mod 2^32` is at least
`SampleTime`; when it returns false the whole PID state and the output are
unchanged. -/
theorem Compute_true_iff_and_frame (p : PID) (now : Nat) (Input Setpoint Output : ℚ) :
    ((p.Compute now Input Setpoint Output).1 = true ↔
      (p.inAuto = true ∧ p.SampleTime ≤ usub32 now p.lastTime)) ∧
    ((p.Compute now Input Setpoint Output).1 = false →
      (p.Compute now Input Setpoint Output).2.1 = p ∧
      (p.Compute now Input Setpoint Output).2.2 = Output) := by
  unfold PID.Compute
  split_ifs with h1 h2
  · simp at h1
    simp [h1]
  · simp at h1
    simp [h1]
    exact h2
  · simp at h1
    simp [h1]
    exact not_le.mp h2

/-- C10: an invalid configuration call has no effect: `SetOutputLimits` with
`Min >= Max`, `SetSampleTime` with a period `<= 0` and `SetTunings` with a
negative gain each leave the whole PID state, and the output, unchanged. -/
theorem invalid_configuration_rejected (p : PID) (Output Min Max : ℚ) (T : Int)
    (Kp Ki Kd : ℚ) (POn : Int)
    (hlim : Min ≥ Max) (hT : T ≤ 0) (hK : Kp < 0 ∨ Ki < 0 ∨ Kd < 0) :
    p.SetOutputLimits Output Min Max = (p, Output) ∧
    p.SetSampleTime T = p ∧
    p.SetTunings3 Kp Ki Kd = p ∧
    p.SetTunings Kp Ki Kd POn = p := by
  refine ⟨?_, ?_, ?_, ?_⟩
  · simp [PID.SetOutputLimits, hlim]
  · simp [PID.SetSampleTime, not_lt.mpr hT]
  · simp [PID.SetTunings3, PID.SetTunings, hK]
  · simp [PID.SetTunings, hK]

theorem invalid_configuration_rejected_witness :
    ((20 : ℚ) ≥ 10 ∧ (0 : Int) ≤ 0 ∧ ((-1 : ℚ) < 0 ∨ (2 : ℚ) < 0 ∨ (3 : ℚ) < 0)) ∧
    (PID.sample.SetOutputLimits 7 20 10 = (PID.sample, 7) ∧
     PID.sample.SetSampleTime 0 = PID.sample ∧
     PID.sample.SetTunings3 (-1) 2 3 = PID.sample ∧
     PID.sample.SetTunings (-1) 2 3 1 = PID.sample) :=
  ⟨⟨by norm_num, le_refl _, Or.inl (by norm_num)⟩,
   invalid_configuration_rejected PID.sample 7 20 10 0 (-1) 2 3 1
     (by norm_num) (le_refl _) (Or.inl (by norm_num))⟩


/-! ### The limits invariant -/

theorem daqStep_frame (E : Env) (g : Arduino1) (i : LoopInput) :
    (daqStep E g i).state.ENA_OTP = g.state.ENA_OTP ∧
    (daqStep E g i).OTP_tripped_status = g.OTP_tripped_status ∧
    (daqStep E g i).OTP_tripped_status_old = g.OTP_tripped_status_old ∧
    (daqStep E g i).OTP_okay_prevMillis = g.OTP_okay_prevMillis ∧
    (daqStep E g i).PID_pump_cur_set = g.PID_pump_cur_set ∧
    (daqStep E g i).PID_pump_req_set = g.PID_pump_req_set ∧
    (daqStep E g i).PID_pump_old_set = g.PID_pump_old_set ∧
    (daqStep E g i).PID_pump_millis_when_set1_was_requested_last = g.PID_pump_millis_when_set1_was_requested_last ∧
    (daqStep E g i).state.ENA_PID_pump = g.state.ENA_PID_pump ∧
    (daqStep E g i).state.relay_09 = g.state.relay_09 ∧
    (daqStep E g i).PID_pump.inAuto = g.PID_pump.inAuto ∧
    (daqStep E g i).state.setpoint_flow_rate_m3h = g.state.setpoint_flow_rate_m3h ∧
    (daqStep E g i).relay_01 = g.relay_01 ∧
    (daqStep E g i).relay_02 = g.relay_02 ∧
    (daqStep E g i).relay_03 = g.relay_03 ∧
    (daqStep E g i).relay_09 = g.relay_09 := by
  simp only [daqStep]
  split_ifs <;> exact ⟨rfl, rfl, rfl, rfl, rfl, rfl, rfl, rfl, rfl, rfl, rfl, rfl, rfl, rfl, rfl, rfl⟩

@[simp] theorem daqStep_state_ENA_OTP (E : Env) (g : Arduino1) (i : LoopInput) :
    (daqStep E g i).state.ENA_OTP = g.state.ENA_OTP :=
  (daqStep_frame E g i).1

@[simp] theorem daqStep_OTP_tripped_status (E : Env) (g : Arduino1) (i : LoopInput) :
    (daqStep E g i).OTP_tripped_status = g.OTP_tripped_status :=
  (daqStep_frame E g i).2.1

@[simp] theorem daqStep_OTP_tripped_status_old (E : Env) (g : Arduino1) (i : LoopInput) :
    (daqStep E g i).OTP_tripped_status_old = g.OTP_tripped_status_old :=
  (daqStep_frame E g i).2.2.1

@[simp] theorem daqStep_OTP_okay_prevMillis (E : Env) (g : Arduino1) (i : LoopInput) :
    (daqStep E g i).OTP_okay_prevMillis = g.OTP_okay_prevMillis :=
  (daqStep_frame E g i).2.2.2.1

@[simp] theorem daqStep_PID_pump_cur_set (E : Env) (g : Arduino1) (i : LoopInput) :
    (daqStep E g i).PID_pump_cur_set = g.PID_pump_cur_set :=
  (daqStep_frame E g i).2.2.2.2.1

@[simp] theorem daqStep_PID_pump_req_set (E : Env) (g : Arduino1) (i : LoopInput) :
    (daqStep E g i).PID_pump_req_set = g.PID_pump_req_set :=
  (daqStep_frame E g i).2.2.2.2.2.1

@[simp] theorem daqStep_PID_pump_old_set (E : Env) (g : Arduino1) (i : LoopInput) :
    (daqStep E g i).PID_pump_old_set = g.PID_pump_old_set :=
  (daqStep_frame E g i).2.2.2.2.2.2.1

@[simp] theorem daqStep_PID_pump_millis_when_set1_was_requested_last (E : Env) (g : Arduino1) (i : LoopInput) :
    (daqStep E g i).PID_pump_millis_when_set1_was_requested_last = g.PID_pump_millis_when_set1_was_requested_last :=
  (daqStep_frame E g i).2.2.2.2.2.2.2.1

@[simp] theorem daqStep_state_ENA_PID_pump (E : Env) (g : Arduino1) (i : LoopInput) :
    (daqStep E g i).state.ENA_PID_pump = g.state.ENA_PID_pump :=
  (daqStep_frame E g i).2.2.2.2.2.2.2.2.1

@[simp] theorem daqStep_state_relay_09 (E : Env) (g : Arduino1) (i : LoopInput) :
    (daqStep E g i).state.relay_09 = g.state.relay_09 :=
  (daqStep_frame E g i).2.2.2.2.2.2.2.2.2.1

@[simp] theorem daqStep_PID_pump_inAuto (E : Env) (g : Arduino1) (i : LoopInput) :
    (daqStep E g i).PID_pump.inAuto = g.PID_pump.inAuto :=
  (daqStep_frame E g i).2.2.2.2.2.2.2.2.2.2.1

@[simp] theorem daqStep_state_setpoint_flow_rate_m3h (E : Env) (g : Arduino1) (i : LoopInput) :
    (daqStep E g i).state.setpoint_flow_rate_m3h = g.state.setpoint_flow_rate_m3h :=
  (daqStep_frame E g i).2.2.2.2.2.2.2.2.2.2.2.1

@[simp] theorem daqStep_relay_01 (E : Env) (g : Arduino1) (i : LoopInput) :
    (daqStep E g i).relay_01 = g.relay_01 :=
  (daqStep_frame E g i).2.2.2.2.2.2.2.2.2.2.2.2.1

@[simp] theorem daqStep_relay_02 (E : Env) (g : Arduino1) (i : LoopInput) :
    (daqStep E g i).relay_02 = g.relay_02 :=
  (daqStep_frame E g i).2.2.2.2.2.2.2.2.2.2.2.2.2.1

@[simp] theorem daqStep_relay_03 (E : Env) (g : Arduino1) (i : LoopInput) :
    (daqStep E g i).relay_03 = g.relay_03 :=
  (daqStep_frame E g i).2.2.2.2.2.2.2.2.2.2.2.2.2.2.1

@[simp] theorem daqStep_relay_09 (E : Env) (g : Arduino1) (i : LoopInput) :
    (daqStep E g i).relay_09 = g.relay_09 :=
  (daqStep_frame E g i).2.2.2.2.2.2.2.2.2.2.2.2.2.2.2

theorem pidModeStep_frame (g : Arduino1) :
    (pidModeStep g).state.ENA_OTP = g.state.ENA_OTP ∧
    (pidModeStep g).OTP_tripped_status = g.OTP_tripped_status ∧
    (pidModeStep g).OTP_tripped_status_old = g.OTP_tripped_status_old ∧
    (pidModeStep g).OTP_okay_prevMillis = g.OTP_okay_prevMillis ∧
    (pidModeStep g).PID_pump_cur_set = g.PID_pump_cur_set ∧
    (pidModeStep g).PID_pump_req_set = g.PID_pump_req_set ∧
    (pidModeStep g).PID_pump_old_set = g.PID_pump_old_set ∧
    (pidModeStep g).PID_pump_millis_when_set1_was_requested_last = g.PID_pump_millis_when_set1_was_requested_last ∧
    (pidModeStep g).state.ENA_PID_pump = g.state.ENA_PID_pump ∧
    (pidModeStep g).state.relay_09 = g.state.relay_09 ∧
    (pidModeStep g).state.setpoint_flow_rate_m3h = g.state.setpoint_flow_rate_m3h ∧
    (pidModeStep g).state.read_flow_rate_m3h = g.state.read_flow_rate_m3h ∧
    (pidModeStep g).relay_01 = g.relay_01 ∧
    (pidModeStep g).relay_02 = g.relay_02 ∧
    (pidModeStep g).relay_03 = g.relay_03 ∧
    (pidModeStep g).relay_09 = g.relay_09 := by
  simp only [pidModeStep]
  split_ifs <;> exact ⟨rfl, rfl, rfl, rfl, rfl, rfl, rfl, rfl, rfl, rfl, rfl, rfl, rfl, rfl, rfl, rfl⟩

@[simp] theorem pidModeStep_state_ENA_OTP (g : Arduino1) :
    (pidModeStep g).state.ENA_OTP = g.state.ENA_OTP :=
  (pidModeStep_frame g).1

@[simp] theorem pidModeStep_OTP_tripped_status (g : Arduino1) :
    (pidModeStep g).OTP_tripped_status = g.OTP_tripped_status :=
  (pidModeStep_frame g).2.1

@[simp] theorem pidModeStep_OTP_tripped_status_old (g : Arduino1) :
    (pidModeStep g).OTP_tripped_status_old = g.OTP_tripped_status_old :=
  (pidModeStep_frame g).2.2.1

@[simp] theorem pidModeStep_OTP_okay_prevMillis (g : Arduino1) :
    (pidModeStep g).OTP_okay_prevMillis = g.OTP_okay_prevMillis :=
  (pidModeStep_frame g).2.2.2.1

@[simp] theorem pidModeStep_PID_pump_cur_set (g : Arduino1) :
    (pidModeStep g).PID_pump_cur_set = g.PID_pump_cur_set :=
  (pidModeStep_frame g).2.2.2.2.1

@[simp] theorem pidModeStep_PID_pump_req_set (g : Arduino1) :
    (pidModeStep g).PID_pump_req_set = g.PID_pump_req_set :=
  (pidModeStep_frame g).2.2.2.2.2.1

@[simp] theorem pidModeStep_PID_pump_old_set (g : Arduino1) :
    (pidModeStep g).PID_pump_old_set = g.PID_pump_old_set :=
  (pidModeStep_frame g).2.2.2.2.2.2.1

@[simp] theorem pidModeStep_PID_pump_millis_when_set1_was_requested_last (g : Arduino1) :
    (pidModeStep g).PID_pump_millis_when_set1_was_requested_last = g.PID_pump_millis_when_set1_was_requested_last :=
  (pidModeStep_frame g).2.2.2.2.2.2.2.1

@[simp] theorem pidModeStep_state_ENA_PID_pump (g : Arduino1) :
    (pidModeStep g).state.ENA_PID_pump = g.state.ENA_PID_pump :=
  (pidModeStep_frame g).2.2.2.2.2.2.2.2.1

@[simp] theorem pidModeStep_state_relay_09 (g : Arduino1) :
    (pidModeStep g).state.relay_09 = g.state.relay_09 :=
  (pidModeStep_frame g).2.2.2.2.2.2.2.2.2.1

@[simp] theorem pidModeStep_state_setpoint_flow_rate_m3h (g : Arduino1) :
    (pidModeStep g).state.setpoint_flow_rate_m3h = g.state.setpoint_flow_rate_m3h :=
  (pidModeStep_frame g).2.2.2.2.2.2.2.2.2.2.1

@[simp] theorem pidModeStep_state_read_flow_rate_m3h (g : Arduino1) :
    (pidModeStep g).state.read_flow_rate_m3h = g.state.read_flow_rate_m3h :=
  (pidModeStep_frame g).2.2.2.2.2.2.2.2.2.2.2.1

@[simp] theorem pidModeStep_relay_01 (g : Arduino1) :
    (pidModeStep g).relay_01 = g.relay_01 :=
  (pidModeStep_frame g).2.2.2.2.2.2.2.2.2.2.2.2.1

@[simp] theorem pidModeStep_relay_02 (g : Arduino1) :
    (pidModeStep g).relay_02 = g.relay_02 :=
  (pidModeStep_frame g).2.2.2.2.2.2.2.2.2.2.2.2.2.1

@[simp] theorem pidModeStep_relay_03 (g : Arduino1) :
    (pidModeStep g).relay_03 = g.relay_03 :=
  (pidModeStep_frame g).2.2.2.2.2.2.2.2.2.2.2.2.2.2.1

@[simp] theorem pidModeStep_relay_09 (g : Arduino1) :
    (pidModeStep g).relay_09 = g.relay_09 :=
  (pidModeStep_frame g).2.2.2.2.2.2.2.2.2.2.2.2.2.2.2

theorem requestStep_frame (g : Arduino1) (c : Nat) :
    (requestStep g c).state.ENA_OTP = g.state.ENA_OTP ∧
    (requestStep g c).OTP_tripped_status = g.OTP_tripped_status ∧
    (requestStep g c).OTP_tripped_status_old = g.OTP_tripped_status_old ∧
    (requestStep g c).OTP_okay_prevMillis = g.OTP_okay_prevMillis ∧
    (requestStep g c).PID_pump_cur_set = g.PID_pump_cur_set ∧
    (requestStep g c).PID_pump_old_set = g.PID_pump_old_set ∧
    (requestStep g c).state.ENA_PID_pump = g.state.ENA_PID_pump ∧
    (requestStep g c).state.relay_09 = g.state.relay_09 ∧
    (requestStep g c).PID_pump.inAuto = g.PID_pump.inAuto ∧
    (requestStep g c).state.setpoint_flow_rate_m3h = g.state.setpoint_flow_rate_m3h ∧
    (requestStep g c).state.read_flow_rate_m3h = g.state.read_flow_rate_m3h ∧
    (requestStep g c).relay_01 = g.relay_01 ∧
    (requestStep g c).relay_02 = g.relay_02 ∧
    (requestStep g c).relay_03 = g.relay_03 ∧
    (requestStep g c).relay_09 = g.relay_09 := by
  simp only [requestStep]
  split_ifs <;> exact ⟨rfl, rfl, rfl, rfl, rfl, rfl, rfl, rfl, rfl, rfl, rfl, rfl, rfl, rfl, rfl⟩

@[simp] theorem requestStep_state_ENA_OTP (g : Arduino1) (c : Nat) :
    (requestStep g c).state.ENA_OTP = g.state.ENA_OTP :=
  (requestStep_frame g c).1

@[simp] theorem requestStep_OTP_tripped_status (g : Arduino1) (c : Nat) :
    (requestStep g c).OTP_tripped_status = g.OTP_tripped_status :=
  (requestStep_frame g c).2.1

@[simp] theorem requestStep_OTP_tripped_status_old (g : Arduino1) (c : Nat) :
    (requestStep g c).OTP_tripped_status_old = g.OTP_tripped_status_old :=
  (requestStep_frame g c).2.2.1

@[simp] theorem requestStep_OTP_okay_prevMillis (g : Arduino1) (c : Nat) :
    (requestStep g c).OTP_okay_prevMillis = g.OTP_okay_prevMillis :=
  (requestStep_frame g c).2.2.2.1

@[simp] theorem requestStep_PID_pump_cur_set (g : Arduino1) (c : Nat) :
    (requestStep g c).PID_pump_cur_set = g.PID_pump_cur_set :=
  (requestStep_frame g c).2.2.2.2.1

@[simp] theorem requestStep_PID_pump_old_set (g : Arduino1) (c : Nat) :
    (requestStep g c).PID_pump_old_set = g.PID_pump_old_set :=
  (requestStep_frame g c).2.2.2.2.2.1

@[simp] theorem requestStep_state_ENA_PID_pump (g : Arduino1) (c : Nat) :
    (requestStep g c).state.ENA_PID_pump = g.state.ENA_PID_pump :=
  (requestStep_frame g c).2.2.2.2.2.2.1

@[simp] theorem requestStep_state_relay_09 (g : Arduino1) (c : Nat) :
    (requestStep g c).state.relay_09 = g.state.relay_09 :=
  (requestStep_frame g c).2.2.2.2.2.2.2.1

@[simp] theorem requestStep_PID_pump_inAuto (g : Arduino1) (c : Nat) :
    (requestStep g c).PID_pump.inAuto = g.PID_pump.inAuto :=
  (requestStep_frame g c).2.2.2.2.2.2.2.2.1

@[simp] theorem requestStep_state_setpoint_flow_rate_m3h (g : Arduino1) (c : Nat) :
    (requestStep g c).state.setpoint_flow_rate_m3h = g.state.setpoint_flow_rate_m3h :=
  (requestStep_frame g c).2.2.2.2.2.2.2.2.2.1

@[simp] theorem requestStep_state_read_flow_rate_m3h (g : Arduino1) (c : Nat) :
    (requestStep g c).state.read_flow_rate_m3h = g.state.read_flow_rate_m3h :=
  (requestStep_frame g c).2.2.2.2.2.2.2.2.2.2.1

@[simp] theorem requestStep_relay_01 (g : Arduino1) (c : Nat) :
    (requestStep g c).relay_01 = g.relay_01 :=
  (requestStep_frame g c).2.2.2.2.2.2.2.2.2.2.2.1

@[simp] theorem requestStep_relay_02 (g : Arduino1) (c : Nat) :
    (requestStep g c).relay_02 = g.relay_02 :=
  (requestStep_frame g c).2.2.2.2.2.2.2.2.2.2.2.2.1

@[simp] theorem requestStep_relay_03 (g : Arduino1) (c : Nat) :
    (requestStep g c).relay_03 = g.relay_03 :=
  (requestStep_frame g c).2.2.2.2.2.2.2.2.2.2.2.2.2.1

@[simp] theorem requestStep_relay_09 (g : Arduino1) (c : Nat) :
    (requestStep g c).relay_09 = g.relay_09 :=
  (requestStep_frame g c).2.2.2.2.2.2.2.2.2.2.2.2.2.2

theorem grantStep_frame (g : Arduino1) (c : Nat) :
    (grantStep g c).state.ENA_OTP = g.state.ENA_OTP ∧
    (grantStep g c).OTP_tripped_status = g.OTP_tripped_status ∧
    (grantStep g c).OTP_tripped_status_old = g.OTP_tripped_status_old ∧
    (grantStep g c).OTP_okay_prevMillis = g.OTP_okay_prevMillis ∧
    (grantStep g c).PID_pump_req_set = g.PID_pump_req_set ∧
    (grantStep g c).PID_pump_old_set = g.PID_pump_old_set ∧
    (grantStep g c).PID_pump_millis_when_set1_was_requested_last = g.PID_pump_millis_when_set1_was_requested_last ∧
    (grantStep g c).state.ENA_PID_pump = g.state.ENA_PID_pump ∧
    (grantStep g c).state.relay_09 = g.state.relay_09 ∧
    (grantStep g c).PID_pump.inAuto = g.PID_pump.inAuto ∧
    (grantStep g c).state.setpoint_flow_rate_m3h = g.state.setpoint_flow_rate_m3h ∧
    (grantStep g c).state.read_flow_rate_m3h = g.state.read_flow_rate_m3h ∧
    (grantStep g c).relay_01 = g.relay_01 ∧
    (grantStep g c).relay_02 = g.relay_02 ∧
    (grantStep g c).relay_03 = g.relay_03 ∧
    (grantStep g c).relay_09 = g.relay_09 := by
  simp only [grantStep]
  split_ifs <;> exact ⟨rfl, rfl, rfl, rfl, rfl, rfl, rfl, rfl, rfl, rfl, rfl, rfl, rfl, rfl, rfl, rfl⟩

@[simp] theorem grantStep_state_ENA_OTP (g : Arduino1) (c : Nat) :
    (grantStep g c).state.ENA_OTP = g.state.ENA_OTP :=
  (grantStep_frame g c).1

@[simp] theorem grantStep_OTP_tripped_status (g : Arduino1) (c : Nat) :
    (grantStep g c).OTP_tripped_status = g.OTP_tripped_status :=
  (grantStep_frame g c).2.1

@[simp] theorem grantStep_OTP_tripped_status_old (g : Arduino1) (c : Nat) :
    (grantStep g c).OTP_tripped_status_old = g.OTP_tripped_status_old :=
  (grantStep_frame g c).2.2.1

@[simp] theorem grantStep_OTP_okay_prevMillis (g : Arduino1) (c : Nat) :
    (grantStep g c).OTP_okay_prevMillis = g.OTP_okay_prevMillis :=
  (grantStep_frame g c).2.2.2.1

@[simp] theorem grantStep_PID_pump_req_set (g : Arduino1) (c : Nat) :
    (grantStep g c).PID_pump_req_set = g.PID_pump_req_set :=
  (grantStep_frame g c).2.2.2.2.1

@[simp] theorem grantStep_PID_pump_old_set (g : Arduino1) (c : Nat) :
    (grantStep g c).PID_pump_old_set = g.PID_pump_old_set :=
  (grantStep_frame g c).2.2.2.2.2.1

@[simp] theorem grantStep_PID_pump_millis_when_set1_was_requested_last (g : Arduino1) (c : Nat) :
    (grantStep g c).PID_pump_millis_when_set1_was_requested_last = g.PID_pump_millis_when_set1_was_requested_last :=
  (grantStep_frame g c).2.2.2.2.2.2.1

@[simp] theorem grantStep_state_ENA_PID_pump (g : Arduino1) (c : Nat) :
    (grantStep g c).state.ENA_PID_pump = g.state.ENA_PID_pump :=
  (grantStep_frame g c).2.2.2.2.2.2.2.1

@[simp] theorem grantStep_state_relay_09 (g : Arduino1) (c : Nat) :
    (grantStep g c).state.relay_09 = g.state.relay_09 :=
  (grantStep_frame g c).2.2.2.2.2.2.2.2.1

@[simp] theorem grantStep_PID_pump_inAuto (g : Arduino1) (c : Nat) :
    (grantStep g c).PID_pump.inAuto = g.PID_pump.inAuto :=
  (grantStep_frame g c).2.2.2.2.2.2.2.2.2.1

@[simp] theorem grantStep_state_setpoint_flow_rate_m3h (g : Arduino1) (c : Nat) :
    (grantStep g c).state.setpoint_flow_rate_m3h = g.state.setpoint_flow_rate_m3h :=
  (grantStep_frame g c).2.2.2.2.2.2.2.2.2.2.1

@[simp] theorem grantStep_state_read_flow_rate_m3h (g : Arduino1) (c : Nat) :
    (grantStep g c).state.read_flow_rate_m3h = g.state.read_flow_rate_m3h :=
  (grantStep_frame g c).2.2.2.2.2.2.2.2.2.2.2.1

@[simp] theorem grantStep_relay_01 (g : Arduino1) (c : Nat) :
    (grantStep g c).relay_01 = g.relay_01 :=
  (grantStep_frame g c).2.2.2.2.2.2.2.2.2.2.2.2.1

@[simp] theorem grantStep_relay_02 (g : Arduino1) (c : Nat) :
    (grantStep g c).relay_02 = g.relay_02 :=
  (grantStep_frame g c).2.2.2.2.2.2.2.2.2.2.2.2.2.1

@[simp] theorem grantStep_relay_03 (g : Arduino1) (c : Nat) :
    (grantStep g c).relay_03 = g.relay_03 :=
  (grantStep_frame g c).2.2.2.2.2.2.2.2.2.2.2.2.2.2.1

@[simp] theorem grantStep_relay_09 (g : Arduino1) (c : Nat) :
    (grantStep g c).relay_09 = g.relay_09 :=
  (grantStep_frame g c).2.2.2.2.2.2.2.2.2.2.2.2.2.2.2

theorem applySetStep_frame (g : Arduino1) :
    (applySetStep g).state.ENA_OTP = g.state.ENA_OTP ∧
    (applySetStep g).OTP_tripped_status = g.OTP_tripped_status ∧
    (applySetStep g).OTP_tripped_status_old = g.OTP_tripped_status_old ∧
    (applySetStep g).OTP_okay_prevMillis = g.OTP_okay_prevMillis ∧
    (applySetStep g).PID_pump_cur_set = g.PID_pump_cur_set ∧
    (applySetStep g).PID_pump_req_set = g.PID_pump_req_set ∧
    (applySetStep g).PID_pump_millis_when_set1_was_requested_last = g.PID_pump_millis_when_set1_was_requested_last ∧
    (applySetStep g).state.ENA_PID_pump = g.state.ENA_PID_pump ∧
    (applySetStep g).state.relay_09 = g.state.relay_09 ∧
    (applySetStep g).PID_pump.inAuto = g.PID_pump.inAuto ∧
    (applySetStep g).state.setpoint_flow_rate_m3h = g.state.setpoint_flow_rate_m3h ∧
    (applySetStep g).state.read_flow_rate_m3h = g.state.read_flow_rate_m3h ∧
    (applySetStep g).relay_01 = g.relay_01 ∧
    (applySetStep g).relay_02 = g.relay_02 ∧
    (applySetStep g).relay_03 = g.relay_03 ∧
    (applySetStep g).relay_09 = g.relay_09 := by
  simp only [applySetStep, PID.SetTunings]
  split_ifs <;> exact ⟨rfl, rfl, rfl, rfl, rfl, rfl, rfl, rfl, rfl, rfl, rfl, rfl, rfl, rfl, rfl, rfl⟩

@[simp] theorem applySetStep_state_ENA_OTP (g : Arduino1) :
    (applySetStep g).state.ENA_OTP = g.state.ENA_OTP :=
  (applySetStep_frame g).1

@[simp] theorem applySetStep_OTP_tripped_status (g : Arduino1) :
    (applySetStep g).OTP_tripped_status = g.OTP_tripped_status :=
  (applySetStep_frame g).2.1

@[simp] theorem applySetStep_OTP_tripped_status_old (g : Arduino1) :
    (applySetStep g).OTP_tripped_status_old = g.OTP_tripped_status_old :=
  (applySetStep_frame g).2.2.1

@[simp] theorem applySetStep_OTP_okay_prevMillis (g : Arduino1) :
    (applySetStep g).OTP_okay_prevMillis = g.OTP_okay_prevMillis :=
  (applySetStep_frame g).2.2.2.1

@[simp] theorem applySetStep_PID_pump_cur_set (g : Arduino1) :
    (applySetStep g).PID_pump_cur_set = g.PID_pump_cur_set :=
  (applySetStep_frame g).2.2.2.2.1

@[simp] theorem applySetStep_PID_pump_req_set (g : Arduino1) :
    (applySetStep g).PID_pump_req_set = g.PID_pump_req_set :=
  (applySetStep_frame g).2.2.2.2.2.1

@[simp] theorem applySetStep_PID_pump_millis_when_set1_was_requested_last (g : Arduino1) :
    (applySetStep g).PID_pump_millis_when_set1_was_requested_last = g.PID_pump_millis_when_set1_was_requested_last :=
  (applySetStep_frame g).2.2.2.2.2.2.1

@[simp] theorem applySetStep_state_ENA_PID_pump (g : Arduino1) :
    (applySetStep g).state.ENA_PID_pump = g.state.ENA_PID_pump :=
  (applySetStep_frame g).2.2.2.2.2.2.2.1

@[simp] theorem applySetStep_state_relay_09 (g : Arduino1) :
    (applySetStep g).state.relay_09 = g.state.relay_09 :=
  (applySetStep_frame g).2.2.2.2.2.2.2.2.1

@[simp] theorem applySetStep_PID_pump_inAuto (g : Arduino1) :
    (applySetStep g).PID_pump.inAuto = g.PID_pump.inAuto :=
  (applySetStep_frame g).2.2.2.2.2.2.2.2.2.1

@[simp] theorem applySetStep_state_setpoint_flow_rate_m3h (g : Arduino1) :
    (applySetStep g).state.setpoint_flow_rate_m3h = g.state.setpoint_flow_rate_m3h :=
  (applySetStep_frame g).2.2.2.2.2.2.2.2.2.2.1

@[simp] theorem applySetStep_state_read_flow_rate_m3h (g : Arduino1) :
    (applySetStep g).state.read_flow_rate_m3h = g.state.read_flow_rate_m3h :=
  (applySetStep_frame g).2.2.2.2.2.2.2.2.2.2.2.1

@[simp] theorem applySetStep_relay_01 (g : Arduino1) :
    (applySetStep g).relay_01 = g.relay_01 :=
  (applySetStep_frame g).2.2.2.2.2.2.2.2.2.2.2.2.1

@[simp] theorem applySetStep_relay_02 (g : Arduino1) :
    (applySetStep g).relay_02 = g.relay_02 :=
  (applySetStep_frame g).2.2.2.2.2.2.2.2.2.2.2.2.2.1

@[simp] theorem applySetStep_relay_03 (g : Arduino1) :
    (applySetStep g).relay_03 = g.relay_03 :=
  (applySetStep_frame g).2.2.2.2.2.2.2.2.2.2.2.2.2.2.1

@[simp] theorem applySetStep_relay_09 (g : Arduino1) :
    (applySetStep g).relay_09 = g.relay_09 :=
  (applySetStep_frame g).2.2.2.2.2.2.2.2.2.2.2.2.2.2.2

theorem computeStep_frame (g : Arduino1) (n : Nat) :
    (computeStep g n).2.state.ENA_OTP = g.state.ENA_OTP ∧
    (computeStep g n).2.OTP_tripped_status = g.OTP_tripped_status ∧
    (computeStep g n).2.OTP_tripped_status_old = g.OTP_tripped_status_old ∧
    (computeStep g n).2.OTP_okay_prevMillis = g.OTP_okay_prevMillis ∧
    (computeStep g n).2.PID_pump_cur_set = g.PID_pump_cur_set ∧
    (computeStep g n).2.PID_pump_req_set = g.PID_pump_req_set ∧
    (computeStep g n).2.PID_pump_old_set = g.PID_pump_old_set ∧
    (computeStep g n).2.PID_pump_millis_when_set1_was_requested_last = g.PID_pump_millis_when_set1_was_requested_last ∧
    (computeStep g n).2.state.ENA_PID_pump = g.state.ENA_PID_pump ∧
    (computeStep g n).2.state.relay_09 = g.state.relay_09 ∧
    (computeStep g n).2.PID_pump.inAuto = g.PID_pump.inAuto ∧
    (computeStep g n).2.state.setpoint_flow_rate_m3h = g.state.setpoint_flow_rate_m3h ∧
    (computeStep g n).2.state.read_flow_rate_m3h = g.state.read_flow_rate_m3h ∧
    (computeStep g n).2.relay_01 = g.relay_01 ∧
    (computeStep g n).2.relay_02 = g.relay_02 ∧
    (computeStep g n).2.relay_03 = g.relay_03 ∧
    (computeStep g n).2.relay_09 = g.relay_09 := by
  simp only [computeStep, PID.Compute]
  split_ifs <;> exact ⟨rfl, rfl, rfl, rfl, rfl, rfl, rfl, rfl, rfl, rfl, rfl, rfl, rfl, rfl, rfl, rfl, rfl⟩

@[simp] theorem computeStep_state_ENA_OTP (g : Arduino1) (n : Nat) :
    (computeStep g n).2.state.ENA_OTP = g.state.ENA_OTP :=
  (computeStep_frame g n).1

@[simp] theorem computeStep_OTP_tripped_status (g : Arduino1) (n : Nat) :
    (computeStep g n).2.OTP_tripped_status = g.OTP_tripped_status :=
  (computeStep_frame g n).2.1

@[simp] theorem computeStep_OTP_tripped_status_old (g : Arduino1) (n : Nat) :
    (computeStep g n).2.OTP_tripped_status_old = g.OTP_tripped_status_old :=
  (computeStep_frame g n).2.2.1

@[simp] theorem computeStep_OTP_okay_prevMillis (g : Arduino1) (n : Nat) :
    (computeStep g n).2.OTP_okay_prevMillis = g.OTP_okay_prevMillis :=
  (computeStep_frame g n).2.2.2.1

@[simp] theorem computeStep_PID_pump_cur_set (g : Arduino1) (n : Nat) :
    (computeStep g n).2.PID_pump_cur_set = g.PID_pump_cur_set :=
  (computeStep_frame g n).2.2.2.2.1

@[simp] theorem computeStep_PID_pump_req_set (g : Arduino1) (n : Nat) :
    (computeStep g n).2.PID_pump_req_set = g.PID_pump_req_set :=
  (computeStep_frame g n).2.2.2.2.2.1

@[simp] theorem computeStep_PID_pump_old_set (g : Arduino1) (n : Nat) :
    (computeStep g n).2.PID_pump_old_set = g.PID_pump_old_set :=
  (computeStep_frame g n).2.2.2.2.2.2.1

@[simp] theorem computeStep_PID_pump_millis_when_set1_was_requested_last (g : Arduino1) (n : Nat) :
    (computeStep g n).2.PID_pump_millis_when_set1_was_requested_last = g.PID_pump_millis_when_set1_was_requested_last :=
  (computeStep_frame g n).2.2.2.2.2.2.2.1

@[simp] theorem computeStep_state_ENA_PID_pump (g : Arduino1) (n : Nat) :
    (computeStep g n).2.state.ENA_PID_pump = g.state.ENA_PID_pump :=
  (computeStep_frame g n).2.2.2.2.2.2.2.2.1

@[simp] theorem computeStep_state_relay_09 (g : Arduino1) (n : Nat) :
    (computeStep g n).2.state.relay_09 = g.state.relay_09 :=
  (computeStep_frame g n).2.2.2.2.2.2.2.2.2.1

@[simp] theorem computeStep_PID_pump_inAuto (g : Arduino1) (n : Nat) :
    (computeStep g n).2.PID_pump.inAuto = g.PID_pump.inAuto :=
  (computeStep_frame g n).2.2.2.2.2.2.2.2.2.2.1

@[simp] theorem computeStep_state_setpoint_flow_rate_m3h (g : Arduino1) (n : Nat) :
    (computeStep g n).2.state.setpoint_flow_rate_m3h = g.state.setpoint_flow_rate_m3h :=
  (computeStep_frame g n).2.2.2.2.2.2.2.2.2.2.2.1

@[simp] theorem computeStep_state_read_flow_rate_m3h (g : Arduino1) (n : Nat) :
    (computeStep g n).2.state.read_flow_rate_m3h = g.state.read_flow_rate_m3h :=
  (computeStep_frame g n).2.2.2.2.2.2.2.2.2.2.2.2.1

@[simp] theorem computeStep_relay_01 (g : Arduino1) (n : Nat) :
    (computeStep g n).2.relay_01 = g.relay_01 :=
  (computeStep_frame g n).2.2.2.2.2.2.2.2.2.2.2.2.2.1

@[simp] theorem computeStep_relay_02 (g : Arduino1) (n : Nat) :
    (computeStep g n).2.relay_02 = g.relay_02 :=
  (computeStep_frame g n).2.2.2.2.2.2.2.2.2.2.2.2.2.2.1

@[simp] theorem computeStep_relay_03 (g : Arduino1) (n : Nat) :
    (computeStep g n).2.relay_03 = g.relay_03 :=
  (computeStep_frame g n).2.2.2.2.2.2.2.2.2.2.2.2.2.2.2.1

@[simp] theorem computeStep_relay_09 (g : Arduino1) (n : Nat) :
    (computeStep g n).2.relay_09 = g.relay_09 :=
  (computeStep_frame g n).2.2.2.2.2.2.2.2.2.2.2.2.2.2.2.2

theorem otpStep_frame (g : Arduino1) (c : Nat) :
    (otpStep g c).state.ENA_OTP = g.state.ENA_OTP ∧
    (otpStep g c).OTP_okay_prevMillis = g.OTP_okay_prevMillis ∧
    (otpStep g c).PID_pump_cur_set = g.PID_pump_cur_set ∧
    (otpStep g c).PID_pump_req_set = g.PID_pump_req_set ∧
    (otpStep g c).PID_pump_old_set = g.PID_pump_old_set ∧
    (otpStep g c).PID_pump_millis_when_set1_was_requested_last = g.PID_pump_millis_when_set1_was_requested_last ∧
    (otpStep g c).state.ENA_PID_pump = g.state.ENA_PID_pump ∧
    (otpStep g c).state.relay_09 = g.state.relay_09 ∧
    (otpStep g c).PID_pump.inAuto = g.PID_pump.inAuto ∧
    (otpStep g c).state.setpoint_flow_rate_m3h = g.state.setpoint_flow_rate_m3h ∧
    (otpStep g c).state.read_flow_rate_m3h = g.state.read_flow_rate_m3h ∧
    (otpStep g c).relay_09 = g.relay_09 := by
  simp only [otpStep]
  split_ifs <;> exact ⟨rfl, rfl, rfl, rfl, rfl, rfl, rfl, rfl, rfl, rfl, rfl, rfl⟩

@[simp] theorem otpStep_state_ENA_OTP (g : Arduino1) (c : Nat) :
    (otpStep g c).state.ENA_OTP = g.state.ENA_OTP :=
  (otpStep_frame g c).1

@[simp] theorem otpStep_OTP_okay_prevMillis (g : Arduino1) (c : Nat) :
    (otpStep g c).OTP_okay_prevMillis = g.OTP_okay_prevMillis :=
  (otpStep_frame g c).2.1

@[simp] theorem otpStep_PID_pump_cur_set (g : Arduino1) (c : Nat) :
    (otpStep g c).PID_pump_cur_set = g.PID_pump_cur_set :=
  (otpStep_frame g c).2.2.1

@[simp] theorem otpStep_PID_pump_req_set (g : Arduino1) (c : Nat) :
    (otpStep g c).PID_pump_req_set = g.PID_pump_req_set :=
  (otpStep_frame g c).2.2.2.1

@[simp] theorem otpStep_PID_pump_old_set (g : Arduino1) (c : Nat) :
    (otpStep g c).PID_pump_old_set = g.PID_pump_old_set :=
  (otpStep_frame g c).2.2.2.2.1

@[simp] theorem otpStep_PID_pump_millis_when_set1_was_requested_last (g : Arduino1) (c : Nat) :
    (otpStep g c).PID_pump_millis_when_set1_was_requested_last = g.PID_pump_millis_when_set1_was_requested_last :=
  (otpStep_frame g c).2.2.2.2.2.1

@[simp] theorem otpStep_state_ENA_PID_pump (g : Arduino1) (c : Nat) :
    (otpStep g c).state.ENA_PID_pump = g.state.ENA_PID_pump :=
  (otpStep_frame g c).2.2.2.2.2.2.1

@[simp] theorem otpStep_state_relay_09 (g : Arduino1) (c : Nat) :
    (otpStep g c).state.relay_09 = g.state.relay_09 :=
  (otpStep_frame g c).2.2.2.2.2.2.2.1

@[simp] theorem otpStep_PID_pump_inAuto (g : Arduino1) (c : Nat) :
    (otpStep g c).PID_pump.inAuto = g.PID_pump.inAuto :=
  (otpStep_frame g c).2.2.2.2.2.2.2.2.1

@[simp] theorem otpStep_state_setpoint_flow_rate_m3h (g : Arduino1) (c : Nat) :
    (otpStep g c).state.setpoint_flow_rate_m3h = g.state.setpoint_flow_rate_m3h :=
  (otpStep_frame g c).2.2.2.2.2.2.2.2.2.1

@[simp] theorem otpStep_state_read_flow_rate_m3h (g : Arduino1) (c : Nat) :
    (otpStep g c).state.read_flow_rate_m3h = g.state.read_flow_rate_m3h :=
  (otpStep_frame g c).2.2.2.2.2.2.2.2.2.2.1

@[simp] theorem otpStep_relay_09 (g : Arduino1) (c : Nat) :
    (otpStep g c).relay_09 = g.relay_09 :=
  (otpStep_frame g c).2.2.2.2.2.2.2.2.2.2.2

theorem relayUpdateStep_frame (g : Arduino1) :
    (relayUpdateStep g).state.ENA_OTP = g.state.ENA_OTP ∧
    (relayUpdateStep g).OTP_tripped_status = g.OTP_tripped_status ∧
    (relayUpdateStep g).OTP_tripped_status_old = g.OTP_tripped_status_old ∧
    (relayUpdateStep g).OTP_okay_prevMillis = g.OTP_okay_prevMillis ∧
    (relayUpdateStep g).PID_pump_cur_set = g.PID_pump_cur_set ∧
    (relayUpdateStep g).PID_pump_req_set = g.PID_pump_req_set ∧
    (relayUpdateStep g).PID_pump_old_set = g.PID_pump_old_set ∧
    (relayUpdateStep g).PID_pump_millis_when_set1_was_requested_last = g.PID_pump_millis_when_set1_was_requested_last ∧
    (relayUpdateStep g).state.ENA_PID_pump = g.state.ENA_PID_pump ∧
    (relayUpdateStep g).PID_pump.inAuto = g.PID_pump.inAuto ∧
    (relayUpdateStep g).state.setpoint_flow_rate_m3h = g.state.setpoint_flow_rate_m3h ∧
    (relayUpdateStep g).state.read_flow_rate_m3h = g.state.read_flow_rate_m3h := by
  exact ⟨rfl, rfl, rfl, rfl, rfl, rfl, rfl, rfl, rfl, rfl, rfl, rfl⟩

@[simp] theorem relayUpdateStep_state_ENA_OTP (g : Arduino1) :
    (relayUpdateStep g).state.ENA_OTP = g.state.ENA_OTP :=
  (relayUpdateStep_frame g).1

@[simp] theorem relayUpdateStep_OTP_tripped_status (g : Arduino1) :
    (relayUpdateStep g).OTP_tripped_status = g.OTP_tripped_status :=
  (relayUpdateStep_frame g).2.1

@[simp] theorem relayUpdateStep_OTP_tripped_status_old (g : Arduino1) :
    (relayUpdateStep g).OTP_tripped_status_old = g.OTP_tripped_status_old :=
  (relayUpdateStep_frame g).2.2.1

@[simp] theorem relayUpdateStep_OTP_okay_prevMillis (g : Arduino1) :
    (relayUpdateStep g).OTP_okay_prevMillis = g.OTP_okay_prevMillis :=
  (relayUpdateStep_frame g).2.2.2.1

@[simp] theorem relayUpdateStep_PID_pump_cur_set (g : Arduino1) :
    (relayUpdateStep g).PID_pump_cur_set = g.PID_pump_cur_set :=
  (relayUpdateStep_frame g).2.2.2.2.1

@[simp] theorem relayUpdateStep_PID_pump_req_set (g : Arduino1) :
    (relayUpdateStep g).PID_pump_req_set = g.PID_pump_req_set :=
  (relayUpdateStep_frame g).2.2.2.2.2.1

@[simp] theorem relayUpdateStep_PID_pump_old_set (g : Arduino1) :
    (relayUpdateStep g).PID_pump_old_set = g.PID_pump_old_set :=
  (relayUpdateStep_frame g).2.2.2.2.2.2.1

@[simp] theorem relayUpdateStep_PID_pump_millis_when_set1_was_requested_last (g : Arduino1) :
    (relayUpdateStep g).PID_pump_millis_when_set1_was_requested_last = g.PID_pump_millis_when_set1_was_requested_last :=
  (relayUpdateStep_frame g).2.2.2.2.2.2.2.1

@[simp] theorem relayUpdateStep_state_ENA_PID_pump (g : Arduino1) :
    (relayUpdateStep g).state.ENA_PID_pump = g.state.ENA_PID_pump :=
  (relayUpdateStep_frame g).2.2.2.2.2.2.2.2.1

@[simp] theorem relayUpdateStep_PID_pump_inAuto (g : Arduino1) :
    (relayUpdateStep g).PID_pump.inAuto = g.PID_pump.inAuto :=
  (relayUpdateStep_frame g).2.2.2.2.2.2.2.2.2.1

@[simp] theorem relayUpdateStep_state_setpoint_flow_rate_m3h (g : Arduino1) :
    (relayUpdateStep g).state.setpoint_flow_rate_m3h = g.state.setpoint_flow_rate_m3h :=
  (relayUpdateStep_frame g).2.2.2.2.2.2.2.2.2.2.1

@[simp] theorem relayUpdateStep_state_read_flow_rate_m3h (g : Arduino1) :
    (relayUpdateStep g).state.read_flow_rate_m3h = g.state.read_flow_rate_m3h :=
  (relayUpdateStep_frame g).2.2.2.2.2.2.2.2.2.2.2

theorem wdtStep_frame (g : Arduino1) (c : Nat) :
    (wdtStep g c).state.ENA_OTP = g.state.ENA_OTP ∧
    (wdtStep g c).OTP_tripped_status = g.OTP_tripped_status ∧
    (wdtStep g c).OTP_tripped_status_old = g.OTP_tripped_status_old ∧
    (wdtStep g c).OTP_okay_prevMillis = g.OTP_okay_prevMillis ∧
    (wdtStep g c).PID_pump_cur_set = g.PID_pump_cur_set ∧
    (wdtStep g c).PID_pump_req_set = g.PID_pump_req_set ∧
    (wdtStep g c).PID_pump_old_set = g.PID_pump_old_set ∧
    (wdtStep g c).PID_pump_millis_when_set1_was_requested_last = g.PID_pump_millis_when_set1_was_requested_last ∧
    (wdtStep g c).state.ENA_PID_pump = g.state.ENA_PID_pump ∧
    (wdtStep g c).state.relay_09 = g.state.relay_09 ∧
    (wdtStep g c).PID_pump.inAuto = g.PID_pump.inAuto ∧
    (wdtStep g c).state.setpoint_flow_rate_m3h = g.state.setpoint_flow_rate_m3h ∧
    (wdtStep g c).state.read_flow_rate_m3h = g.state.read_flow_rate_m3h ∧
    (wdtStep g c).relay_01 = g.relay_01 ∧
    (wdtStep g c).relay_02 = g.relay_02 ∧
    (wdtStep g c).relay_03 = g.relay_03 ∧
    (wdtStep g c).relay_09 = g.relay_09 := by
  simp only [wdtStep]
  split_ifs <;> exact ⟨rfl, rfl, rfl, rfl, rfl, rfl, rfl, rfl, rfl, rfl, rfl, rfl, rfl, rfl, rfl, rfl, rfl⟩

@[simp] theorem wdtStep_state_ENA_OTP (g : Arduino1) (c : Nat) :
    (wdtStep g c).state.ENA_OTP = g.state.ENA_OTP :=
  (wdtStep_frame g c).1

@[simp] theorem wdtStep_OTP_tripped_status (g : Arduino1) (c : Nat) :
    (wdtStep g c).OTP_tripped_status = g.OTP_tripped_status :=
  (wdtStep_frame g c).2.1

@[simp] theorem wdtStep_OTP_tripped_status_old (g : Arduino1) (c : Nat) :
    (wdtStep g c).OTP_tripped_status_old = g.OTP_tripped_status_old :=
  (wdtStep_frame g c).2.2.1

@[simp] theorem wdtStep_OTP_okay_prevMillis (g : Arduino1) (c : Nat) :
    (wdtStep g c).OTP_okay_prevMillis = g.OTP_okay_prevMillis :=
  (wdtStep_frame g c).2.2.2.1

@[simp] theorem wdtStep_PID_pump_cur_set (g : Arduino1) (c : Nat) :
    (wdtStep g c).PID_pump_cur_set = g.PID_pump_cur_set :=
  (wdtStep_frame g c).2.2.2.2.1

@[simp] theorem wdtStep_PID_pump_req_set (g : Arduino1) (c : Nat) :
    (wdtStep g c).PID_pump_req_set = g.PID_pump_req_set :=
  (wdtStep_frame g c).2.2.2.2.2.1

@[simp] theorem wdtStep_PID_pump_old_set (g : Arduino1) (c : Nat) :
    (wdtStep g c).PID_pump_old_set = g.PID_pump_old_set :=
  (wdtStep_frame g c).2.2.2.2.2.2.1

@[simp] theorem wdtStep_PID_pump_millis_when_set1_was_requested_last (g : Arduino1) (c : Nat) :
    (wdtStep g c).PID_pump_millis_when_set1_was_requested_last = g.PID_pump_millis_when_set1_was_requested_last :=
  (wdtStep_frame g c).2.2.2.2.2.2.2.1

@[simp] theorem wdtStep_state_ENA_PID_pump (g : Arduino1) (c : Nat) :
    (wdtStep g c).state.ENA_PID_pump = g.state.ENA_PID_pump :=
  (wdtStep_frame g c).2.2.2.2.2.2.2.2.1

@[simp] theorem wdtStep_state_relay_09 (g : Arduino1) (c : Nat) :
    (wdtStep g c).state.relay_09 = g.state.relay_09 :=
  (wdtStep_frame g c).2.2.2.2.2.2.2.2.2.1

@[simp] theorem wdtStep_PID_pump_inAuto (g : Arduino1) (c : Nat) :
    (wdtStep g c).PID_pump.inAuto = g.PID_pump.inAuto :=
  (wdtStep_frame g c).2.2.2.2.2.2.2.2.2.2.1

@[simp] theorem wdtStep_state_setpoint_flow_rate_m3h (g : Arduino1) (c : Nat) :
    (wdtStep g c).state.setpoint_flow_rate_m3h = g.state.setpoint_flow_rate_m3h :=
  (wdtStep_frame g c).2.2.2.2.2.2.2.2.2.2.2.1

@[simp] theorem wdtStep_state_read_flow_rate_m3h (g : Arduino1) (c : Nat) :
    (wdtStep g c).state.read_flow_rate_m3h = g.state.read_flow_rate_m3h :=
  (wdtStep_frame g c).2.2.2.2.2.2.2.2.2.2.2.2.1

@[simp] theorem wdtStep_relay_01 (g : Arduino1) (c : Nat) :
    (wdtStep g c).relay_01 = g.relay_01 :=
  (wdtStep_frame g c).2.2.2.2.2.2.2.2.2.2.2.2.2.1

@[simp] theorem wdtStep_relay_02 (g : Arduino1) (c : Nat) :
    (wdtStep g c).relay_02 = g.relay_02 :=
  (wdtStep_frame g c).2.2.2.2.2.2.2.2.2.2.2.2.2.2.1

@[simp] theorem wdtStep_relay_03 (g : Arduino1) (c : Nat) :
    (wdtStep g c).relay_03 = g.relay_03 :=
  (wdtStep_frame g c).2.2.2.2.2.2.2.2.2.2.2.2.2.2.2.1

@[simp] theorem wdtStep_relay_09 (g : Arduino1) (c : Nat) :
    (wdtStep g c).relay_09 = g.relay_09 :=
  (wdtStep_frame g c).2.2.2.2.2.2.2.2.2.2.2.2.2.2.2.2

/-! ### The command section -/

theorem execCmd_frame (E : Env) (g : Arduino1) (c : Nat) (strCmd : String) (cmd : Cmd) :
    (execCmd E g c strCmd cmd).PID_pump_cur_set = g.PID_pump_cur_set ∧
    (execCmd E g c strCmd cmd).PID_pump_req_set = g.PID_pump_req_set ∧
    (execCmd E g c strCmd cmd).PID_pump_old_set = g.PID_pump_old_set ∧
    (execCmd E g c strCmd cmd).PID_pump_millis_when_set1_was_requested_last = g.PID_pump_millis_when_set1_was_requested_last ∧
    (execCmd E g c strCmd cmd).state.relay_09 = g.state.relay_09 ∧
    (execCmd E g c strCmd cmd).PID_pump = g.PID_pump ∧
    (execCmd E g c strCmd cmd).state.read_flow_rate_m3h = g.state.read_flow_rate_m3h := by
  cases cmd with
  | relay n a =>
    simp only [execCmd, setRelay]
    split <;> exact ⟨rfl, rfl, rfl, rfl, rfl, rfl, rfl⟩
  | ena_otp b => cases b <;> exact ⟨rfl, rfl, rfl, rfl, rfl, rfl, rfl⟩
  | _ => exact ⟨rfl, rfl, rfl, rfl, rfl, rfl, rfl⟩

theorem commandStep_frame (E : Env) (g : Arduino1) (i : LoopInput) :
    (commandStep E g i).PID_pump_cur_set = g.PID_pump_cur_set ∧
    (commandStep E g i).PID_pump_req_set = g.PID_pump_req_set ∧
    (commandStep E g i).PID_pump_old_set = g.PID_pump_old_set ∧
    (commandStep E g i).PID_pump_millis_when_set1_was_requested_last = g.PID_pump_millis_when_set1_was_requested_last ∧
    (commandStep E g i).state.relay_09 = g.state.relay_09 ∧
    (commandStep E g i).PID_pump = g.PID_pump ∧
    (commandStep E g i).state.read_flow_rate_m3h = g.state.read_flow_rate_m3h := by
  obtain ⟨cm, m1, r1, m2, r2, dc, pc, np⟩ := i
  cases dc with
  | none =>
    cases pc with
    | none => exact ⟨rfl, rfl, rfl, rfl, rfl, rfl, rfl⟩
    | some sp => exact execCmd_frame E g cm sp (decodePython sp)
  | some sd =>
    cases pc with
    | none => exact execCmd_frame E g cm sd (decodeDebug sd)
    | some sp =>
      have h1 := execCmd_frame E g cm sd (decodeDebug sd)
      have h2 := execCmd_frame E (execCmd E g cm sd (decodeDebug sd)) cm sp (decodePython sp)
      simp only [h1] at h2
      exact h2

@[simp] theorem commandStep_PID_pump_cur_set (E : Env) (g : Arduino1) (i : LoopInput) :
    (commandStep E g i).PID_pump_cur_set = g.PID_pump_cur_set :=
  (commandStep_frame E g i).1

@[simp] theorem commandStep_PID_pump_req_set (E : Env) (g : Arduino1) (i : LoopInput) :
    (commandStep E g i).PID_pump_req_set = g.PID_pump_req_set :=
  (commandStep_frame E g i).2.1

@[simp] theorem commandStep_PID_pump_old_set (E : Env) (g : Arduino1) (i : LoopInput) :
    (commandStep E g i).PID_pump_old_set = g.PID_pump_old_set :=
  (commandStep_frame E g i).2.2.1

@[simp] theorem commandStep_PID_pump_millis_when_set1_was_requested_last (E : Env) (g : Arduino1) (i : LoopInput) :
    (commandStep E g i).PID_pump_millis_when_set1_was_requested_last = g.PID_pump_millis_when_set1_was_requested_last :=
  (commandStep_frame E g i).2.2.2.1

@[simp] theorem commandStep_state_relay_09 (E : Env) (g : Arduino1) (i : LoopInput) :
    (commandStep E g i).state.relay_09 = g.state.relay_09 :=
  (commandStep_frame E g i).2.2.2.2.1

@[simp] theorem commandStep_PID_pump (E : Env) (g : Arduino1) (i : LoopInput) :
    (commandStep E g i).PID_pump = g.PID_pump :=
  (commandStep_frame E g i).2.2.2.2.2.1

@[simp] theorem commandStep_state_read_flow_rate_m3h (E : Env) (g : Arduino1) (i : LoopInput) :
    (commandStep E g i).state.read_flow_rate_m3h = g.state.read_flow_rate_m3h :=
  (commandStep_frame E g i).2.2.2.2.2.2

theorem dispatch_eq (chain : List (Pat × Cmd)) (s : String) (c : Cmd)
    (h : dispatch chain s = c) (hc : c ≠ Cmd.none) :
    ∃ e ∈ chain, e.1.test s = true ∧ e.2 = c := by
  unfold dispatch at h
  cases hf : chain.find? (fun e => e.1.test s) with
  | none =>
    rw [hf] at h
    exact absurd h.symm hc
  | some e =>
    rw [hf] at h
    exact ⟨e, List.mem_of_find?_eq_some hf, by simpa using List.find?_some hf, h⟩

theorem Pat.test_exact (p s : String) (h : (Pat.exact p).test s = true) : s = p := by
  simpa [Pat.test] using h

theorem decodePython_otp_okay (s : String) (h : decodePython s = Cmd.otp_okay) :
    s = "otp_okay" := by
  obtain ⟨e, he, ht, hc⟩ := dispatch_eq pythonChain s _ h (by decide)
  have key : ∀ e ∈ pythonChain, e.2 = Cmd.otp_okay → e.1 = Pat.exact "otp_okay" := by decide
  rw [key e he hc] at ht
  exact Pat.test_exact _ _ ht

theorem decodePython_otp_trip (s : String) (h : decodePython s = Cmd.otp_trip) :
    s = "otp_trip" := by
  obtain ⟨e, he, ht, hc⟩ := dispatch_eq pythonChain s _ h (by decide)
  have key : ∀ e ∈ pythonChain, e.2 = Cmd.otp_trip → e.1 = Pat.exact "otp_trip" := by decide
  rw [key e he hc] at ht
  exact Pat.test_exact _ _ ht

theorem decodePython_ena_otp_off (s : String) (h : decodePython s = Cmd.ena_otp false) :
    s = "ena_otp off" := by
  obtain ⟨e, he, ht, hc⟩ := dispatch_eq pythonChain s _ h (by decide)
  have key : ∀ e ∈ pythonChain, e.2 = Cmd.ena_otp false → e.1 = Pat.exact "ena_otp off" := by
    decide
  rw [key e he hc] at ht
  exact Pat.test_exact _ _ ht

theorem decodeDebug_ena_otp_off (s : String) (h : decodeDebug s = Cmd.ena_otp false) :
    s = "ena_otp off" := by
  obtain ⟨e, he, ht, hc⟩ := dispatch_eq debugChain s _ h (by decide)
  have key : ∀ e ∈ debugChain, e.2 = Cmd.ena_otp false → e.1 = Pat.exact "ena_otp off" := by
    decide
  rw [key e he hc] at ht
  exact Pat.test_exact _ _ ht

theorem decodeDebug_ne_otp (s : String) :
    decodeDebug s ≠ Cmd.otp_okay ∧ decodeDebug s ≠ Cmd.otp_trip := by
  have key : ∀ e ∈ debugChain, e.2 ≠ Cmd.otp_okay ∧ e.2 ≠ Cmd.otp_trip := by decide
  constructor
  · intro h
    obtain ⟨e, he, _, hc⟩ := dispatch_eq debugChain s _ h (by decide)
    exact (key e he).1 hc
  · intro h
    obtain ⟨e, he, _, hc⟩ := dispatch_eq debugChain s _ h (by decide)
    exact (key e he).2 hc

theorem execCmd_otp (E : Env) (g : Arduino1) (c : Nat) (strCmd : String) (cmd : Cmd)
    (h1 : cmd ≠ Cmd.otp_okay) (h2 : cmd ≠ Cmd.otp_trip) (h3 : cmd ≠ Cmd.ena_otp false)
    (he : g.state.ENA_OTP = true) (ht : g.OTP_tripped_status = false) :
    (execCmd E g c strCmd cmd).state.ENA_OTP = true ∧
    (execCmd E g c strCmd cmd).OTP_tripped_status = false ∧
    (execCmd E g c strCmd cmd).OTP_okay_prevMillis = g.OTP_okay_prevMillis := by
  cases cmd with
  | relay n a =>
    simp only [execCmd, setRelay]
    split <;> exact ⟨he, ht, rfl⟩
  | ena_otp b =>
    cases b
    · exact absurd rfl h3
    · exact ⟨rfl, ht, rfl⟩
  | otp_okay => exact absurd rfl h1
  | otp_trip => exact absurd rfl h2
  | soft_reset => exact ⟨rfl, rfl, rfl⟩
  | _ => exact ⟨he, ht, rfl⟩

theorem commandStep_otp (E : Env) (g : Arduino1) (i : LoopInput)
    (hd : i.debugCmd ≠ some "ena_otp off")
    (h1 : i.pythonCmd ≠ some "otp_okay") (h2 : i.pythonCmd ≠ some "otp_trip")
    (h3 : i.pythonCmd ≠ some "ena_otp off")
    (he : g.state.ENA_OTP = true) (ht : g.OTP_tripped_status = false) :
    (commandStep E g i).state.ENA_OTP = true ∧
    (commandStep E g i).OTP_tripped_status = false ∧
    (commandStep E g i).OTP_okay_prevMillis = g.OTP_okay_prevMillis := by
  obtain ⟨cm, m1, r1, m2, r2, dc, pc, np⟩ := i
  have hdbg : ∀ sd : String, some sd ≠ some "ena_otp off" →
      (execCmd E g cm sd (decodeDebug sd)).state.ENA_OTP = true ∧
      (execCmd E g cm sd (decodeDebug sd)).OTP_tripped_status = false ∧
      (execCmd E g cm sd (decodeDebug sd)).OTP_okay_prevMillis = g.OTP_okay_prevMillis := by
    intro sd hsd
    exact execCmd_otp E g cm sd _ (decodeDebug_ne_otp sd).1 (decodeDebug_ne_otp sd).2
      (fun h => hsd (by rw [decodeDebug_ena_otp_off sd h])) he ht
  have hpy : ∀ (g1 : Arduino1) (sp : String), some sp ≠ some "otp_okay" →
      some sp ≠ some "otp_trip" → some sp ≠ some "ena_otp off" →
      g1.state.ENA_OTP = true → g1.OTP_tripped_status = false →
      (execCmd E g1 cm sp (decodePython sp)).state.ENA_OTP = true ∧
      (execCmd E g1 cm sp (decodePython sp)).OTP_tripped_status = false ∧
      (execCmd E g1 cm sp (decodePython sp)).OTP_okay_prevMillis = g1.OTP_okay_prevMillis := by
    intro g1 sp k1 k2 k3 he1 ht1
    exact execCmd_otp E g1 cm sp _
      (fun h => k1 (by rw [decodePython_otp_okay sp h]))
      (fun h => k2 (by rw [decodePython_otp_trip sp h]))
      (fun h => k3 (by rw [decodePython_ena_otp_off sp h])) he1 ht1
  cases dc with
  | none =>
    cases pc with
    | none => exact ⟨he, ht, rfl⟩
    | some sp => exact hpy g sp h1 h2 h3 he ht
  | some sd =>
    obtain ⟨a1, a2, a3⟩ := hdbg sd hd
    cases pc with
    | none => exact ⟨a1, a2, a3⟩
    | some sp =>
      obtain ⟨b1, b2, b3⟩ := hpy _ sp h1 h2 h3 a1 a2
      exact ⟨b1, b2, b3.trans a3⟩

/-! ### The relays and the interlock section -/

theorem Relay.update_spec (r : Relay) :
    r.update.relay._fState = r._fState ∧ r.update.relay._fPrevState = r._fState ∧
    r.update.ret = r._fState ∧ r.update.relay._pin = r._pin := by
  simp only [Relay.update, Relay.needsUpdate, Relay.actuateState]
  split_ifs with h
  · exact ⟨rfl, rfl, rfl, rfl⟩
  · refine ⟨rfl, ?_, rfl, rfl⟩
    have h1 : r._fState = r._fPrevState := by simpa using h
    exact h1.symm

theorem relayUpdateStep_relays (g : Arduino1) :
    (relayUpdateStep g).relay_01 = g.relay_01.update.relay ∧
    (relayUpdateStep g).relay_02 = g.relay_02.update.relay ∧
    (relayUpdateStep g).relay_03 = g.relay_03.update.relay ∧
    (relayUpdateStep g).state.relay_01 = g.relay_01.update.ret ∧
    (relayUpdateStep g).state.relay_02 = g.relay_02.update.ret ∧
    (relayUpdateStep g).state.relay_03 = g.relay_03.update.ret :=
  ⟨rfl, rfl, rfl, rfl, rfl, rfl⟩

theorem wdtStep_relays (g : Arduino1) (c : Nat) :
    (wdtStep g c).state.relay_01 = g.state.relay_01 ∧
    (wdtStep g c).state.relay_02 = g.state.relay_02 ∧
    (wdtStep g c).state.relay_03 = g.state.relay_03 := by
  simp only [wdtStep]
  split_ifs <;> exact ⟨rfl, rfl, rfl⟩

theorem otpStep_tripped (g : Arduino1) (c : Nat) (he : g.state.ENA_OTP = true) :
    (otpStep g c).OTP_tripped_status =
      (decide (usub32 c g.OTP_okay_prevMillis > OTP_OKAY_TIMEOUT_MS) || g.OTP_tripped_status) := by
  simp only [otpStep, he]
  split_ifs <;> simp_all

theorem otpStep_rising (g : Arduino1) (c : Nat) (he : g.state.ENA_OTP = true)
    (hold : g.OTP_tripped_status_old = false)
    (ht : (otpStep g c).OTP_tripped_status = true) :
    (otpStep g c).relay_01._fState = false ∧ (otpStep g c).relay_02._fState = false ∧
    (otpStep g c).relay_03._fState = false := by
  rw [otpStep_tripped g c he] at ht
  simp only [otpStep, he, hold]
  split_ifs with h1 h2 h3 h4 h5 h6 <;>
    simp_all [Relay.setStateToBeActuated]


theorem loop_ENA_OTP (E : Env) (g : Arduino1) (i : LoopInput) :
    (loop E g i).state.ENA_OTP = (beforeOTP E g i).state.ENA_OTP := by
  simp [loop]

theorem loop_OTP_tripped_status (E : Env) (g : Arduino1) (i : LoopInput) :
    (loop E g i).OTP_tripped_status =
      (otpStep (beforeOTP E g i) i.curMillis).OTP_tripped_status := by
  simp [loop]

theorem beforeOTP_otp (E : Env) (g : Arduino1) (i : LoopInput) :
    (beforeOTP E g i).state.ENA_OTP = (commandStep E (daqStep E g i) i).state.ENA_OTP ∧
    (beforeOTP E g i).OTP_tripped_status =
      (commandStep E (daqStep E g i) i).OTP_tripped_status ∧
    (beforeOTP E g i).OTP_okay_prevMillis =
      (commandStep E (daqStep E g i) i).OTP_okay_prevMillis := by
  simp [beforeOTP, beforeCompute, beforeGrant, beforeRequest]

/-- C2, as stated, fails: after "otp_trip" has tripped the interlock, a later
"r1 on" is applied although the interlock is enabled and still TRIPPED. -/
theorem relay_on_while_tripped :
    (run (Env.sample 0) (Arduino1.init 0 0)
      [LoopInput.python 10 "otp_trip", LoopInput.python 20 "r1 on"]).state.ENA_OTP = true ∧
    (run (Env.sample 0) (Arduino1.init 0 0)
      [LoopInput.python 10 "otp_trip", LoopInput.python 20 "r1 on"]).OTP_tripped_status = true ∧
    (run (Env.sample 0) (Arduino1.init 0 0)
      [LoopInput.python 10 "otp_trip", LoopInput.python 20 "r1 on"]).state.relay_01 = true ∧
    (run (Env.sample 0) (Arduino1.init 0 0)
      [LoopInput.python 10 "otp_trip", LoopInput.python 20 "r1 on"]).relay_01._fPrevState = true := by
  decide!

/-- C2, amended: at the end of every loop iteration in which the interlock is
enabled and TRIPPED and whose interlock section found the previous-tripped
flag still false (the trip is new in that iteration: by time-out, by
"otp_trip", or re-armed by "ena_otp on"), relays 1 to 3 are applied off, for
every command of either channel processed in that iteration and every earlier
state. -/
theorem relays_off_on_new_trip (E : Env) (g : Arduino1) (i : LoopInput)
    (hold : (beforeOTP E g i).OTP_tripped_status_old = false)
    (hena : (loop E g i).state.ENA_OTP = true)
    (htrip : (loop E g i).OTP_tripped_status = true) :
    ((loop E g i).state.relay_01 = false ∧ (loop E g i).state.relay_02 = false ∧
      (loop E g i).state.relay_03 = false) ∧
    ((loop E g i).relay_01._fState = false ∧ (loop E g i).relay_01._fPrevState = false) ∧
    ((loop E g i).relay_02._fState = false ∧ (loop E g i).relay_02._fPrevState = false) ∧
    ((loop E g i).relay_03._fState = false ∧ (loop E g i).relay_03._fPrevState = false) := by
  rw [loop_ENA_OTP] at hena
  rw [loop_OTP_tripped_status] at htrip
  obtain ⟨k1, k2, k3⟩ := otpStep_rising (beforeOTP E g i) i.curMillis hena hold htrip
  obtain ⟨u1, u2, u3, v1, v2, v3⟩ := relayUpdateStep_relays (otpStep (beforeOTP E g i) i.curMillis)
  obtain ⟨w1, w2, w3⟩ := wdtStep_relays (relayUpdateStep (otpStep (beforeOTP E g i) i.curMillis))
    i.curMillis
  have a1 := Relay.update_spec (otpStep (beforeOTP E g i) i.curMillis).relay_01
  have a2 := Relay.update_spec (otpStep (beforeOTP E g i) i.curMillis).relay_02
  have a3 := Relay.update_spec (otpStep (beforeOTP E g i) i.curMillis).relay_03
  simp only [loop, wdtStep_relay_01, wdtStep_relay_02, wdtStep_relay_03, w1, w2, w3,
    u1, u2, u3, v1, v2, v3]
  rw [a1.1, a1.2.1, a1.2.2.1, a2.1, a2.2.1, a2.2.2.1, a3.1, a3.2.1, a3.2.2.1, k1, k2, k3]
  exact ⟨⟨rfl, rfl, rfl⟩, ⟨rfl, rfl⟩, ⟨rfl, rfl⟩, ⟨rfl, rfl⟩⟩

theorem relays_off_on_new_trip_witness :
    ((beforeOTP (Env.sample 0) (Arduino1.init 0 0)
        (LoopInput.python 3001 "r1 on")).OTP_tripped_status_old = false ∧
     (loop (Env.sample 0) (Arduino1.init 0 0) (LoopInput.python 3001 "r1 on")).state.ENA_OTP = true ∧
     (loop (Env.sample 0) (Arduino1.init 0 0)
        (LoopInput.python 3001 "r1 on")).OTP_tripped_status = true) ∧
    (loop (Env.sample 0) (Arduino1.init 0 0) (LoopInput.python 3001 "r1 on")).state.relay_01 = false :=
  ⟨by decide!,
   (relays_off_on_new_trip (Env.sample 0) (Arduino1.init 0 0) (LoopInput.python 3001 "r1 on")
      (by decide!) (by decide!) (by decide!)).1.1⟩

/-- C3, as stated, fails: with the interlock enabled, the state OK and no
command, an iteration at elapsed time exactly 3000 ms does not trip. -/
theorem no_trip_at_exact_timeout :
    (Arduino1.init 0 0).state.ENA_OTP = true ∧
    (Arduino1.init 0 0).OTP_tripped_status = false ∧
    OTP_OKAY_TIMEOUT_MS ≤ usub32 3000 (Arduino1.init 0 0).OTP_okay_prevMillis ∧
    (loop (Env.sample 0) (Arduino1.init 0 0) (LoopInput.idle 3000)).OTP_tripped_status = false := by
  decide!

/-- C3, amended: with the interlock enabled, the state OK and no command in
the iteration that touches the interlock state (no "otp_okay", no "otp_trip",
no "ena_otp off" on either channel), a loop iteration at time `curMillis` sets
the interlock to TRIPPED if and only if the wrapped elapsed time
`(curMillis - OTP_okay_prevMillis) mod 2^32` exceeds the timeout of 3000 ms: it
does not trip at elapsed 3000 and it does trip at elapsed 3001. -/
theorem trip_iff_elapsed_exceeds_timeout (E : Env) (g : Arduino1) (i : LoopInput)
    (hena : g.state.ENA_OTP = true) (hok : g.OTP_tripped_status = false)
    (hd : i.debugCmd ≠ some "ena_otp off")
    (h1 : i.pythonCmd ≠ some "otp_okay") (h2 : i.pythonCmd ≠ some "otp_trip")
    (h3 : i.pythonCmd ≠ some "ena_otp off") :
    (loop E g i).OTP_tripped_status = true ↔
      3000 < usub32 i.curMillis g.OTP_okay_prevMillis := by
  obtain ⟨c1, c2, c3⟩ := commandStep_otp E (daqStep E g i) i hd h1 h2 h3
    (by simpa using hena) (by simpa using hok)
  obtain ⟨b1, b2, b3⟩ := beforeOTP_otp E g i
  rw [loop_OTP_tripped_status, otpStep_tripped _ _ (b1.trans c1), b2, c2, b3, c3]
  simp [OTP_OKAY_TIMEOUT_MS]

theorem trip_iff_elapsed_exceeds_timeout_witness :
    ((Arduino1.init 0 0).state.ENA_OTP = true ∧
     (Arduino1.init 0 0).OTP_tripped_status = false ∧
     (LoopInput.python 3001 "r1 on").debugCmd ≠ some "ena_otp off" ∧
     (LoopInput.python 3001 "r1 on").pythonCmd ≠ some "otp_okay" ∧
     (LoopInput.python 3001 "r1 on").pythonCmd ≠ some "otp_trip" ∧
     (LoopInput.python 3001 "r1 on").pythonCmd ≠ some "ena_otp off") ∧
    ((loop (Env.sample 0) (Arduino1.init 0 0) (LoopInput.python 3001 "r1 on")).OTP_tripped_status
        = true ↔
      3000 < usub32 (LoopInput.python 3001 "r1 on").curMillis
        (Arduino1.init 0 0).OTP_okay_prevMillis) :=
  ⟨by decide!,
   trip_iff_elapsed_exceeds_timeout (Env.sample 0) (Arduino1.init 0 0)
     (LoopInput.python 3001 "r1 on") (by decide!) (by decide!) (by decide!) (by decide!)
     (by decide!) (by decide!)⟩

/-! ### The PID section -/

theorem loop_PID_pump_cur_set (E : Env) (g : Arduino1) (i : LoopInput) :
    (loop E g i).PID_pump_cur_set =
      (grantStep (beforeGrant E g i) i.curMillis).PID_pump_cur_set := by
  simp [loop, beforeOTP, beforeCompute]

theorem grantStep_fast_to_stable (g : Arduino1) (c : Nat)
    (hena : g.state.ENA_PID_pump = true) (hcur : g.PID_pump_cur_set = 1)
    (hreq : g.PID_pump_req_set = 2) :
    (grantStep g c).PID_pump_cur_set =
      if 20000 < usub32 c g.PID_pump_millis_when_set1_was_requested_last then 2 else 1 := by
  simp only [grantStep, hena, hcur, hreq, PID_pump_switch_wait_period]
  split_ifs <;> simp_all

/-- C4, as stated, fails: 20000 ms after the fast set was last requested, with
automatic control enabled, the fast set granted and the stable set requested,
the stable set is not granted. -/
theorem no_grant_at_exact_dwell :
    (beforeGrant (Env.sample 15) Arduino1.settled (LoopInput.sampling 20030 2343 none)).state.ENA_PID_pump
      = true ∧
    (beforeGrant (Env.sample 15) Arduino1.settled (LoopInput.sampling 20030 2343 none)).PID_pump_cur_set = 1 ∧
    (beforeGrant (Env.sample 15) Arduino1.settled (LoopInput.sampling 20030 2343 none)).PID_pump_req_set = 2 ∧
    usub32 (LoopInput.sampling 20030 2343 none).curMillis
      (beforeGrant (Env.sample 15) Arduino1.settled
        (LoopInput.sampling 20030 2343 none)).PID_pump_millis_when_set1_was_requested_last = 20000 ∧
    (loop (Env.sample 15) Arduino1.settled (LoopInput.sampling 20030 2343 none)).PID_pump_cur_set = 1 := by
  decide!

/-- C4, amended: in a loop iteration with automatic control enabled, the
granted set being the fast set (1) and the requested set being the stable set
(2), the stable set is granted if and only if the wrapped elapsed time since
the fast set was last requested exceeds the dwell time of 20000 ms: granting
fails at elapsed 20000 ms and succeeds at elapsed 20001 ms. -/
theorem stable_granted_iff_dwell_exceeded (E : Env) (g : Arduino1) (i : LoopInput)
    (hena : (beforeGrant E g i).state.ENA_PID_pump = true)
    (hcur : (beforeGrant E g i).PID_pump_cur_set = 1)
    (hreq : (beforeGrant E g i).PID_pump_req_set = 2) :
    (loop E g i).PID_pump_cur_set = 2 ↔
      20000 < usub32 i.curMillis
        (beforeGrant E g i).PID_pump_millis_when_set1_was_requested_last := by
  rw [loop_PID_pump_cur_set, grantStep_fast_to_stable _ _ hena hcur hreq]
  split_ifs with h <;> simp [h]

theorem stable_granted_iff_dwell_exceeded_witness :
    ((beforeGrant (Env.sample 15) Arduino1.settled (LoopInput.sampling 20031 2343 none)).state.ENA_PID_pump
        = true ∧
     (beforeGrant (Env.sample 15) Arduino1.settled (LoopInput.sampling 20031 2343 none)).PID_pump_cur_set = 1 ∧
     (beforeGrant (Env.sample 15) Arduino1.settled (LoopInput.sampling 20031 2343 none)).PID_pump_req_set = 2) ∧
    ((loop (Env.sample 15) Arduino1.settled (LoopInput.sampling 20031 2343 none)).PID_pump_cur_set = 2 ↔
      20000 < usub32 (LoopInput.sampling 20031 2343 none).curMillis
        (beforeGrant (Env.sample 15) Arduino1.settled
          (LoopInput.sampling 20031 2343 none)).PID_pump_millis_when_set1_was_requested_last) :=
  ⟨by decide!,
   stable_granted_iff_dwell_exceeded (Env.sample 15) Arduino1.settled (LoopInput.sampling 20031 2343 none)
     (by decide!) (by decide!) (by decide!)⟩

theorem pidModeStep_inAuto (g : Arduino1) :
    (pidModeStep g).PID_pump.inAuto = (g.state.ENA_PID_pump && g.state.relay_09) := by
  cases h1 : g.state.ENA_PID_pump <;> cases h2 : g.state.relay_09 <;>
    cases h3 : g.PID_pump.inAuto <;>
    simp [pidModeStep, boolToInt, PID.GetMode, PID.SetMode, PID.Initialize, AUTOMATIC, MANUAL,
      h1, h2, h3]

theorem Compute_fst (p : PID) (now : Nat) (Input Setpoint Output : ℚ) :
    (p.Compute now Input Setpoint Output).1 =
      (p.inAuto && decide (p.SampleTime ≤ usub32 now p.lastTime)) := by
  simp only [PID.Compute]
  cases h : p.inAuto <;> simp
  split_ifs with h2
  · simp [h2]
  · simp [h2]

theorem computeStep_fst (g : Arduino1) (n : Nat) :
    (computeStep g n).1 =
      (g.PID_pump.Compute n g.state.read_flow_rate_m3h g.state.setpoint_flow_rate_m3h
        g.state.set_pump_speed_pct).1 := by
  simp only [computeStep]
  split_ifs with h
  · exact h.symm
  · simpa using h

/-- C6: in every loop iteration, at the point where `PID::Compute` is called,
the PID is in automatic mode if and only if both `ENA_PID_pump` and
`state.relay_09` are true; hence `Compute` returns true, and the pump speed is
written, only when both hold. -/
theorem automatic_iff_enabled_and_pump_on (E : Env) (g : Arduino1) (i : LoopInput) :
    ((beforeCompute E g i).PID_pump.inAuto = true ↔
      ((beforeCompute E g i).state.ENA_PID_pump = true ∧
       (beforeCompute E g i).state.relay_09 = true)) ∧
    ((computeStep (beforeCompute E g i) i.nowPID).1 = true →
      ((beforeCompute E g i).state.ENA_PID_pump = true ∧
       (beforeCompute E g i).state.relay_09 = true)) := by
  have key : (beforeCompute E g i).PID_pump.inAuto =
      ((beforeCompute E g i).state.ENA_PID_pump && (beforeCompute E g i).state.relay_09) := by
    simp [beforeCompute, beforeGrant, beforeRequest, pidModeStep_inAuto]
  constructor
  · rw [key]
    simp
  · intro h
    rw [computeStep_fst, Compute_fst, key] at h
    simp at h
    exact h.1

/-! ### The dwell time over a run -/

theorem requestStep_stamp (g : Arduino1) (c : Nat) :
    (requestStep g c).PID_pump_millis_when_set1_was_requested_last =
      if (dev_setp_pct g).gt (PID_pump_switch_pct + PID_pump_switch_deadband / 2) = true then c
      else g.PID_pump_millis_when_set1_was_requested_last := by
  simp only [requestStep]
  split_ifs <;> rfl

theorem requestStep_req_of_fast (g : Arduino1) (c : Nat)
    (h : (dev_setp_pct g).gt (PID_pump_switch_pct + PID_pump_switch_deadband / 2) = true) :
    (requestStep g c).PID_pump_req_set = 1 := by
  simp only [requestStep, h]
  rfl

theorem beforeGrant_stamp (E : Env) (g : Arduino1) (i : LoopInput) :
    (beforeGrant E g i).PID_pump_millis_when_set1_was_requested_last =
      if fastRequested E g i = true then i.curMillis
      else g.PID_pump_millis_when_set1_was_requested_last := by
  simp only [beforeGrant, requestStep_stamp, fastRequested]
  split_ifs <;> simp [beforeRequest]

theorem loop_stamp (E : Env) (g : Arduino1) (i : LoopInput) :
    (loop E g i).PID_pump_millis_when_set1_was_requested_last =
      if fastRequested E g i = true then i.curMillis
      else g.PID_pump_millis_when_set1_was_requested_last := by
  rw [← beforeGrant_stamp]
  simp [loop, beforeOTP, beforeCompute]

theorem run_cons (E : Env) (g : Arduino1) (i : LoopInput) (is : List LoopInput) :
    run E g (i :: is) = run E (loop E g i) is := rfl

theorem run_stamp (E : Env) (ps : List Pass) :
    ∀ g : Arduino1, (run E g (ps.map Pass.inp)).PID_pump_millis_when_set1_was_requested_last =
      ((fastPasses E g ps).getLast?.map (fun q => q.inp.curMillis)).getD
        g.PID_pump_millis_when_set1_was_requested_last := by
  induction ps with
  | nil => intro g; rfl
  | cons p ps ih =>
    intro g
    rw [List.map_cons, run_cons, ih (loop E g p.inp), loop_stamp]
    simp only [fastPasses]
    by_cases hf : fastRequested E g p.inp = true
    · rw [if_pos hf, if_pos hf, List.getLast?_cons]
      cases (fastPasses E (loop E g p.inp) ps).getLast? <;> rfl
    · rw [if_neg hf, if_neg hf]

theorem fastPasses_append (E : Env) (a b : List Pass) :
    ∀ g : Arduino1, fastPasses E g (a ++ b) =
      fastPasses E g a ++ fastPasses E (run E g (a.map Pass.inp)) b := by
  induction a with
  | nil => intro g; rfl
  | cons p ps ih =>
    intro g
    rw [List.cons_append, List.map_cons, run_cons]
    simp only [fastPasses]
    rw [ih (loop E g p.inp)]
    split_ifs <;> rfl

theorem fastPasses_sublist (E : Env) (ps : List Pass) :
    ∀ g : Arduino1, (fastPasses E g ps).Sublist ps := by
  induction ps with
  | nil => intro g; exact List.Sublist.slnil
  | cons p ps ih =>
    intro g
    simp only [fastPasses]
    split_ifs
    · exact (ih _).cons₂ p
    · exact (ih _).cons p

theorem grantStep_cur_set (g : Arduino1) (c : Nat) :
    (grantStep g c).PID_pump_cur_set =
      if (g.state.ENA_PID_pump && (g.PID_pump_cur_set != g.PID_pump_req_set)) = true then
        if g.PID_pump_req_set = 1 then g.PID_pump_req_set
        else if g.PID_pump_req_set = 2 then
          if usub32 c g.PID_pump_millis_when_set1_was_requested_last >
              PID_pump_switch_wait_period * 1000 then g.PID_pump_req_set
          else g.PID_pump_cur_set
        else g.PID_pump_cur_set
      else g.PID_pump_cur_set := by
  simp only [grantStep]
  split_ifs <;> rfl

theorem grant_requires_dwell (E : Env) (g : Arduino1) (i : LoopInput)
    (hcur : g.PID_pump_cur_set = 1) (hgrant : (loop E g i).PID_pump_cur_set = 2) :
    fastRequested E g i = false ∧
    20000 < usub32 i.curMillis g.PID_pump_millis_when_set1_was_requested_last := by
  rw [loop_PID_pump_cur_set] at hgrant
  have hc : (beforeGrant E g i).PID_pump_cur_set = 1 := by
    simpa [beforeGrant, beforeRequest] using hcur
  have hreq : (beforeGrant E g i).PID_pump_req_set = 2 ∧
      20000 < usub32 i.curMillis
        (beforeGrant E g i).PID_pump_millis_when_set1_was_requested_last := by
    rw [grantStep_cur_set, hc] at hgrant
    simp only [PID_pump_switch_wait_period] at hgrant
    split_ifs at hgrant with h1 h2 h3 h4 <;> (constructor <;> omega)
  have hfast : fastRequested E g i = false := by
    cases hf : fastRequested E g i
    · rfl
    · have := requestStep_req_of_fast (beforeRequest E g i) i.curMillis hf
      have h2 : (beforeGrant E g i).PID_pump_req_set = 1 := this
      omega
  refine ⟨hfast, ?_⟩
  have hs := beforeGrant_stamp E g i
  rw [hfast] at hs
  simp at hs
  rw [← hs]
  exact hreq.2

theorem usub32_le_of_le (a b : Nat) (h : b ≤ a) : usub32 (a % U32) (b % U32) ≤ a - b := by
  unfold usub32 U32
  omega

theorem le_getLast_of_pairwise (l : List Pass) (h : l.Pairwise (fun a b => a.t ≤ b.t))
    (q x : Pass) (hq : q ∈ l) (hx : l.getLast? = some x) : q.t ≤ x.t := by
  obtain ⟨ys, rfl⟩ := List.getLast?_eq_some_iff.mp hx
  rw [List.pairwise_append] at h
  rcases List.mem_append.mp hq with h1 | h1
  · exact h.2.2 q h1 x (List.mem_singleton.mpr rfl)
  · rw [List.mem_singleton.mp h1]

/-- C5: in a run of loop iterations that begin at non-decreasing times, for
every iteration in which the granted gain set changes from the fast set (1) to
the stable set (2): the wrapped elapsed time between that iteration's
`curMillis` and the `curMillis` of the most recent iteration that requested
the fast set is at least the dwell time of 20000 ms, and every iteration that
requested the fast set (deviation above threshold + deadband/2) began at least
20000 ms earlier. -/
theorem stable_grant_respects_dwell (E : Env) (g0 : Arduino1) (pre : List Pass) (p : Pass)
    (hw : WellTimed (pre ++ [p]))
    (hcur : (run E g0 (pre.map Pass.inp)).PID_pump_cur_set = 1)
    (hgrant : (loop E (run E g0 (pre.map Pass.inp)) p.inp).PID_pump_cur_set = 2) :
    (∀ q, (fastPasses E g0 (pre ++ [p])).getLast? = some q →
      20000 ≤ usub32 p.inp.curMillis q.inp.curMillis) ∧
    (∀ q ∈ fastPasses E g0 (pre ++ [p]), q.t + 20000 ≤ p.t) := by
  obtain ⟨hfast, hdwell⟩ := grant_requires_dwell E _ p.inp hcur hgrant
  have hfp : fastPasses E g0 (pre ++ [p]) = fastPasses E g0 pre := by
    rw [fastPasses_append]
    simp [fastPasses, hfast]
  rw [hfp]
  have hstamp := run_stamp E pre g0
  have hlast : ∀ q, (fastPasses E g0 pre).getLast? = some q →
      20000 < usub32 p.inp.curMillis q.inp.curMillis := by
    intro q hq
    rw [hq] at hstamp
    simp only [Option.map_some', Option.getD_some] at hstamp
    rw [← hstamp]
    exact hdwell
  refine ⟨fun q hq => le_of_lt (hlast q hq), ?_⟩
  intro q hq
  obtain ⟨hmillis, hpw⟩ := hw
  have hpw1 := List.pairwise_append.mp hpw
  have hsub := fastPasses_sublist E pre g0
  cases hx : (fastPasses E g0 pre).getLast? with
  | none =>
    rw [List.getLast?_eq_none_iff] at hx
    rw [hx] at hq
    exact absurd hq (List.not_mem_nil q)
  | some x =>
    have hqx := le_getLast_of_pairwise _ (hpw1.1.sublist hsub) q x hq hx
    have hxin : x ∈ pre := hsub.subset (List.mem_of_getLast?_eq_some hx)
    have hxp : x.t ≤ p.t := hpw1.2.2 x hxin p (List.mem_singleton.mpr rfl)
    have h1 := hlast x hx
    rw [hmillis p (List.mem_append.mpr (Or.inr (List.mem_singleton.mpr rfl))),
      hmillis x (List.mem_append.mpr (Or.inl hxin))] at h1
    have h2 := usub32_le_of_le p.t x.t hxp
    omega

theorem stable_grant_respects_dwell_witness :
    (WellTimed (Pass.settling ++ [{ t := 20031, inp := LoopInput.sampling 20031 2343 none }]) ∧
     (run (Env.sample 15) (Arduino1.init 0 0) (Pass.settling.map Pass.inp)).PID_pump_cur_set = 1 ∧
     (loop (Env.sample 15) (run (Env.sample 15) (Arduino1.init 0 0) (Pass.settling.map Pass.inp))
        (LoopInput.sampling 20031 2343 none)).PID_pump_cur_set = 2) ∧
    ((∀ q, (fastPasses (Env.sample 15) (Arduino1.init 0 0)
        (Pass.settling ++ [{ t := 20031, inp := LoopInput.sampling 20031 2343 none }])).getLast? = some q →
      20000 ≤ usub32 20031 q.inp.curMillis) ∧
     (∀ q ∈ fastPasses (Env.sample 15) (Arduino1.init 0 0)
        (Pass.settling ++ [{ t := 20031, inp := LoopInput.sampling 20031 2343 none }]), q.t + 20000 ≤ 20031)) :=
  ⟨⟨by unfold WellTimed; decide, by decide!, by decide!⟩,
   stable_grant_respects_dwell (Env.sample 15) (Arduino1.init 0 0) Pass.settling
     { t := 20031, inp := LoopInput.sampling 20031 2343 none } (by unfold WellTimed; decide)
     (by decide!) (by decide!)⟩

/-! ### Mode changes, bumpless transfer and tunings of the PID -/

theorem constrain_of_mem {a lo hi : ℚ} (h1 : lo ≤ a) (h2 : a ≤ hi) : constrain a lo hi = a := by
  unfold constrain
  rw [if_neg (not_lt.mpr h1), if_neg (not_lt.mpr h2)]

theorem constrain_idem {a lo hi : ℚ} (h : lo ≤ hi) :
    constrain (constrain a lo hi) lo hi = constrain a lo hi :=
  constrain_of_mem (constrain_mem h).1 (constrain_mem h).2

theorem SetMode_effect_aux (p : PID) (Input Output : ℚ) (h : p.inAuto = false) :
    p.SetMode Input Output AUTOMATIC =
      { p with iTerm := constrain Output p.outMin p.outMax, lastInput := Input,
               inAuto := true } := by
  simp [PID.SetMode, PID.Initialize, AUTOMATIC, h]

/-- C11: `PID::SetMode(AUTOMATIC)` called in manual mode sets `iTerm` to the
current output constrained to `[outMin, outMax]`, `lastInput` to the current
measured input and the mode to automatic, and changes nothing else; called in
automatic mode it changes nothing; `SetMode(MANUAL)` changes only the mode
flag. -/
theorem SetMode_effect (p : PID) (Input Output : ℚ) :
    (p.inAuto = false →
      p.SetMode Input Output AUTOMATIC =
        { p with iTerm := constrain Output p.outMin p.outMax, lastInput := Input,
                 inAuto := true }) ∧
    (p.inAuto = true → p.SetMode Input Output AUTOMATIC = p) ∧
    p.SetMode Input Output MANUAL = { p with inAuto := false } := by
  refine ⟨fun h => ?_, fun h => ?_, ?_⟩
  · simp [PID.SetMode, PID.Initialize, AUTOMATIC, h]
  · cases p
    simp_all [PID.SetMode, PID.Initialize, AUTOMATIC]
  · simp [PID.SetMode, PID.Initialize, AUTOMATIC, MANUAL]

/-- C12, as stated, fails: the PID of the program has the limits `[0, 81]`;
entered from a manual output of 100 (what "sps" stores for 20 mA), with the
input unchanged and equal to the setpoint, the first evaluation writes 81. -/
theorem first_output_differs_from_manual_output :
    (Arduino1.init 0 0).PID_pump.inAuto = false ∧
    (((Arduino1.init 0 0).PID_pump.SetMode 5 100 AUTOMATIC).Compute 1000 5 5 100).1 = true ∧
    (((Arduino1.init 0 0).PID_pump.SetMode 5 100 AUTOMATIC).Compute 1000 5 5 100).2.2 = 81 ∧
    (((Arduino1.init 0 0).PID_pump.SetMode 5 100 AUTOMATIC).Compute 1000 5 5 100).2.2 ≠ 100 := by
  decide!

/-- C12, amended: when the PID enters automatic mode from a manual output `o`
and the first evaluation finds the measured input unchanged and equal to the
setpoint, the first output written by `Compute` is `o` constrained to
`[outMin, outMax]`; it equals `o`, and the transfer is bumpless, whenever
`outMin <= o <= outMax`. -/
theorem bumpless_transfer_within_limits (p : PID) (Input o Output : ℚ) (now : Nat)
    (hlim : p.outMin ≤ p.outMax) (hman : p.inAuto = false)
    (hret : ((p.SetMode Input o AUTOMATIC).Compute now Input Input Output).1 = true) :
    ((p.SetMode Input o AUTOMATIC).Compute now Input Input Output).2.2 =
      constrain o p.outMin p.outMax ∧
    (p.outMin ≤ o → o ≤ p.outMax →
      ((p.SetMode Input o AUTOMATIC).Compute now Input Input Output).2.2 = o) := by
  have key : ((p.SetMode Input o AUTOMATIC).Compute now Input Input Output).2.2 =
      constrain o p.outMin p.outMax := by
    rw [(SetMode_effect_aux p Input o hman)] at hret ⊢
    simp only [PID.Compute] at hret ⊢
    split_ifs at hret ⊢ with h1 h2
    simp only [sub_self, mul_zero, add_zero, zero_add, neg_mul]
    rw [constrain_idem hlim, constrain_idem hlim]
  exact ⟨key, fun h1 h2 => key.trans (constrain_of_mem h1 h2)⟩

theorem bumpless_transfer_within_limits_witness :
    ((Arduino1.init 0 0).PID_pump.outMin ≤ (Arduino1.init 0 0).PID_pump.outMax ∧
     (Arduino1.init 0 0).PID_pump.inAuto = false ∧
     (((Arduino1.init 0 0).PID_pump.SetMode 5 50 AUTOMATIC).Compute 1000 5 5 50).1 = true) ∧
    ((((Arduino1.init 0 0).PID_pump.SetMode 5 50 AUTOMATIC).Compute 1000 5 5 50).2.2 =
        constrain 50 (Arduino1.init 0 0).PID_pump.outMin (Arduino1.init 0 0).PID_pump.outMax ∧
     ((Arduino1.init 0 0).PID_pump.outMin ≤ 50 → 50 ≤ (Arduino1.init 0 0).PID_pump.outMax →
      (((Arduino1.init 0 0).PID_pump.SetMode 5 50 AUTOMATIC).Compute 1000 5 5 50).2.2 = 50)) :=
  ⟨by decide!,
   bumpless_transfer_within_limits (Arduino1.init 0 0).PID_pump 5 50 50 1000
     (by decide!) (by decide!) (by decide!)⟩

/-- C13: two evaluations of `PID::Compute` from the same PID state and the
same measured input that differ only in the setpoint produce the same
derivative term, and the derivative term is 0 whenever the measured input
equals the stored previous input. -/
theorem no_derivative_kick (p : PID) (now : Nat) (Input Setpoint1 Setpoint2 Output : ℚ)
    (hret : (p.Compute now Input Setpoint1 Output).1 = true) :
    (p.Compute now Input Setpoint2 Output).1 = true ∧
    (p.Compute now Input Setpoint1 Output).2.1.dTerm =
      (p.Compute now Input Setpoint2 Output).2.1.dTerm ∧
    (p.Compute now Input Setpoint1 Output).2.1.dTerm = -p.kd * (Input - p.lastInput) ∧
    (Input = p.lastInput → (p.Compute now Input Setpoint1 Output).2.1.dTerm = 0) := by
  simp only [PID.Compute] at hret ⊢
  split_ifs at hret ⊢ with h1 h2
  refine ⟨rfl, rfl, rfl, fun h => ?_⟩
  rw [h, sub_self, mul_zero]

theorem no_derivative_kick_witness :
    (PID.sample.Compute 1000 5 10 0).1 = true ∧
    ((PID.sample.Compute 1000 5 70 0).1 = true ∧
     (PID.sample.Compute 1000 5 10 0).2.1.dTerm = (PID.sample.Compute 1000 5 70 0).2.1.dTerm ∧
     (PID.sample.Compute 1000 5 10 0).2.1.dTerm = -PID.sample.kd * (5 - PID.sample.lastInput) ∧
     ((5 : ℚ) = PID.sample.lastInput → (PID.sample.Compute 1000 5 10 0).2.1.dTerm = 0)) :=
  ⟨by decide, no_derivative_kick PID.sample 1000 5 10 70 0 (by decide)⟩

/-- C14: for non-negative gains and positive sample periods (exact
arithmetic), `SetTunings(Kp, Ki, Kd)` at period `T1` followed by
`SetSampleTime(T2)` yields the working coefficients of `SetTunings(Kp, Ki, Kd)`
at period `T2`: `kp = Kp`, `ki = Ki*T2/1000`, `kd = Kd*1000/T2`, each negated
when the direction is REVERSE; the displayed gains stay `(Kp, Ki, Kd)`. -/
theorem sample_time_rescaling (p : PID) (Kp Ki Kd : ℚ) (T2 : Int)
    (hKp : 0 ≤ Kp) (hKi : 0 ≤ Ki) (hKd : 0 ≤ Kd)
    (hT1 : 0 < p.SampleTime) (hT2 : 0 < T2) :
    (((p.SetTunings3 Kp Ki Kd).SetSampleTime T2).kp =
        (({ p with SampleTime := T2.toNat } : PID).SetTunings3 Kp Ki Kd).kp ∧
     ((p.SetTunings3 Kp Ki Kd).SetSampleTime T2).ki =
        (({ p with SampleTime := T2.toNat } : PID).SetTunings3 Kp Ki Kd).ki ∧
     ((p.SetTunings3 Kp Ki Kd).SetSampleTime T2).kd =
        (({ p with SampleTime := T2.toNat } : PID).SetTunings3 Kp Ki Kd).kd) ∧
    (p.controllerDirection ≠ REVERSE →
      ((p.SetTunings3 Kp Ki Kd).SetSampleTime T2).kp = Kp ∧
      ((p.SetTunings3 Kp Ki Kd).SetSampleTime T2).ki = Ki * (T2 : ℚ) / 1000 ∧
      ((p.SetTunings3 Kp Ki Kd).SetSampleTime T2).kd = Kd * 1000 / (T2 : ℚ)) ∧
    (p.controllerDirection = REVERSE →
      ((p.SetTunings3 Kp Ki Kd).SetSampleTime T2).kp = -Kp ∧
      ((p.SetTunings3 Kp Ki Kd).SetSampleTime T2).ki = -(Ki * (T2 : ℚ) / 1000) ∧
      ((p.SetTunings3 Kp Ki Kd).SetSampleTime T2).kd = -(Kd * 1000 / (T2 : ℚ))) ∧
    (((p.SetTunings3 Kp Ki Kd).SetSampleTime T2).dispKp = Kp ∧
     ((p.SetTunings3 Kp Ki Kd).SetSampleTime T2).dispKi = Ki ∧
     ((p.SetTunings3 Kp Ki Kd).SetSampleTime T2).dispKd = Kd) := by
  have hK : ¬ (Kp < 0 ∨ Ki < 0 ∨ Kd < 0) := by
    rintro (h | h | h)
    · exact absurd hKp (not_le.mpr h)
    · exact absurd hKi (not_le.mpr h)
    · exact absurd hKd (not_le.mpr h)
  have h1 : (p.SampleTime : ℚ) ≠ 0 := by
    have : (0 : ℚ) < (p.SampleTime : ℚ) := by exact_mod_cast hT1
    exact ne_of_gt this
  have h2 : (T2 : ℚ) ≠ 0 := by
    have : (0 : ℚ) < (T2 : ℚ) := by exact_mod_cast hT2
    exact ne_of_gt this
  have h3 : ((T2.toNat : Nat) : ℚ) = (T2 : ℚ) := by
    have : ((T2.toNat : Nat) : Int) = T2 := Int.toNat_of_nonneg (le_of_lt hT2)
    exact_mod_cast this
  by_cases hd : p.controllerDirection = REVERSE
  · simp only [PID.SetTunings3, PID.SetTunings, PID.SetSampleTime, hK, hT2, hd, if_true,
      if_false, h3, ne_eq, not_true_eq_false, false_imp_iff, true_imp_iff, true_and, and_true]
    refine ⟨⟨?_, ?_⟩, by ring, ?_, ?_⟩ <;> field_simp <;> ring
  · simp only [PID.SetTunings3, PID.SetTunings, PID.SetSampleTime, hK, hT2, hd, if_true,
      if_false, h3, ne_eq, not_false_eq_true, false_imp_iff, true_imp_iff, true_and, and_true]
    refine ⟨⟨?_, ?_⟩, ?_, ?_⟩ <;> field_simp <;> ring

theorem sample_time_rescaling_witness :
    ((0 : ℚ) ≤ 2 ∧ (0 : ℚ) ≤ 3 ∧ (0 : ℚ) ≤ 4 ∧ 0 < PID.sample.SampleTime ∧ (0 : Int) < 500) ∧
    ((PID.sample.SetTunings3 2 3 4).SetSampleTime 500).ki = 3 * ((500 : Int) : ℚ) / 1000 :=
  ⟨⟨by norm_num, by norm_num, by norm_num, by decide, by decide⟩,
   ((sample_time_rescaling PID.sample 2 3 4 500 (by norm_num) (by norm_num) (by norm_num)
      (by decide) (by decide)).2.1 (by decide)).2.1⟩

/-! ### The request and the grant of a PID set -/

theorem absMacro_eq_abs (x : ℚ) : absMacro x = |x| := by
  unfold absMacro
  split_ifs with h
  · exact (abs_of_pos h).symm
  · exact (abs_of_nonpos (not_lt.mp h)).symm

theorem dev_setp_pct_of_ne_zero (g : Arduino1) (h : g.state.setpoint_flow_rate_m3h ≠ 0) :
    dev_setp_pct g =
      FDiv.fin (|g.state.read_flow_rate_m3h - g.state.setpoint_flow_rate_m3h| /
        g.state.setpoint_flow_rate_m3h * 100) := by
  simp only [dev_setp_pct, FDiv.div, absMacro_eq_abs]
  rw [if_pos h]
  rfl

theorem dev_setp_pct_of_zero (g : Arduino1) (h : g.state.setpoint_flow_rate_m3h = 0) :
    dev_setp_pct g = if g.state.read_flow_rate_m3h = 0 then FDiv.nan else FDiv.pinf := by
  simp only [dev_setp_pct, FDiv.div, absMacro_eq_abs, h, sub_zero]
  by_cases hm : g.state.read_flow_rate_m3h = 0
  · simp [hm, FDiv.mulPos]
  · have hpos : 0 < |g.state.read_flow_rate_m3h| := abs_pos.mpr hm
    simp [hm, hpos, FDiv.mulPos]

theorem requestStep_req (g : Arduino1) (c : Nat) :
    (requestStep g c).PID_pump_req_set =
      if (dev_setp_pct g).gt 4 = true then 1
      else if (dev_setp_pct g).lt 2 = true then 2 else g.PID_pump_req_set := by
  have h4 : PID_pump_switch_pct + PID_pump_switch_deadband / 2 = 4 := by
    norm_num [PID_pump_switch_pct, PID_pump_switch_deadband]
  have h2 : PID_pump_switch_pct - PID_pump_switch_deadband / 2 = 2 := by
    norm_num [PID_pump_switch_pct, PID_pump_switch_deadband]
  simp only [requestStep, h4, h2]
  split_ifs <;> rfl

theorem requestStep_stamp4 (g : Arduino1) (c : Nat) :
    (requestStep g c).PID_pump_millis_when_set1_was_requested_last =
      if (dev_setp_pct g).gt 4 = true then c
      else g.PID_pump_millis_when_set1_was_requested_last := by
  have h4 : PID_pump_switch_pct + PID_pump_switch_deadband / 2 = 4 := by
    norm_num [PID_pump_switch_pct, PID_pump_switch_deadband]
  rw [requestStep_stamp, h4]

theorem loop_req_stamp (E : Env) (g : Arduino1) (i : LoopInput) :
    (loop E g i).PID_pump_req_set =
      (if (dev_setp_pct (beforeRequest E g i)).gt 4 = true then 1
       else if (dev_setp_pct (beforeRequest E g i)).lt 2 = true then 2
       else g.PID_pump_req_set) ∧
    (loop E g i).PID_pump_millis_when_set1_was_requested_last =
      (if (dev_setp_pct (beforeRequest E g i)).gt 4 = true then i.curMillis
       else g.PID_pump_millis_when_set1_was_requested_last) := by
  have h1 : (loop E g i).PID_pump_req_set =
      (requestStep (beforeRequest E g i) i.curMillis).PID_pump_req_set := by
    simp [loop, beforeOTP, beforeCompute, beforeGrant]
  have h2 : (loop E g i).PID_pump_millis_when_set1_was_requested_last =
      (requestStep (beforeRequest E g i) i.curMillis).PID_pump_millis_when_set1_was_requested_last := by
    simp [loop, beforeOTP, beforeCompute, beforeGrant]
  have h3 : (beforeRequest E g i).PID_pump_req_set = g.PID_pump_req_set := by
    simp [beforeRequest]
  have h4 : (beforeRequest E g i).PID_pump_millis_when_set1_was_requested_last =
      g.PID_pump_millis_when_set1_was_requested_last := by
    simp [beforeRequest]
  rw [h1, h2, requestStep_req, requestStep_stamp4, h3, h4]
  exact ⟨rfl, rfl⟩

theorem beforeGrant_cur_ena (E : Env) (g : Arduino1) (i : LoopInput) :
    (beforeGrant E g i).PID_pump_cur_set = g.PID_pump_cur_set := by
  simp [beforeGrant, beforeRequest]

theorem otpStep_disabled (g : Arduino1) (c : Nat) (h : g.state.ENA_OTP = false) :
    otpStep g c = g := by
  simp [otpStep, h]

theorem otpStep_no_edge (g : Arduino1) (c : Nat) (he : g.state.ENA_OTP = true)
    (h : (decide (OTP_OKAY_TIMEOUT_MS < usub32 c g.OTP_okay_prevMillis) ||
      g.OTP_tripped_status) = g.OTP_tripped_status_old) :
    (otpStep g c).relay_01 = g.relay_01 ∧ (otpStep g c).relay_02 = g.relay_02 ∧
    (otpStep g c).relay_03 = g.relay_03 ∧
    (otpStep g c).OTP_tripped_status_old = g.OTP_tripped_status_old := by
  simp only [otpStep, he]
  split_ifs with h1 h2 h3 h4 h5 h6 <;> simp_all

theorem otpStep_edge (g : Arduino1) (c : Nat) (he : g.state.ENA_OTP = true)
    (h : (decide (OTP_OKAY_TIMEOUT_MS < usub32 c g.OTP_okay_prevMillis) ||
      g.OTP_tripped_status) ≠ g.OTP_tripped_status_old) :
    (otpStep g c).relay_01 = g.relay_01.setStateToBeActuated
      (if (otpStep g c).OTP_tripped_status = true then relay_action.off else relay_action.on) ∧
    (otpStep g c).relay_02 = g.relay_02.setStateToBeActuated
      (if (otpStep g c).OTP_tripped_status = true then relay_action.off else relay_action.on) ∧
    (otpStep g c).relay_03 = g.relay_03.setStateToBeActuated
      (if (otpStep g c).OTP_tripped_status = true then relay_action.off else relay_action.on) ∧
    (otpStep g c).OTP_tripped_status_old = (otpStep g c).OTP_tripped_status := by
  simp only [otpStep, he]
  split_ifs with h1 h2 h3 h4 h5 h6 <;> simp_all

theorem otpStep_old_eq (g : Arduino1) (c : Nat) (he : g.state.ENA_OTP = true) :
    (otpStep g c).OTP_tripped_status_old = (otpStep g c).OTP_tripped_status := by
  simp only [otpStep, he]
  split_ifs with h1 h2 h3 h4 h5 h6 <;> simp_all

theorem otpStep_fixed (h : Arduino1) (c : Nat) (he : h.state.ENA_OTP = true)
    (hold : h.OTP_tripped_status_old = h.OTP_tripped_status)
    (hsame : (otpStep h c).OTP_tripped_status = h.OTP_tripped_status) :
    otpStep h c = h := by
  rw [otpStep_tripped h c he] at hsame
  cases h with
  | mk a1 a2 a3 a4 a5 a6 a7 a8 a9 a10 a11 a12 a13 a14 st b1 b2 b3 b4 b5 b6 b7 pid om ts tso pw dw wr =>
    simp only [otpStep] at *
    simp only [he, if_true]
    subst hold
    by_cases ht : usub32 c om > OTP_OKAY_TIMEOUT_MS
    · have : tso = true := by simpa [ht] using hsame.symm
      subst this
      simp [ht]
    · simp [ht]

/-- C20: the interlock step of a loop iteration touches the desired state of
relays 1 to 3 only when the interlock is enabled and the tripped flag, after
the time-out check, differs from the previous-tripped flag; in that case it
sets all three to off when tripped and to on when cleared and sets
previous-tripped to tripped; otherwise relays and previous-tripped are left as
they are, and a following interlock step that finds the tripped flag unchanged
changes nothing at all. -/
theorem interlock_edge_application (g : Arduino1) (c : Nat) :
    (((otpStep g c).relay_01 ≠ g.relay_01 ∨ (otpStep g c).relay_02 ≠ g.relay_02 ∨
        (otpStep g c).relay_03 ≠ g.relay_03) →
      g.state.ENA_OTP = true ∧
      (decide (OTP_OKAY_TIMEOUT_MS < usub32 c g.OTP_okay_prevMillis) ||
        g.OTP_tripped_status) ≠ g.OTP_tripped_status_old) ∧
    (¬ (g.state.ENA_OTP = true ∧
        (decide (OTP_OKAY_TIMEOUT_MS < usub32 c g.OTP_okay_prevMillis) ||
          g.OTP_tripped_status) ≠ g.OTP_tripped_status_old) →
      (otpStep g c).relay_01 = g.relay_01 ∧ (otpStep g c).relay_02 = g.relay_02 ∧
      (otpStep g c).relay_03 = g.relay_03 ∧
      (otpStep g c).OTP_tripped_status_old = g.OTP_tripped_status_old) ∧
    (g.state.ENA_OTP = true →
      (decide (OTP_OKAY_TIMEOUT_MS < usub32 c g.OTP_okay_prevMillis) ||
        g.OTP_tripped_status) ≠ g.OTP_tripped_status_old →
      (otpStep g c).OTP_tripped_status =
        (decide (OTP_OKAY_TIMEOUT_MS < usub32 c g.OTP_okay_prevMillis) ||
          g.OTP_tripped_status) ∧
      (otpStep g c).relay_01._fState = !(otpStep g c).OTP_tripped_status ∧
      (otpStep g c).relay_02._fState = !(otpStep g c).OTP_tripped_status ∧
      (otpStep g c).relay_03._fState = !(otpStep g c).OTP_tripped_status ∧
      (otpStep g c).relay_01._fPrevState = g.relay_01._fPrevState ∧
      (otpStep g c).relay_02._fPrevState = g.relay_02._fPrevState ∧
      (otpStep g c).relay_03._fPrevState = g.relay_03._fPrevState ∧
      (otpStep g c).OTP_tripped_status_old = (otpStep g c).OTP_tripped_status) ∧
    (g.state.ENA_OTP = true → ∀ c2 : Nat,
      (otpStep (otpStep g c) c2).OTP_tripped_status = (otpStep g c).OTP_tripped_status →
      otpStep (otpStep g c) c2 = otpStep g c) := by
  have hno : ¬ (g.state.ENA_OTP = true ∧
        (decide (OTP_OKAY_TIMEOUT_MS < usub32 c g.OTP_okay_prevMillis) ||
          g.OTP_tripped_status) ≠ g.OTP_tripped_status_old) →
      (otpStep g c).relay_01 = g.relay_01 ∧ (otpStep g c).relay_02 = g.relay_02 ∧
      (otpStep g c).relay_03 = g.relay_03 ∧
      (otpStep g c).OTP_tripped_status_old = g.OTP_tripped_status_old := by
    intro h
    cases he : g.state.ENA_OTP
    · rw [otpStep_disabled g c he]
      exact ⟨rfl, rfl, rfl, rfl⟩
    · have h2 : (decide (OTP_OKAY_TIMEOUT_MS < usub32 c g.OTP_okay_prevMillis) ||
          g.OTP_tripped_status) = g.OTP_tripped_status_old := by
        by_contra hne
        exact h ⟨he, hne⟩
      exact otpStep_no_edge g c he h2
  refine ⟨fun hch => ?_, hno, fun he hedge => ?_, fun he c2 hsame => ?_⟩
  · by_contra hcon
    obtain ⟨r1, r2, r3, _⟩ := hno hcon
    rcases hch with h | h | h
    · exact h r1
    · exact h r2
    · exact h r3
  · obtain ⟨e1, e2, e3, e4⟩ := otpStep_edge g c he hedge
    refine ⟨otpStep_tripped g c he, ?_, ?_, ?_, ?_, ?_, ?_, e4⟩
    · rw [e1]; cases (otpStep g c).OTP_tripped_status <;> rfl
    · rw [e2]; cases (otpStep g c).OTP_tripped_status <;> rfl
    · rw [e3]; cases (otpStep g c).OTP_tripped_status <;> rfl
    · rw [e1]; cases (otpStep g c).OTP_tripped_status <;> rfl
    · rw [e2]; cases (otpStep g c).OTP_tripped_status <;> rfl
    · rw [e3]; cases (otpStep g c).OTP_tripped_status <;> rfl
  · exact otpStep_fixed (otpStep g c) c2 (by simpa using he) (otpStep_old_eq g c he) hsame

/-! ### The tunings of the PID along a loop iteration -/

@[simp] theorem daqStep_tunings (E : Env) (g : Arduino1) (i : LoopInput) :
    (daqStep E g i).PID_pump.tunings = g.PID_pump.tunings := by
  simp only [PID.tunings]
  simp only [daqStep]
  split_ifs <;> rfl

@[simp] theorem pidModeStep_tunings (g : Arduino1) :
    (pidModeStep g).PID_pump.tunings = g.PID_pump.tunings := by
  simp only [PID.tunings]
  simp only [pidModeStep, PID.SetMode, PID.Initialize]
  split_ifs <;> rfl

@[simp] theorem requestStep_tunings (g : Arduino1) (c : Nat) :
    (requestStep g c).PID_pump.tunings = g.PID_pump.tunings := by
  simp only [PID.tunings]
  simp only [requestStep]
  split_ifs <;> rfl

@[simp] theorem grantStep_tunings (g : Arduino1) (c : Nat) :
    (grantStep g c).PID_pump.tunings = g.PID_pump.tunings := by
  simp only [PID.tunings]
  simp only [grantStep]
  split_ifs <;> rfl

@[simp] theorem computeStep_tunings (g : Arduino1) (n : Nat) :
    (computeStep g n).2.PID_pump.tunings = g.PID_pump.tunings := by
  simp only [PID.tunings]
  simp only [computeStep, PID.Compute]
  split_ifs <;> rfl

@[simp] theorem otpStep_tunings (g : Arduino1) (c : Nat) :
    (otpStep g c).PID_pump.tunings = g.PID_pump.tunings := by
  simp only [PID.tunings]
  simp only [otpStep]
  split_ifs <;> rfl

@[simp] theorem relayUpdateStep_tunings (g : Arduino1) :
    (relayUpdateStep g).PID_pump.tunings = g.PID_pump.tunings := by
  simp only [PID.tunings]
  rfl

@[simp] theorem wdtStep_tunings (g : Arduino1) (c : Nat) :
    (wdtStep g c).PID_pump.tunings = g.PID_pump.tunings := by
  simp only [PID.tunings]
  simp only [wdtStep]
  split_ifs <;> rfl

@[simp] theorem commandStep_tunings (E : Env) (g : Arduino1) (i : LoopInput) :
    (commandStep E g i).PID_pump.tunings = g.PID_pump.tunings := by
  rw [commandStep_PID_pump]

theorem SetTunings_disp (p : PID) (Kp Ki Kd : ℚ) (POn : Int)
    (h1 : 0 ≤ Kp) (h2 : 0 ≤ Ki) (h3 : 0 ≤ Kd) :
    (p.SetTunings Kp Ki Kd POn).dispKp = Kp ∧ (p.SetTunings Kp Ki Kd POn).dispKi = Ki ∧
    (p.SetTunings Kp Ki Kd POn).dispKd = Kd := by
  have hK : ¬ (Kp < 0 ∨ Ki < 0 ∨ Kd < 0) := by
    rintro (h | h | h)
    · exact absurd h1 (not_le.mpr h)
    · exact absurd h2 (not_le.mpr h)
    · exact absurd h3 (not_le.mpr h)
  simp only [PID.SetTunings, hK, if_false]
  split_ifs <;> exact ⟨rfl, rfl, rfl⟩

theorem applySetStep_ids (g : Arduino1) :
    (applySetStep g).PID_pump_old_set = g.PID_pump_cur_set ∧
    (applySetStep g).PID_pump_cur_set = g.PID_pump_cur_set ∧
    (applySetStep g).PID_pump_req_set = g.PID_pump_req_set := by
  simp only [applySetStep]
  split_ifs with h1 h2 h3
  · exact ⟨rfl, rfl, rfl⟩
  · exact ⟨rfl, rfl, rfl⟩
  · exact ⟨rfl, rfl, rfl⟩
  · exact ⟨(not_not.mp h1).symm, rfl, rfl⟩

theorem applySetStep_same (g : Arduino1) (h : g.PID_pump_cur_set = g.PID_pump_old_set) :
    applySetStep g = g := by
  simp [applySetStep, h]

theorem applySetStep_of_ne (g : Arduino1) (h : g.PID_pump_cur_set ≠ g.PID_pump_old_set) :
    (applySetStep g).PID_pump =
      g.PID_pump.SetTunings
        (if g.PID_pump_cur_set = 1 then PID_pump_set_1_Kp
         else if g.PID_pump_cur_set = 2 then PID_pump_set_2_Kp else g.PID_pump_Kp)
        (if g.PID_pump_cur_set = 1 then PID_pump_set_1_Ki
         else if g.PID_pump_cur_set = 2 then PID_pump_set_2_Ki else g.PID_pump_Ki)
        (if g.PID_pump_cur_set = 1 then PID_pump_set_1_Kd
         else if g.PID_pump_cur_set = 2 then PID_pump_set_2_Kd else g.PID_pump_Kd) P_ON_E := by
  simp only [applySetStep]
  rw [if_pos h]
  split_ifs <;> rfl

theorem applySetStep_push (g : Arduino1) (h : g.PID_pump_cur_set ≠ g.PID_pump_old_set) :
    (g.PID_pump_cur_set = 1 →
      (applySetStep g).PID_pump.dispKp = PID_pump_set_1_Kp ∧
      (applySetStep g).PID_pump.dispKi = PID_pump_set_1_Ki ∧
      (applySetStep g).PID_pump.dispKd = PID_pump_set_1_Kd) ∧
    (g.PID_pump_cur_set = 2 →
      (applySetStep g).PID_pump.dispKp = PID_pump_set_2_Kp ∧
      (applySetStep g).PID_pump.dispKi = PID_pump_set_2_Ki ∧
      (applySetStep g).PID_pump.dispKd = PID_pump_set_2_Kd) := by
  rw [applySetStep_of_ne g h]
  constructor
  · intro h1
    rw [if_pos h1, if_pos h1, if_pos h1]
    exact SetTunings_disp _ PID_pump_set_1_Kp PID_pump_set_1_Ki PID_pump_set_1_Kd P_ON_E
      (by norm_num [PID_pump_set_1_Kp]) (by norm_num [PID_pump_set_1_Ki])
      (by norm_num [PID_pump_set_1_Kd])
  · intro h2
    have h21 : ¬ g.PID_pump_cur_set = 1 := by omega
    rw [if_neg h21, if_neg h21, if_neg h21, if_pos h2, if_pos h2, if_pos h2]
    exact SetTunings_disp _ PID_pump_set_2_Kp PID_pump_set_2_Ki PID_pump_set_2_Kd P_ON_E
      (by norm_num [PID_pump_set_2_Kp]) (by norm_num [PID_pump_set_2_Ki])
      (by norm_num [PID_pump_set_2_Kd])

theorem tunings_disp {p q : PID} (h : p.tunings = q.tunings) :
    p.dispKp = q.dispKp ∧ p.dispKi = q.dispKi ∧ p.dispKd = q.dispKd := by
  simp only [PID.tunings, Prod.mk.injEq] at h
  exact ⟨h.1, h.2.1, h.2.2.1⟩

theorem loop_after_apply (E : Env) (g : Arduino1) (i : LoopInput) :
    (loop E g i).PID_pump_old_set = (beforeCompute E g i).PID_pump_old_set ∧
    (loop E g i).PID_pump_cur_set = (beforeCompute E g i).PID_pump_cur_set ∧
    (loop E g i).PID_pump_req_set = (beforeCompute E g i).PID_pump_req_set ∧
    (loop E g i).PID_pump.tunings = (beforeCompute E g i).PID_pump.tunings := by
  simp [loop, beforeOTP]

theorem beforeApply_frame (E : Env) (g : Arduino1) (i : LoopInput) :
    (grantStep (beforeGrant E g i) i.curMillis).PID_pump_old_set = g.PID_pump_old_set ∧
    (grantStep (beforeGrant E g i) i.curMillis).PID_pump.tunings = g.PID_pump.tunings := by
  simp [beforeGrant, beforeRequest]

theorem beforeApply_ids (E : Env) (g : Arduino1) (i : LoopInput)
    (hc : g.PID_pump_cur_set = 1 ∨ g.PID_pump_cur_set = 2)
    (hr : g.PID_pump_req_set = 1 ∨ g.PID_pump_req_set = 2) :
    ((grantStep (beforeGrant E g i) i.curMillis).PID_pump_cur_set = 1 ∨
     (grantStep (beforeGrant E g i) i.curMillis).PID_pump_cur_set = 2) ∧
    ((grantStep (beforeGrant E g i) i.curMillis).PID_pump_req_set = 1 ∨
     (grantStep (beforeGrant E g i) i.curMillis).PID_pump_req_set = 2) := by
  have hreq : (beforeGrant E g i).PID_pump_req_set = 1 ∨
      (beforeGrant E g i).PID_pump_req_set = 2 := by
    have h0 : (beforeRequest E g i).PID_pump_req_set = g.PID_pump_req_set := by
      simp [beforeRequest]
    simp only [beforeGrant, requestStep_req, h0]
    split_ifs
    · exact Or.inl rfl
    · exact Or.inr rfl
    · exact hr
  have hcur : (beforeGrant E g i).PID_pump_cur_set = g.PID_pump_cur_set :=
    beforeGrant_cur_ena E g i
  refine ⟨?_, by simpa using hreq⟩
  rw [grantStep_cur_set, hcur]
  split_ifs <;> first | exact hreq | exact hc

theorem loop_SetInv (E : Env) (g : Arduino1) (i : LoopInput) (h : g.SetInv) :
    (loop E g i).SetInv ∧ (loop E g i).PID_pump_old_set = (loop E g i).PID_pump_cur_set := by
  obtain ⟨hc, hr, hd1, hd2⟩ := h
  obtain ⟨l1, l2, l3, l4⟩ := loop_after_apply E g i
  obtain ⟨f1, f2⟩ := beforeApply_frame E g i
  obtain ⟨k1, k2⟩ := beforeApply_ids E g i hc hr
  obtain ⟨a1, a2, a3⟩ := applySetStep_ids (grantStep (beforeGrant E g i) i.curMillis)
  have e1 : (loop E g i).PID_pump_old_set =
      (grantStep (beforeGrant E g i) i.curMillis).PID_pump_cur_set := l1.trans a1
  have e2 : (loop E g i).PID_pump_cur_set =
      (grantStep (beforeGrant E g i) i.curMillis).PID_pump_cur_set := l2.trans a2
  have e3 : (loop E g i).PID_pump_req_set =
      (grantStep (beforeGrant E g i) i.curMillis).PID_pump_req_set := l3.trans a3
  obtain ⟨t1, t2, t3⟩ := tunings_disp l4
  have hdisp :
      ((grantStep (beforeGrant E g i) i.curMillis).PID_pump_cur_set = 1 →
        (loop E g i).PID_pump.dispKp = PID_pump_set_1_Kp ∧
        (loop E g i).PID_pump.dispKi = PID_pump_set_1_Ki ∧
        (loop E g i).PID_pump.dispKd = PID_pump_set_1_Kd) ∧
      ((grantStep (beforeGrant E g i) i.curMillis).PID_pump_cur_set = 2 →
        (loop E g i).PID_pump.dispKp = PID_pump_set_2_Kp ∧
        (loop E g i).PID_pump.dispKi = PID_pump_set_2_Ki ∧
        (loop E g i).PID_pump.dispKd = PID_pump_set_2_Kd) := by
    rw [t1, t2, t3]
    by_cases hs : (grantStep (beforeGrant E g i) i.curMillis).PID_pump_cur_set =
        (grantStep (beforeGrant E g i) i.curMillis).PID_pump_old_set
    · have hb : beforeCompute E g i = grantStep (beforeGrant E g i) i.curMillis :=
        applySetStep_same _ hs
      obtain ⟨u1, u2, u3⟩ := tunings_disp f2
      rw [hb, u1, u2, u3]
      rw [f1] at hs
      exact ⟨fun h1 => hd1 (hs ▸ h1), fun h2 => hd2 (hs ▸ h2)⟩
    · exact applySetStep_push _ hs
  refine ⟨⟨?_, ?_, ?_, ?_⟩, e1.trans e2.symm⟩
  · rw [e2]; exact k1
  · rw [e3]; exact k2
  · intro h1; exact hdisp.1 (e1 ▸ h1)
  · intro h2; exact hdisp.2 (e1 ▸ h2)

theorem run_SetInv (E : Env) (is : List LoopInput) :
    ∀ g : Arduino1, g.SetInv → (run E g is).SetInv := by
  induction is with
  | nil => intro g h; exact h
  | cons i is ih =>
    intro g h
    rw [run_cons]
    exact ih _ (loop_SetInv E g i h).1

theorem init_SetInv (NAN : ℚ) (millis0 : Nat) : (Arduino1.init NAN millis0).SetInv := by
  have h0 : (Arduino1.init NAN millis0).PID_pump_old_set = 0 := rfl
  refine ⟨Or.inl rfl, Or.inl rfl, fun h => ?_, fun h => ?_⟩
  · rw [h0] at h
    exact absurd h (by decide)
  · rw [h0] at h
    exact absurd h (by decide)

theorem loop_tunings_of_no_switch (E : Env) (g : Arduino1) (i : LoopInput)
    (h : (loop E g i).PID_pump_cur_set = g.PID_pump_old_set) :
    (loop E g i).PID_pump.tunings = g.PID_pump.tunings := by
  obtain ⟨l1, l2, l3, l4⟩ := loop_after_apply E g i
  obtain ⟨f1, f2⟩ := beforeApply_frame E g i
  obtain ⟨a1, a2, a3⟩ := applySetStep_ids (grantStep (beforeGrant E g i) i.curMillis)
  have hs : (grantStep (beforeGrant E g i) i.curMillis).PID_pump_cur_set =
      (grantStep (beforeGrant E g i) i.curMillis).PID_pump_old_set := by
    rw [f1, ← h, l2]
    exact a2.symm
  have hb : beforeCompute E g i = grantStep (beforeGrant E g i) i.curMillis :=
    applySetStep_same _ hs
  rw [l4, hb, f2]

/-- C18: after every loop iteration from the program's start, the
previously-applied set id equals the granted set id, the granted and the
requested set ids are each 1 or 2, and the gains the PID displays are the
(Kp, Ki, Kd) of the granted set; in an iteration whose granted set equals the
set previously applied, the PID tunings (displayed gains and working
coefficients) are not modified. -/
theorem set_ids_and_tunings_invariant (E : Env) (NAN : ℚ) (millis0 : Nat)
    (is : List LoopInput) (i : LoopInput) :
    (loop E (Arduino1.reach E NAN millis0 is) i).PID_pump_old_set =
      (loop E (Arduino1.reach E NAN millis0 is) i).PID_pump_cur_set ∧
    ((loop E (Arduino1.reach E NAN millis0 is) i).PID_pump_cur_set = 1 ∨
      (loop E (Arduino1.reach E NAN millis0 is) i).PID_pump_cur_set = 2) ∧
    ((loop E (Arduino1.reach E NAN millis0 is) i).PID_pump_req_set = 1 ∨
      (loop E (Arduino1.reach E NAN millis0 is) i).PID_pump_req_set = 2) ∧
    ((loop E (Arduino1.reach E NAN millis0 is) i).PID_pump_cur_set = 1 →
      (loop E (Arduino1.reach E NAN millis0 is) i).PID_pump.dispKp = 75 / 100 ∧
      (loop E (Arduino1.reach E NAN millis0 is) i).PID_pump.dispKi = 2 / 10 ∧
      (loop E (Arduino1.reach E NAN millis0 is) i).PID_pump.dispKd = 0) ∧
    ((loop E (Arduino1.reach E NAN millis0 is) i).PID_pump_cur_set = 2 →
      (loop E (Arduino1.reach E NAN millis0 is) i).PID_pump.dispKp = 3 / 10 ∧
      (loop E (Arduino1.reach E NAN millis0 is) i).PID_pump.dispKi = 5 / 100 ∧
      (loop E (Arduino1.reach E NAN millis0 is) i).PID_pump.dispKd = 0) ∧
    ((loop E (Arduino1.reach E NAN millis0 is) i).PID_pump_cur_set =
        (Arduino1.reach E NAN millis0 is).PID_pump_old_set →
      (loop E (Arduino1.reach E NAN millis0 is) i).PID_pump.tunings =
        (Arduino1.reach E NAN millis0 is).PID_pump.tunings) := by
  have hinv : (Arduino1.reach E NAN millis0 is).SetInv :=
    run_SetInv E is _ (init_SetInv NAN millis0)
  obtain ⟨⟨hc, hr, hd1, hd2⟩, ho⟩ := loop_SetInv E _ i hinv
  refine ⟨ho, hc, hr, fun h1 => ?_, fun h2 => ?_, loop_tunings_of_no_switch E _ i⟩
  · exact hd1 (ho.trans h1)
  · exact hd2 (ho.trans h2)

/-! ### The end-to-end scenario -/

theorem inScenario_spec (E : Env) (g : Arduino1) (i : LoopInput) (sp m : ℚ)
    (h : inScenario E g i sp m = true) :
    (beforeRequest E g i).state.setpoint_flow_rate_m3h = sp ∧
    (beforeRequest E g i).state.read_flow_rate_m3h = m ∧
    (beforeRequest E g i).state.ENA_PID_pump = true := by
  simpa [inScenario] using h

theorem dev_fast (g : Arduino1) (hsp : g.state.setpoint_flow_rate_m3h = 10)
    (hm : g.state.read_flow_rate_m3h = 21 / 2) : dev_setp_pct g = FDiv.fin 5 := by
  simp only [dev_setp_pct, hsp, hm, absMacro, FDiv.div, FDiv.mulPos]
  norm_num

theorem dev_stable (g : Arduino1) (hsp : g.state.setpoint_flow_rate_m3h = 10)
    (hm : g.state.read_flow_rate_m3h = 201 / 20) : dev_setp_pct g = FDiv.fin (1 / 2) := by
  simp only [dev_setp_pct, hsp, hm, absMacro, FDiv.div, FDiv.mulPos]
  norm_num

theorem loop_old_eq_cur (E : Env) (g : Arduino1) (i : LoopInput) :
    (loop E g i).PID_pump_old_set = (loop E g i).PID_pump_cur_set := by
  obtain ⟨l1, l2, _, _⟩ := loop_after_apply E g i
  obtain ⟨a1, a2, _⟩ := applySetStep_ids (grantStep (beforeGrant E g i) i.curMillis)
  exact (l1.trans a1).trans (l2.trans a2).symm

theorem beforeGrant_ena (E : Env) (g : Arduino1) (i : LoopInput) :
    (beforeGrant E g i).state.ENA_PID_pump = (beforeRequest E g i).state.ENA_PID_pump := by
  simp [beforeGrant]

theorem beforeGrant_req_stamp (E : Env) (g : Arduino1) (i : LoopInput) :
    (beforeGrant E g i).PID_pump_req_set = (loop E g i).PID_pump_req_set ∧
    (beforeGrant E g i).PID_pump_millis_when_set1_was_requested_last =
      (loop E g i).PID_pump_millis_when_set1_was_requested_last := by
  simp [loop, beforeOTP, beforeCompute]

theorem applySetStep_gains_2 (g : Arduino1) (h : g.PID_pump_cur_set ≠ g.PID_pump_old_set)
    (h2 : g.PID_pump_cur_set = 2) :
    (applySetStep g).PID_pump_Kp = PID_pump_set_2_Kp ∧
    (applySetStep g).PID_pump_Ki = PID_pump_set_2_Ki ∧
    (applySetStep g).PID_pump_Kd = PID_pump_set_2_Kd := by
  have h21 : ¬ g.PID_pump_cur_set = 1 := by omega
  simp only [applySetStep]
  rw [if_pos h, if_neg h21, if_pos h2]
  exact ⟨rfl, rfl, rfl⟩

theorem scenario_fast_pass (E : Env) (g : Arduino1) (i : LoopInput)
    (hs : inScenario E g i 10 (21 / 2) = true) :
    dev_setp_pct (beforeRequest E g i) = FDiv.fin 5 ∧
    (loop E g i).PID_pump_req_set = 1 ∧
    (loop E g i).PID_pump_cur_set = 1 ∧
    (loop E g i).PID_pump_millis_when_set1_was_requested_last = i.curMillis := by
  obtain ⟨hsp, hm, hena⟩ := inScenario_spec E g i _ _ hs
  have hdev := dev_fast _ hsp hm
  obtain ⟨r1, r2⟩ := loop_req_stamp E g i
  rw [hdev] at r1 r2
  have hreq : (loop E g i).PID_pump_req_set = 1 := by
    rw [r1]; norm_num [FDiv.gt]
  have hst : (loop E g i).PID_pump_millis_when_set1_was_requested_last = i.curMillis := by
    rw [r2]; norm_num [FDiv.gt]
  refine ⟨hdev, hreq, ?_, hst⟩
  obtain ⟨b1, _⟩ := beforeGrant_req_stamp E g i
  rw [loop_PID_pump_cur_set, grantStep_cur_set, b1, hreq, beforeGrant_ena, hena]
  by_cases hc : (beforeGrant E g i).PID_pump_cur_set = 1
  · simp [hc]
  · simp [hc]

theorem scenario_stable_pass (E : Env) (g : Arduino1) (i : LoopInput)
    (hs : inScenario E g i 10 (201 / 20) = true)
    (hold : g.PID_pump_old_set = g.PID_pump_cur_set)
    (hc : g.PID_pump_cur_set = 1 ∨ g.PID_pump_cur_set = 2) :
    (loop E g i).PID_pump_req_set = 2 ∧
    (loop E g i).PID_pump_millis_when_set1_was_requested_last =
      g.PID_pump_millis_when_set1_was_requested_last ∧
    (loop E g i).PID_pump_cur_set =
      (if g.PID_pump_cur_set = 2 ∨
          20000 < usub32 i.curMillis g.PID_pump_millis_when_set1_was_requested_last
        then 2 else 1) ∧
    (((grantStep (beforeGrant E g i) i.curMillis).PID_pump_cur_set ≠
        (grantStep (beforeGrant E g i) i.curMillis).PID_pump_old_set) ↔
      (g.PID_pump_cur_set = 1 ∧
        20000 < usub32 i.curMillis g.PID_pump_millis_when_set1_was_requested_last)) ∧
    ((g.PID_pump_cur_set = 1 ∧
        20000 < usub32 i.curMillis g.PID_pump_millis_when_set1_was_requested_last) →
      (beforeCompute E g i).PID_pump_Kp = 3 / 10 ∧
      (beforeCompute E g i).PID_pump_Ki = 5 / 100 ∧
      (beforeCompute E g i).PID_pump_Kd = 0) := by
  obtain ⟨hsp, hm, hena⟩ := inScenario_spec E g i _ _ hs
  have hdev := dev_stable _ hsp hm
  obtain ⟨r1, r2⟩ := loop_req_stamp E g i
  rw [hdev] at r1 r2
  have hreq : (loop E g i).PID_pump_req_set = 2 := by
    rw [r1]; norm_num [FDiv.gt, FDiv.lt]
  have hst : (loop E g i).PID_pump_millis_when_set1_was_requested_last =
      g.PID_pump_millis_when_set1_was_requested_last := by
    rw [r2]; norm_num [FDiv.gt]
  obtain ⟨b1, b2⟩ := beforeGrant_req_stamp E g i
  have hgc : (grantStep (beforeGrant E g i) i.curMillis).PID_pump_cur_set =
      (if g.PID_pump_cur_set = 2 ∨
          20000 < usub32 i.curMillis g.PID_pump_millis_when_set1_was_requested_last
        then 2 else 1) := by
    rw [grantStep_cur_set, b1, b2, hreq, hst, beforeGrant_ena, hena, beforeGrant_cur_ena]
    simp only [PID_pump_switch_wait_period]
    rcases hc with h1 | h2
    · rw [h1]
      by_cases ht : 20000 < usub32 i.curMillis g.PID_pump_millis_when_set1_was_requested_last
      · simp [ht]
      · simp [ht]
    · rw [h2]
      simp
  have hgo : (grantStep (beforeGrant E g i) i.curMillis).PID_pump_old_set =
      g.PID_pump_cur_set := (beforeApply_frame E g i).1.trans hold
  have hiff : ((grantStep (beforeGrant E g i) i.curMillis).PID_pump_cur_set ≠
        (grantStep (beforeGrant E g i) i.curMillis).PID_pump_old_set) ↔
      (g.PID_pump_cur_set = 1 ∧
        20000 < usub32 i.curMillis g.PID_pump_millis_when_set1_was_requested_last) := by
    rw [hgc, hgo]
    rcases hc with h1 | h2
    · rw [h1]
      by_cases ht : 20000 < usub32 i.curMillis g.PID_pump_millis_when_set1_was_requested_last
      · simp [ht]
      · simp [ht]
    · rw [h2]
      simp
  refine ⟨hreq, hst, ?_, hiff, fun hp => ?_⟩
  · rw [loop_PID_pump_cur_set, hgc]
  · have hne := hiff.mpr hp
    have h2 : (grantStep (beforeGrant E g i) i.curMillis).PID_pump_cur_set = 2 := by
      rw [hgc]
      simp [hp.2]
    exact applySetStep_gains_2 _ hne h2

theorem expired_cons (s0 : Nat) (i : LoopInput) (is : List LoopInput) :
    expired s0 (i :: is) = (decide (20000 < usub32 i.curMillis s0) || expired s0 is) := by
  simp [expired]

theorem scenario_stable_run (E : Env) (is : List LoopInput) :
    ∀ g : Arduino1, holdsAlong E 10 (201 / 20) g is = true →
      g.PID_pump_old_set = g.PID_pump_cur_set →
      (g.PID_pump_cur_set = 1 ∨ g.PID_pump_cur_set = 2) →
      (run E g is).PID_pump_millis_when_set1_was_requested_last =
        g.PID_pump_millis_when_set1_was_requested_last ∧
      (run E g is).PID_pump_cur_set =
        (if g.PID_pump_cur_set = 2 ∨
            expired g.PID_pump_millis_when_set1_was_requested_last is = true then 2 else 1) ∧
      (is ≠ [] → (run E g is).PID_pump_req_set = 2) ∧
      grantChanges E g is =
        (if g.PID_pump_cur_set = 1 ∧
            expired g.PID_pump_millis_when_set1_was_requested_last is = true then 1 else 0) ∧
      tuningPushes E g is =
        (if g.PID_pump_cur_set = 1 ∧
            expired g.PID_pump_millis_when_set1_was_requested_last is = true
          then [(3 / 10, 5 / 100, 0)] else []) := by
  induction is with
  | nil =>
    intro g _ _ hc
    refine ⟨rfl, ?_, fun h => absurd rfl h, ?_, ?_⟩
    · rcases hc with h | h <;> simp [run, expired, h]
    · simp [grantChanges, expired]
    · simp [tuningPushes, expired]
  | cons i is ih =>
    intro g hs hold hc
    simp only [holdsAlong, Bool.and_eq_true] at hs
    obtain ⟨p1, p2, p3, p4, p5⟩ := scenario_stable_pass E g i hs.1 hold hc
    have hLc : (loop E g i).PID_pump_cur_set = 1 ∨ (loop E g i).PID_pump_cur_set = 2 := by
      rw [p3]
      split_ifs
      · exact Or.inr rfl
      · exact Or.inl rfl
    obtain ⟨q1, q2, q3, q4, q5⟩ := ih (loop E g i) hs.2 (loop_old_eq_cur E g i) hLc
    rw [p2] at q1 q2 q4 q5
    rw [run_cons, expired_cons]
    refine ⟨q1, ?_, fun _ => ?_, ?_, ?_⟩
    · rw [q2, p3]
      rcases hc with h | h
      · by_cases ht : 20000 < usub32 i.curMillis g.PID_pump_millis_when_set1_was_requested_last
        · simp [h, ht]
        · simp [h, ht]
      · simp [h]
    · by_cases hn : is = []
      · rw [hn]
        exact p1
      · exact q3 hn
    · simp only [grantChanges]
      rw [q4, p3]
      rcases hc with h | h
      · by_cases ht : 20000 < usub32 i.curMillis g.PID_pump_millis_when_set1_was_requested_last
        · simp [h, ht]
        · simp [h, ht]
      · simp [h]
    · simp only [tuningPushes]
      rw [q5, p3]
      rcases hc with h | h
      · by_cases ht : 20000 < usub32 i.curMillis g.PID_pump_millis_when_set1_was_requested_last
        · have hp := p5 ⟨h, ht⟩
          rw [if_pos (p4.mpr ⟨h, ht⟩), hp.1, hp.2.1, hp.2.2]
          simp [h, ht]
        · have hnp : ¬ ((grantStep (beforeGrant E g i) i.curMillis).PID_pump_cur_set ≠
              (grantStep (beforeGrant E g i) i.curMillis).PID_pump_old_set) :=
            fun hh => ht (p4.mp hh).2
          rw [if_neg hnp]
          simp [h, ht]
      · have hnp : ¬ ((grantStep (beforeGrant E g i) i.curMillis).PID_pump_cur_set ≠
            (grantStep (beforeGrant E g i) i.curMillis).PID_pump_old_set) := by
          intro hh
          have := (p4.mp hh).1
          omega
        rw [if_neg hnp]
        simp [h]

theorem holdsAlong_append (E : Env) (sp m : ℚ) (a b : List LoopInput) :
    ∀ g : Arduino1, holdsAlong E sp m g (a ++ b) = true → holdsAlong E sp m g a = true := by
  induction a with
  | nil => intro g _; rfl
  | cons i a ih =>
    intro g h
    simp only [List.cons_append, holdsAlong, Bool.and_eq_true] at h ⊢
    exact ⟨h.1, ih _ h.2⟩

/-- C19: with automatic control enabled, a pass with setpoint 10.0 and
measured 10.5 has deviation 5 % and requests and grants the fast set; in the
following passes with measured 10.05 the stable set is requested, after each
of them the granted set is still the fast set as long as no pass came more
than 20000 ms after the first, and the stable set from the first such pass on;
over the whole run the granted set changes from fast to stable exactly once,
with one tuning push of the stable gains (0.3, 0.05, 0.0), as soon as the run
contains such a pass (and not at all before). -/
theorem end_to_end_scenario (E : Env) (g0 : Arduino1) (i1 : LoopInput) (is : List LoopInput)
    (h1 : inScenario E g0 i1 10 (21 / 2) = true)
    (h2 : holdsAlong E 10 (201 / 20) (loop E g0 i1) is = true) :
    (dev_setp_pct (beforeRequest E g0 i1) = FDiv.fin 5 ∧
     (loop E g0 i1).PID_pump_req_set = 1 ∧
     (loop E g0 i1).PID_pump_cur_set = 1 ∧
     (loop E g0 i1).PID_pump_millis_when_set1_was_requested_last = i1.curMillis) ∧
    (∀ a b : List LoopInput, is = a ++ b → a ≠ [] →
      (run E (loop E g0 i1) a).PID_pump_req_set = 2 ∧
      (run E (loop E g0 i1) a).PID_pump_cur_set =
        (if expired i1.curMillis a = true then 2 else 1)) ∧
    grantChanges E (loop E g0 i1) is = (if expired i1.curMillis is = true then 1 else 0) ∧
    tuningPushes E (loop E g0 i1) is =
      (if expired i1.curMillis is = true then [(3 / 10, 5 / 100, 0)] else []) := by
  obtain ⟨f1, f2, f3, f4⟩ := scenario_fast_pass E g0 i1 h1
  have hold := loop_old_eq_cur E g0 i1
  refine ⟨⟨f1, f2, f3, f4⟩, ?_, ?_, ?_⟩
  · intro a b hab ha
    rw [hab] at h2
    obtain ⟨_, q2, q3, _, _⟩ := scenario_stable_run E a (loop E g0 i1)
      (holdsAlong_append E _ _ a b _ h2) hold (Or.inl f3)
    rw [f3, f4] at q2
    refine ⟨q3 ha, ?_⟩
    rw [q2]
    simp
  · obtain ⟨_, _, _, q4, _⟩ := scenario_stable_run E is (loop E g0 i1) h2 hold (Or.inl f3)
    rw [f3, f4] at q4
    rw [q4]
    simp
  · obtain ⟨_, _, _, _, q5⟩ := scenario_stable_run E is (loop E g0 i1) h2 hold (Or.inl f3)
    rw [f3, f4] at q5
    rw [q5]
    simp

theorem end_to_end_scenario_witness :
    (inScenario Env.scenario Scenario.start Scenario.first 10 (21 / 2) = true ∧
     holdsAlong Env.scenario 10 (201 / 20)
       (loop Env.scenario Scenario.start Scenario.first) Scenario.rest = true ∧
     expired Scenario.first.curMillis Scenario.rest = true) ∧
    (grantChanges Env.scenario (loop Env.scenario Scenario.start Scenario.first) Scenario.rest =
        (if expired Scenario.first.curMillis Scenario.rest = true then 1 else 0) ∧
     tuningPushes Env.scenario (loop Env.scenario Scenario.start Scenario.first) Scenario.rest =
        (if expired Scenario.first.curMillis Scenario.rest = true
          then [(3 / 10, 5 / 100, 0)] else [])) :=
  ⟨by decide!,
   (end_to_end_scenario Env.scenario Scenario.start Scenario.first Scenario.rest
      (by decide!) (by decide!)).2.2⟩

/-! ### The relay class -/

theorem Relay.update_writes (r : Relay) :
    r.update.writes = (if r._fState ≠ r._fPrevState then [(r._pin, r._fState)] else []) := by
  simp only [Relay.update, Relay.needsUpdate, Relay.actuateState]
  by_cases h : r._fState = r._fPrevState
  · simp [h]
  · simp [h]

theorem Relay.update_of_synced (r : Relay) (h : r._fState = r._fPrevState) :
    r.update = { relay := r, ret := r._fState, writes := [] } := by
  simp [Relay.update, Relay.needsUpdate, h]

theorem Relay.updates_of_synced (n : Nat) :
    ∀ r : Relay, r._fState = r._fPrevState → Relay.updates n r = (r, []) := by
  induction n with
  | zero => intro r _; rfl
  | succ n ih =>
    intro r h
    simp only [Relay.updates, Relay.update_of_synced r h, ih r h, List.append_nil]

/-- C27: `Relay::update` performs a hardware write if and only if the desired
state differs from the last-applied state, always returns the desired state
and leaves last-applied equal to desired; any number `n >= 1` of consecutive
update calls with no `setStateToBeActuated` in between performs the writes of
the first call only: exactly one if the states differed, none otherwise. -/
theorem relay_write_on_change (r : Relay) (n : Nat) (hn : 1 ≤ n) :
    r.update.writes = (if r._fState ≠ r._fPrevState then [(r._pin, r._fState)] else []) ∧
    r.update.ret = r._fState ∧
    r.update.relay._fState = r._fState ∧
    r.update.relay._fPrevState = r._fState ∧
    (Relay.updates n r).2 = r.update.writes ∧
    (Relay.updates n r).2.length = (if r._fState ≠ r._fPrevState then 1 else 0) ∧
    (Relay.updates n r).1 = r.update.relay := by
  obtain ⟨u1, u2, u3, _⟩ := Relay.update_spec r
  have hw := Relay.update_writes r
  have hs : r.update.relay._fState = r.update.relay._fPrevState := u1.trans u2.symm
  obtain ⟨m, rfl⟩ : ∃ m, n = m + 1 := ⟨n - 1, by omega⟩
  have hrest := Relay.updates_of_synced m r.update.relay hs
  have h5 : (Relay.updates (m + 1) r).2 = r.update.writes := by
    simp only [Relay.updates, hrest, List.append_nil]
  refine ⟨hw, u3, u1, u2, h5, ?_, ?_⟩
  · rw [h5, hw]
    split_ifs <;> rfl
  · simp only [Relay.updates, hrest]

theorem relay_write_on_change_witness :
    1 ≤ 3 ∧
    (Relay.updates 3 { _pin := 0, _fState := true, _fPrevState := false }).2 =
      ({ _pin := 0, _fState := true, _fPrevState := false } : Relay).update.writes ∧
    (Relay.updates 3 { _pin := 0, _fState := true, _fPrevState := false }).2.length = 1 :=
  ⟨by decide,
   (relay_write_on_change { _pin := 0, _fState := true, _fPrevState := false } 3
      (by decide)).2.2.2.2.1,
   by decide⟩

/-- C28: `Relay::setStateToBeActuated` only changes the desired state: the
last-applied state and the pin stay, and the record of hardware writes of the
program is untouched; "on" sets the desired state to true, "off" to false,
"toggle" negates it; two toggles give the relay back, and an update that
follows them writes nothing when nothing was pending before. -/
theorem setStateToBeActuated_pure (r : Relay) (a : relay_action) (g : Arduino1) (n : Nat) :
    (r.setStateToBeActuated a)._fPrevState = r._fPrevState ∧
    (r.setStateToBeActuated a)._pin = r._pin ∧
    (setRelay g n a).digitalWrites = g.digitalWrites ∧
    (r.setStateToBeActuated relay_action.on)._fState = true ∧
    (r.setStateToBeActuated relay_action.off)._fState = false ∧
    (r.setStateToBeActuated relay_action.toggle)._fState = !r._fState ∧
    (r.setStateToBeActuated relay_action.toggle).setStateToBeActuated relay_action.toggle = r ∧
    (r._fState = r._fPrevState →
      ((r.setStateToBeActuated relay_action.toggle).setStateToBeActuated
        relay_action.toggle).update.writes = []) := by
  have h2 : (r.setStateToBeActuated relay_action.toggle).setStateToBeActuated
      relay_action.toggle = r := by
    cases r
    simp [Relay.setStateToBeActuated]
  refine ⟨?_, ?_, ?_, rfl, rfl, rfl, h2, fun h => ?_⟩
  · cases a <;> rfl
  · cases a <;> rfl
  · simp only [setRelay]
    split <;> rfl
  · rw [h2, Relay.update_of_synced r h]

theorem setStateToBeActuated_pure_witness :
    (Relay.ctor 13)._fState = (Relay.ctor 13)._fPrevState ∧
    (((Relay.ctor 13).setStateToBeActuated relay_action.toggle).setStateToBeActuated
      relay_action.toggle).update.writes = [] :=
  ⟨by decide,
   (setStateToBeActuated_pure (Relay.ctor 13) relay_action.toggle (Arduino1.init 0 0)
      1).2.2.2.2.2.2.2 (by decide)⟩

/-! ### The filtered channel -/

theorem usub32_self (c : Nat) : usub32 c c = 0 := by
  unfold usub32 U32
  omega

theorem pollUpdate_fst (exp : ℚ → ℚ) (d : IIR_LP_DAQ) (cur r : Nat) :
    (IIR_LP_DAQ.pollUpdate exp d cur r).1 =
      decide (d._DAQ_interval_ms * 1000 < usub32 cur d._prevMicros) := by
  simp only [IIR_LP_DAQ.pollUpdate]
  by_cases h : d._DAQ_interval_ms * 1000 < usub32 cur d._prevMicros
  · rw [if_pos h]
    simp [h]
  · rw [if_neg h]
    simp [h]

theorem pollUpdate_false (exp : ℚ → ℚ) (d : IIR_LP_DAQ) (cur r : Nat)
    (h : ¬ d._DAQ_interval_ms * 1000 < usub32 cur d._prevMicros) :
    IIR_LP_DAQ.pollUpdate exp d cur r = (false, d) := by
  simp only [IIR_LP_DAQ.pollUpdate]
  rw [if_neg h]

theorem pollUpdate_prevMicros (exp : ℚ → ℚ) (d : IIR_LP_DAQ) (cur r : Nat)
    (h : d._DAQ_interval_ms * 1000 < usub32 cur d._prevMicros) :
    (IIR_LP_DAQ.pollUpdate exp d cur r).2._prevMicros = cur ∧
    (IIR_LP_DAQ.pollUpdate exp d cur r).2._fStartup = false ∧
    (IIR_LP_DAQ.pollUpdate exp d cur r).2._DAQ_interval_ms = d._DAQ_interval_ms := by
  simp only [IIR_LP_DAQ.pollUpdate]
  rw [if_pos h]
  split_ifs <;> simp_all

/-- C29, as stated, fails: the flow-rate channel (interval 25 ms, last sample
at 0) polled at exactly 25000 microseconds takes no sample. -/
theorem no_sample_at_exact_interval :
    (IIR_LP_DAQ.ctor 25 (2 / 10))._DAQ_interval_ms * 1000 ≤
      usub32 25000 (IIR_LP_DAQ.ctor 25 (2 / 10))._prevMicros ∧
    (IIR_LP_DAQ.pollUpdate (fun _ => 0) (IIR_LP_DAQ.ctor 25 (2 / 10)) 25000 100).1 = false ∧
    (IIR_LP_DAQ.pollUpdate (fun _ => 0) (IIR_LP_DAQ.ctor 25 (2 / 10)) 25001 100).1 = true := by
  decide

/-- C29, amended: `IIR_LP_DAQ::pollUpdate` takes a sample and returns true if
and only if the wrapped elapsed microseconds since the last accepted sample,
`(curMicros - _prevMicros) mod 2^32`, exceed the configured interval
(`_DAQ_interval_ms * 1000` microseconds); it does not sample when the elapsed
time equals the interval exactly. A call that returns true records
`curMicros` as the time of the sample, one that returns false changes
nothing. -/
theorem pollUpdate_iff_interval_exceeded (exp : ℚ → ℚ) (d : IIR_LP_DAQ) (cur r : Nat) :
    ((IIR_LP_DAQ.pollUpdate exp d cur r).1 = true ↔
      d._DAQ_interval_ms * 1000 < usub32 cur d._prevMicros) ∧
    (usub32 cur d._prevMicros = d._DAQ_interval_ms * 1000 →
      (IIR_LP_DAQ.pollUpdate exp d cur r).1 = false) ∧
    ((IIR_LP_DAQ.pollUpdate exp d cur r).1 = true →
      (IIR_LP_DAQ.pollUpdate exp d cur r).2._prevMicros = cur) ∧
    ((IIR_LP_DAQ.pollUpdate exp d cur r).1 = false →
      (IIR_LP_DAQ.pollUpdate exp d cur r).2 = d) := by
  rw [pollUpdate_fst]
  refine ⟨by simp, fun h => by simp [h], fun h => ?_, fun h => ?_⟩
  · exact (pollUpdate_prevMicros exp d cur r (by simpa using h)).1
  · rw [pollUpdate_false exp d cur r (by simpa using h)]

/-- C30: of two consecutive `pollUpdate` calls that observe the same
`micros()` value, the second returns false, does not depend on what the read
function would return, and leaves the channel (filtered value, smoothing
factor, startup flag, sample timestamp) unchanged; so the two calls take at
most one sample. -/
theorem pollUpdate_twice_same_micros (exp : ℚ → ℚ) (d : IIR_LP_DAQ) (cur r1 r2 : Nat) :
    IIR_LP_DAQ.pollUpdate exp (IIR_LP_DAQ.pollUpdate exp d cur r1).2 cur r2 =
      (false, (IIR_LP_DAQ.pollUpdate exp d cur r1).2) ∧
    ((IIR_LP_DAQ.pollUpdate exp d cur r1).1 = false ∨
      (IIR_LP_DAQ.pollUpdate exp (IIR_LP_DAQ.pollUpdate exp d cur r1).2 cur r2).1 = false) := by
  have key : IIR_LP_DAQ.pollUpdate exp (IIR_LP_DAQ.pollUpdate exp d cur r1).2 cur r2 =
      (false, (IIR_LP_DAQ.pollUpdate exp d cur r1).2) := by
    by_cases h : d._DAQ_interval_ms * 1000 < usub32 cur d._prevMicros
    · obtain ⟨p1, _, p3⟩ := pollUpdate_prevMicros exp d cur r1 h
      apply pollUpdate_false
      rw [p1, usub32_self]
      omega
    · rw [pollUpdate_false exp d cur r1 h]
      exact pollUpdate_false exp d cur r2 h
  exact ⟨key, Or.inr (by rw [key])⟩

/-! ### Commands of the interlock, followed to the end of the iteration -/

theorem commandStep_python (E : Env) (g : Arduino1) (i : LoopInput) (s : String)
    (h : i.pythonCmd = some s) :
    commandStep E (daqStep E g i) i =
      execCmd E (beforePython E g i) i.curMillis s (decodePython s) := by
  simp only [commandStep, beforePython, h, pythonCommand]

theorem commandStep_no_python (E : Env) (g : Arduino1) (i : LoopInput)
    (h : i.pythonCmd = none) :
    commandStep E (daqStep E g i) i = beforePython E g i := by
  simp only [commandStep, beforePython, h]

theorem beforePython_debug (E : Env) (g : Arduino1) (i : LoopInput) (s : String)
    (h : i.debugCmd = some s) :
    beforePython E g i = execCmd E (daqStep E g i) i.curMillis s (decodeDebug s) := by
  simp only [commandStep, beforePython, h, debugCommand]

theorem beforeOTP_relays (E : Env) (g : Arduino1) (i : LoopInput) :
    (beforeOTP E g i).relay_01 = (commandStep E (daqStep E g i) i).relay_01 ∧
    (beforeOTP E g i).relay_02 = (commandStep E (daqStep E g i) i).relay_02 ∧
    (beforeOTP E g i).relay_03 = (commandStep E (daqStep E g i) i).relay_03 ∧
    (beforeOTP E g i).OTP_tripped_status_old =
      (commandStep E (daqStep E g i) i).OTP_tripped_status_old := by
  simp [beforeOTP, beforeCompute, beforeGrant, beforeRequest]

theorem loop_relays_applied (E : Env) (g : Arduino1) (i : LoopInput) :
    ((loop E g i).relay_01._fState = (otpStep (beforeOTP E g i) i.curMillis).relay_01._fState ∧
      (loop E g i).relay_01._fPrevState =
        (otpStep (beforeOTP E g i) i.curMillis).relay_01._fState ∧
      (loop E g i).state.relay_01 = (otpStep (beforeOTP E g i) i.curMillis).relay_01._fState) ∧
    ((loop E g i).relay_02._fState = (otpStep (beforeOTP E g i) i.curMillis).relay_02._fState ∧
      (loop E g i).relay_02._fPrevState =
        (otpStep (beforeOTP E g i) i.curMillis).relay_02._fState ∧
      (loop E g i).state.relay_02 = (otpStep (beforeOTP E g i) i.curMillis).relay_02._fState) ∧
    ((loop E g i).relay_03._fState = (otpStep (beforeOTP E g i) i.curMillis).relay_03._fState ∧
      (loop E g i).relay_03._fPrevState =
        (otpStep (beforeOTP E g i) i.curMillis).relay_03._fState ∧
      (loop E g i).state.relay_03 = (otpStep (beforeOTP E g i) i.curMillis).relay_03._fState) := by
  obtain ⟨u1, u2, u3, v1, v2, v3⟩ := relayUpdateStep_relays (otpStep (beforeOTP E g i) i.curMillis)
  obtain ⟨w1, w2, w3⟩ := wdtStep_relays (relayUpdateStep (otpStep (beforeOTP E g i) i.curMillis))
    i.curMillis
  have a1 := Relay.update_spec (otpStep (beforeOTP E g i) i.curMillis).relay_01
  have a2 := Relay.update_spec (otpStep (beforeOTP E g i) i.curMillis).relay_02
  have a3 := Relay.update_spec (otpStep (beforeOTP E g i) i.curMillis).relay_03
  simp only [loop, wdtStep_relay_01, wdtStep_relay_02, wdtStep_relay_03, w1, w2, w3,
    u1, u2, u3, v1, v2, v3]
  rw [a1.1, a1.2.1, a1.2.2.1, a2.1, a2.2.1, a2.2.2.1, a3.1, a3.2.1, a3.2.2.1]
  exact ⟨⟨rfl, rfl, rfl⟩, ⟨rfl, rfl, rfl⟩, ⟨rfl, rfl, rfl⟩⟩

/-- The end of an iteration whose interlock section is enabled, finds the
previous-tripped flag false and the interlock tripped or timed out. -/
theorem loop_new_trip (E : Env) (g : Arduino1) (i : LoopInput)
    (hena : (commandStep E (daqStep E g i) i).state.ENA_OTP = true)
    (hold : (commandStep E (daqStep E g i) i).OTP_tripped_status_old = false)
    (ht : OTP_OKAY_TIMEOUT_MS <
        usub32 i.curMillis (commandStep E (daqStep E g i) i).OTP_okay_prevMillis ∨
      (commandStep E (daqStep E g i) i).OTP_tripped_status = true) :
    (loop E g i).state.ENA_OTP = true ∧ (loop E g i).OTP_tripped_status = true ∧
    ((loop E g i).relay_01._fState = false ∧ (loop E g i).relay_01._fPrevState = false ∧
      (loop E g i).state.relay_01 = false) ∧
    ((loop E g i).relay_02._fState = false ∧ (loop E g i).relay_02._fPrevState = false ∧
      (loop E g i).state.relay_02 = false) ∧
    ((loop E g i).relay_03._fState = false ∧ (loop E g i).relay_03._fPrevState = false ∧
      (loop E g i).state.relay_03 = false) := by
  obtain ⟨b1, b2, b3⟩ := beforeOTP_otp E g i
  obtain ⟨_, _, _, b4⟩ := beforeOTP_relays E g i
  rw [← b1] at hena
  rw [← b4] at hold
  rw [← b2, ← b3] at ht
  have htr : (otpStep (beforeOTP E g i) i.curMillis).OTP_tripped_status = true := by
    rw [otpStep_tripped _ _ hena]
    rcases ht with h | h
    · simp [h]
    · simp [h]
  obtain ⟨k1, k2, k3⟩ := otpStep_rising (beforeOTP E g i) i.curMillis hena hold htr
  obtain ⟨a1, a2, a3⟩ := loop_relays_applied E g i
  rw [k1] at a1
  rw [k2] at a2
  rw [k3] at a3
  exact ⟨by rw [loop_ENA_OTP]; exact hena, by rw [loop_OTP_tripped_status]; exact htr,
    a1, a2, a3⟩

theorem decodeDebug_ne_soft_reset (s : String) : decodeDebug s ≠ Cmd.soft_reset := by
  have key : ∀ e ∈ debugChain, e.2 ≠ Cmd.soft_reset := by decide
  intro h
  obtain ⟨e, he, _, hc⟩ := dispatch_eq debugChain s _ h (by decide)
  exact key e he hc

theorem execCmd_keeps_trip (E : Env) (g : Arduino1) (c : Nat) (strCmd : String) (cmd : Cmd)
    (h1 : cmd ≠ Cmd.otp_okay) (h2 : cmd ≠ Cmd.otp_trip) (h3 : cmd ≠ Cmd.soft_reset) :
    (execCmd E g c strCmd cmd).OTP_tripped_status = g.OTP_tripped_status ∧
    (execCmd E g c strCmd cmd).OTP_okay_prevMillis = g.OTP_okay_prevMillis := by
  cases cmd with
  | relay n a =>
    simp only [execCmd, setRelay]
    split <;> exact ⟨rfl, rfl⟩
  | ena_otp b => cases b <;> exact ⟨rfl, rfl⟩
  | otp_okay => exact absurd rfl h1
  | otp_trip => exact absurd rfl h2
  | soft_reset => exact absurd rfl h3
  | _ => exact ⟨rfl, rfl⟩

theorem beforePython_otp (E : Env) (g : Arduino1) (i : LoopInput) :
    (beforePython E g i).OTP_tripped_status = g.OTP_tripped_status ∧
    (beforePython E g i).OTP_okay_prevMillis = g.OTP_okay_prevMillis := by
  cases hd : i.debugCmd with
  | none =>
    simp [beforePython, commandStep, hd]
  | some sd =>
    rw [beforePython_debug E g i sd hd]
    obtain ⟨a, b⟩ := execCmd_keeps_trip E (daqStep E g i) i.curMillis sd _
      (decodeDebug_ne_otp sd).1 (decodeDebug_ne_otp sd).2 (decodeDebug_ne_soft_reset sd)
    rw [a, b]
    simp

/-- What the command strings used below decode to. -/
theorem decodePython_lit :
    decodePython "otp_trip" = Cmd.otp_trip ∧ decodePython "otp_okay" = Cmd.otp_okay ∧
    decodePython "ena_otp on" = Cmd.ena_otp true ∧ decodeDebug "ena_otp on" = Cmd.ena_otp true ∧
    decodePython "soft_reset" = Cmd.soft_reset := by
  decide

/-- C21: the command "otp_trip", processed while the interlock is enabled and
its previous-tripped flag is false (the interlock was OK before), trips it at
once: at the end of that loop iteration the tripped flag is true and relays 1
to 3 are applied off, however recent the last okay signal is and whatever the
debug channel delivered before in the same iteration. -/
theorem otp_trip_forces_relays_off (E : Env) (g : Arduino1) (i : LoopInput)
    (hcmd : i.pythonCmd = some "otp_trip")
    (hena : (beforePython E g i).state.ENA_OTP = true)
    (hold : (beforePython E g i).OTP_tripped_status_old = false) :
    (loop E g i).state.ENA_OTP = true ∧ (loop E g i).OTP_tripped_status = true ∧
    ((loop E g i).relay_01._fState = false ∧ (loop E g i).relay_01._fPrevState = false ∧
      (loop E g i).state.relay_01 = false) ∧
    ((loop E g i).relay_02._fState = false ∧ (loop E g i).relay_02._fPrevState = false ∧
      (loop E g i).state.relay_02 = false) ∧
    ((loop E g i).relay_03._fState = false ∧ (loop E g i).relay_03._fPrevState = false ∧
      (loop E g i).state.relay_03 = false) := by
  have hc := commandStep_python E g i _ hcmd
  rw [decodePython_lit.1] at hc
  apply loop_new_trip
  · rw [hc]; exact hena
  · rw [hc]; exact hold
  · right; rw [hc]; rfl

theorem otp_trip_forces_relays_off_witness :
    ((LoopInput.both 10 "r1 on" "otp_trip").pythonCmd = some "otp_trip" ∧
      (beforePython (Env.sample 0) (Arduino1.init 0 0)
        (LoopInput.both 10 "r1 on" "otp_trip")).state.ENA_OTP = true ∧
      (beforePython (Env.sample 0) (Arduino1.init 0 0)
        (LoopInput.both 10 "r1 on" "otp_trip")).OTP_tripped_status_old = false ∧
      (beforePython (Env.sample 0) (Arduino1.init 0 0)
        (LoopInput.both 10 "r1 on" "otp_trip")).relay_01._fState = true) ∧
    (loop (Env.sample 0) (Arduino1.init 0 0)
      (LoopInput.both 10 "r1 on" "otp_trip")).state.relay_01 = false :=
  ⟨by decide!,
   (otp_trip_forces_relays_off (Env.sample 0) (Arduino1.init 0 0)
      (LoopInput.both 10 "r1 on" "otp_trip") (by decide!) (by decide!)
      (by decide!)).2.2.1.2.2⟩

/-- C23: while the interlock is disabled (`ENA_OTP` false) the interlock step
of a loop iteration changes nothing, for every elapsed time since the last
okay signal and every value of the tripped flag; so at the end of an iteration
in which the interlock is disabled after the commands, the tripped and
previous-tripped flags are as the commands left them and relays 1 to 3 are
applied to the desired states the commands left. -/
theorem interlock_disabled_is_identity (h : Arduino1) (c : Nat) (E : Env) (g : Arduino1)
    (i : LoopInput) :
    (h.state.ENA_OTP = false → otpStep h c = h) ∧
    ((commandStep E (daqStep E g i) i).state.ENA_OTP = false →
      (loop E g i).OTP_tripped_status = (commandStep E (daqStep E g i) i).OTP_tripped_status ∧
      (loop E g i).OTP_tripped_status_old =
        (commandStep E (daqStep E g i) i).OTP_tripped_status_old ∧
      ((loop E g i).relay_01._fState = (commandStep E (daqStep E g i) i).relay_01._fState ∧
        (loop E g i).relay_01._fPrevState = (commandStep E (daqStep E g i) i).relay_01._fState ∧
        (loop E g i).state.relay_01 = (commandStep E (daqStep E g i) i).relay_01._fState) ∧
      ((loop E g i).relay_02._fState = (commandStep E (daqStep E g i) i).relay_02._fState ∧
        (loop E g i).relay_02._fPrevState = (commandStep E (daqStep E g i) i).relay_02._fState ∧
        (loop E g i).state.relay_02 = (commandStep E (daqStep E g i) i).relay_02._fState) ∧
      ((loop E g i).relay_03._fState = (commandStep E (daqStep E g i) i).relay_03._fState ∧
        (loop E g i).relay_03._fPrevState = (commandStep E (daqStep E g i) i).relay_03._fState ∧
        (loop E g i).state.relay_03 = (commandStep E (daqStep E g i) i).relay_03._fState)) := by
  refine ⟨fun hh => otpStep_disabled h c hh, fun hdis => ?_⟩
  obtain ⟨b1, b2, _⟩ := beforeOTP_otp E g i
  obtain ⟨r1, r2, r3, b4⟩ := beforeOTP_relays E g i
  rw [← b1] at hdis
  have hid : otpStep (beforeOTP E g i) i.curMillis = beforeOTP E g i :=
    otpStep_disabled _ _ hdis
  obtain ⟨a1, a2, a3⟩ := loop_relays_applied E g i
  rw [hid, r1] at a1
  rw [hid, r2] at a2
  rw [hid, r3] at a3
  refine ⟨?_, ?_, a1, a2, a3⟩
  · rw [loop_OTP_tripped_status, hid, b2]
  · have : (loop E g i).OTP_tripped_status_old =
        (otpStep (beforeOTP E g i) i.curMillis).OTP_tripped_status_old := by simp [loop]
    rw [this, hid, b4]

theorem interlock_disabled_is_identity_witness :
    (Arduino1.disabledTripped.state.ENA_OTP = false ∧
      Arduino1.disabledTripped.OTP_tripped_status = true ∧
      (commandStep (Env.sample 0)
        (daqStep (Env.sample 0) Arduino1.disabledTripped (LoopInput.python 4000 "r1 on"))
        (LoopInput.python 4000 "r1 on")).state.ENA_OTP = false) ∧
    otpStep Arduino1.disabledTripped 4000 = Arduino1.disabledTripped ∧
    (loop (Env.sample 0) Arduino1.disabledTripped
      (LoopInput.python 4000 "r1 on")).OTP_tripped_status = true ∧
    (loop (Env.sample 0) Arduino1.disabledTripped
        (LoopInput.python 4000 "r1 on")).state.relay_01 =
      (commandStep (Env.sample 0)
        (daqStep (Env.sample 0) Arduino1.disabledTripped (LoopInput.python 4000 "r1 on"))
        (LoopInput.python 4000 "r1 on")).relay_01._fState ∧
    (commandStep (Env.sample 0)
      (daqStep (Env.sample 0) Arduino1.disabledTripped (LoopInput.python 4000 "r1 on"))
      (LoopInput.python 4000 "r1 on")).relay_01._fState = true :=
  ⟨by decide!,
   (interlock_disabled_is_identity Arduino1.disabledTripped 4000 (Env.sample 0)
      Arduino1.disabledTripped (LoopInput.python 4000 "r1 on")).1 (by decide!),
   by decide!,
   ((interlock_disabled_is_identity Arduino1.disabledTripped 4000 (Env.sample 0)
      Arduino1.disabledTripped (LoopInput.python 4000 "r1 on")).2 (by decide!)).2.2.1.2.2,
   by decide!⟩

/-- C24: a loop iteration that processes "ena_otp on" (from the Python
channel after any debug command, or from the debug channel when the Python
channel is silent) while the last okay signal is stale or the tripped flag is
set ends with the interlock enabled and TRIPPED and relays 1 to 3 applied
off, for every value of the previous-tripped flag and of the relays before. -/
theorem reenable_while_stale_or_tripped (E : Env) (g : Arduino1) (i : LoopInput)
    (hcmd : i.pythonCmd = some "ena_otp on" ∨
      (i.debugCmd = some "ena_otp on" ∧ i.pythonCmd = none))
    (hst : OTP_OKAY_TIMEOUT_MS < usub32 i.curMillis g.OTP_okay_prevMillis ∨
      g.OTP_tripped_status = true) :
    (loop E g i).state.ENA_OTP = true ∧ (loop E g i).OTP_tripped_status = true ∧
    ((loop E g i).relay_01._fState = false ∧ (loop E g i).relay_01._fPrevState = false ∧
      (loop E g i).state.relay_01 = false) ∧
    ((loop E g i).relay_02._fState = false ∧ (loop E g i).relay_02._fPrevState = false ∧
      (loop E g i).state.relay_02 = false) ∧
    ((loop E g i).relay_03._fState = false ∧ (loop E g i).relay_03._fPrevState = false ∧
      (loop E g i).state.relay_03 = false) := by
  obtain ⟨p1, p2⟩ := beforePython_otp E g i
  have key : (commandStep E (daqStep E g i) i).state.ENA_OTP = true ∧
      (commandStep E (daqStep E g i) i).OTP_tripped_status_old = false ∧
      (commandStep E (daqStep E g i) i).OTP_tripped_status = g.OTP_tripped_status ∧
      (commandStep E (daqStep E g i) i).OTP_okay_prevMillis = g.OTP_okay_prevMillis := by
    rcases hcmd with h | ⟨hd, hp⟩
    · have hc := commandStep_python E g i _ h
      rw [decodePython_lit.2.2.1] at hc
      rw [hc]
      exact ⟨rfl, rfl, p1, p2⟩
    · rw [commandStep_no_python E g i hp]
      refine ⟨?_, ?_, p1, p2⟩
      · rw [beforePython_debug E g i _ hd, decodePython_lit.2.2.2.1]
        rfl
      · rw [beforePython_debug E g i _ hd, decodePython_lit.2.2.2.1]
        rfl
  obtain ⟨k1, k2, k3, k4⟩ := key
  apply loop_new_trip E g i k1 k2
  rw [k3, k4]
  exact hst

theorem reenable_while_stale_or_tripped_witness :
    ((LoopInput.both 30 "r1 on" "ena_otp on").pythonCmd = some "ena_otp on" ∧
      Arduino1.disabledTripped.OTP_tripped_status
        = true) ∧
    (loop (Env.sample 0)
      Arduino1.disabledTripped
      (LoopInput.both 30 "r1 on" "ena_otp on")).state.relay_01 = false :=
  ⟨⟨rfl, by decide!⟩,
   (reenable_while_stale_or_tripped (Env.sample 0)
      Arduino1.disabledTripped
      (LoopInput.both 30 "r1 on" "ena_otp on") (Or.inl rfl) (Or.inr (by decide!))).2.2.1.2.2⟩

/-- C25, as stated, fails: after "otp_trip" at 10 ms has tripped the interlock,
"ena_otp on" processed at 20 ms leaves the tripped flag true and the last-okay
timestamp at 0. -/
theorem reenable_keeps_trip_and_timestamp :
    Arduino1.tripped.OTP_tripped_status
      = true ∧
    (commandStep (Env.sample 0)
      (daqStep (Env.sample 0)
        Arduino1.tripped
        (LoopInput.python 20 "ena_otp on"))
      (LoopInput.python 20 "ena_otp on")).OTP_tripped_status = true ∧
    (commandStep (Env.sample 0)
      (daqStep (Env.sample 0)
        Arduino1.tripped
        (LoopInput.python 20 "ena_otp on"))
      (LoopInput.python 20 "ena_otp on")).OTP_okay_prevMillis = 0 ∧
    (LoopInput.python 20 "ena_otp on").curMillis = 20 := by
  decide!

/-- C25, amended: immediately after "ena_otp on" is processed, on either
channel, the interlock is enabled and the previous-tripped flag is false; the
tripped flag and the last-okay timestamp are left as they were. -/
theorem reenable_effect (E : Env) (g : Arduino1) (c : Nat) :
    pythonCommand E g c "ena_otp on" =
      { g with state := { g.state with ENA_OTP := true }, OTP_tripped_status_old := false } ∧
    debugCommand E g c "ena_otp on" =
      { g with state := { g.state with ENA_OTP := true }, OTP_tripped_status_old := false } ∧
    (pythonCommand E g c "ena_otp on").state.ENA_OTP = true ∧
    (pythonCommand E g c "ena_otp on").OTP_tripped_status_old = false ∧
    (pythonCommand E g c "ena_otp on").OTP_tripped_status = g.OTP_tripped_status ∧
    (pythonCommand E g c "ena_otp on").OTP_okay_prevMillis = g.OTP_okay_prevMillis := by
  have h1 : pythonCommand E g c "ena_otp on" =
      { g with state := { g.state with ENA_OTP := true }, OTP_tripped_status_old := false } := by
    rw [pythonCommand, decodePython_lit.2.2.1]
    rfl
  have h2 : debugCommand E g c "ena_otp on" =
      { g with state := { g.state with ENA_OTP := true }, OTP_tripped_status_old := false } := by
    rw [debugCommand, decodePython_lit.2.2.2.1]
    rfl
  refine ⟨h1, h2, ?_, ?_, ?_, ?_⟩ <;> rw [h1]

/-! ### What is kept of the relays, the state and the pump drive -/

theorem pidModeStep_keeps (g : Arduino1) :
    (pidModeStep g).state = g.state ∧
    (pidModeStep g).relay_01 = g.relay_01 ∧
    (pidModeStep g).relay_02 = g.relay_02 ∧
    (pidModeStep g).relay_03 = g.relay_03 ∧
    (pidModeStep g).relay_04 = g.relay_04 ∧
    (pidModeStep g).relay_05 = g.relay_05 ∧
    (pidModeStep g).relay_06 = g.relay_06 ∧
    (pidModeStep g).relay_07 = g.relay_07 ∧
    (pidModeStep g).relay_08 = g.relay_08 ∧
    (pidModeStep g).relay_09 = g.relay_09 ∧
    (pidModeStep g).T_click_1 = g.T_click_1 := by
  simp only [pidModeStep]
  split_ifs <;> exact ⟨rfl, rfl, rfl, rfl, rfl, rfl, rfl, rfl, rfl, rfl, rfl⟩

theorem requestStep_keeps (g : Arduino1) (c : Nat) :
    (requestStep g c).state = g.state ∧
    (requestStep g c).relay_01 = g.relay_01 ∧
    (requestStep g c).relay_02 = g.relay_02 ∧
    (requestStep g c).relay_03 = g.relay_03 ∧
    (requestStep g c).relay_04 = g.relay_04 ∧
    (requestStep g c).relay_05 = g.relay_05 ∧
    (requestStep g c).relay_06 = g.relay_06 ∧
    (requestStep g c).relay_07 = g.relay_07 ∧
    (requestStep g c).relay_08 = g.relay_08 ∧
    (requestStep g c).relay_09 = g.relay_09 ∧
    (requestStep g c).T_click_1 = g.T_click_1 := by
  simp only [requestStep]
  split_ifs <;> exact ⟨rfl, rfl, rfl, rfl, rfl, rfl, rfl, rfl, rfl, rfl, rfl⟩

theorem grantStep_keeps (g : Arduino1) (c : Nat) :
    (grantStep g c).state = g.state ∧
    (grantStep g c).relay_01 = g.relay_01 ∧
    (grantStep g c).relay_02 = g.relay_02 ∧
    (grantStep g c).relay_03 = g.relay_03 ∧
    (grantStep g c).relay_04 = g.relay_04 ∧
    (grantStep g c).relay_05 = g.relay_05 ∧
    (grantStep g c).relay_06 = g.relay_06 ∧
    (grantStep g c).relay_07 = g.relay_07 ∧
    (grantStep g c).relay_08 = g.relay_08 ∧
    (grantStep g c).relay_09 = g.relay_09 ∧
    (grantStep g c).T_click_1 = g.T_click_1 := by
  simp only [grantStep]
  split_ifs <;> exact ⟨rfl, rfl, rfl, rfl, rfl, rfl, rfl, rfl, rfl, rfl, rfl⟩

theorem applySetStep_keeps (g : Arduino1) :
    (applySetStep g).state = g.state ∧
    (applySetStep g).relay_01 = g.relay_01 ∧
    (applySetStep g).relay_02 = g.relay_02 ∧
    (applySetStep g).relay_03 = g.relay_03 ∧
    (applySetStep g).relay_04 = g.relay_04 ∧
    (applySetStep g).relay_05 = g.relay_05 ∧
    (applySetStep g).relay_06 = g.relay_06 ∧
    (applySetStep g).relay_07 = g.relay_07 ∧
    (applySetStep g).relay_08 = g.relay_08 ∧
    (applySetStep g).relay_09 = g.relay_09 ∧
    (applySetStep g).T_click_1 = g.T_click_1 := by
  simp only [applySetStep]
  split_ifs <;> exact ⟨rfl, rfl, rfl, rfl, rfl, rfl, rfl, rfl, rfl, rfl, rfl⟩

theorem otpStep_keeps (g : Arduino1) (c : Nat) :
    (otpStep g c).state = g.state ∧
    (otpStep g c).relay_04 = g.relay_04 ∧
    (otpStep g c).relay_05 = g.relay_05 ∧
    (otpStep g c).relay_06 = g.relay_06 ∧
    (otpStep g c).relay_07 = g.relay_07 ∧
    (otpStep g c).relay_08 = g.relay_08 ∧
    (otpStep g c).relay_09 = g.relay_09 ∧
    (otpStep g c).T_click_1 = g.T_click_1 ∧
    (otpStep g c).PID_pump = g.PID_pump := by
  simp only [otpStep]
  split_ifs <;> exact ⟨rfl, rfl, rfl, rfl, rfl, rfl, rfl, rfl, rfl⟩

theorem otpStep_keeps_off (g : Arduino1) (c : Nat) (hold : g.OTP_tripped_status_old = false)
    (h1 : g.relay_01._fState = false) (h2 : g.relay_02._fState = false)
    (h3 : g.relay_03._fState = false) :
    (otpStep g c).relay_01._fState = false ∧ (otpStep g c).relay_02._fState = false ∧
    (otpStep g c).relay_03._fState = false := by
  simp only [otpStep]
  split_ifs <;> simp_all [Relay.setStateToBeActuated]

theorem loop_tail (g : Arduino1) (c : Nat) :
    (wdtStep (relayUpdateStep g) c).relay_01 = g.relay_01.update.relay ∧
    (wdtStep (relayUpdateStep g) c).relay_02 = g.relay_02.update.relay ∧
    (wdtStep (relayUpdateStep g) c).relay_03 = g.relay_03.update.relay ∧
    (wdtStep (relayUpdateStep g) c).relay_04 = g.relay_04.update.relay ∧
    (wdtStep (relayUpdateStep g) c).relay_05 = g.relay_05.update.relay ∧
    (wdtStep (relayUpdateStep g) c).relay_06 = g.relay_06.update.relay ∧
    (wdtStep (relayUpdateStep g) c).relay_07 = g.relay_07.update.relay ∧
    (wdtStep (relayUpdateStep g) c).relay_08 = g.relay_08.update.relay ∧
    (wdtStep (relayUpdateStep g) c).relay_09 = g.relay_09.update.relay ∧
    (wdtStep (relayUpdateStep g) c).state.relay_01 = g.relay_01.update.ret ∧
    (wdtStep (relayUpdateStep g) c).state.relay_02 = g.relay_02.update.ret ∧
    (wdtStep (relayUpdateStep g) c).state.relay_03 = g.relay_03.update.ret ∧
    (wdtStep (relayUpdateStep g) c).state.relay_04 = g.relay_04.update.ret ∧
    (wdtStep (relayUpdateStep g) c).state.relay_05 = g.relay_05.update.ret ∧
    (wdtStep (relayUpdateStep g) c).state.relay_06 = g.relay_06.update.ret ∧
    (wdtStep (relayUpdateStep g) c).state.relay_07 = g.relay_07.update.ret ∧
    (wdtStep (relayUpdateStep g) c).state.relay_08 = g.relay_08.update.ret ∧
    (wdtStep (relayUpdateStep g) c).state.relay_09 = g.relay_09.update.ret ∧
    (wdtStep (relayUpdateStep g) c).state.set_pump_speed_mA = g.state.set_pump_speed_mA ∧
    (wdtStep (relayUpdateStep g) c).state.set_pump_speed_pct = g.state.set_pump_speed_pct ∧
    (wdtStep (relayUpdateStep g) c).state.ENA_PID_pump = g.state.ENA_PID_pump ∧
    (wdtStep (relayUpdateStep g) c).state.setpoint_flow_rate_m3h = g.state.setpoint_flow_rate_m3h ∧
    (wdtStep (relayUpdateStep g) c).state.ENA_OTP = g.state.ENA_OTP ∧
    (wdtStep (relayUpdateStep g) c).T_click_1 = g.T_click_1 ∧
    (wdtStep (relayUpdateStep g) c).PID_pump = g.PID_pump := by
  simp only [wdtStep]
  split_ifs <;> exact ⟨rfl, rfl, rfl, rfl, rfl, rfl, rfl, rfl, rfl, rfl, rfl, rfl, rfl, rfl, rfl, rfl, rfl, rfl, rfl, rfl, rfl, rfl, rfl, rfl, rfl⟩

theorem computeStep_manual (g : Arduino1) (n : Nat) (h : g.PID_pump.inAuto = false) :
    computeStep g n = (false, g) := by
  simp [computeStep, PID.Compute, h]

theorem beforeCompute_keeps (E : Env) (g : Arduino1) (i : LoopInput) :
    (beforeCompute E g i).state = (commandStep E (daqStep E g i) i).state ∧
    (beforeCompute E g i).relay_01 = (commandStep E (daqStep E g i) i).relay_01 ∧
    (beforeCompute E g i).relay_02 = (commandStep E (daqStep E g i) i).relay_02 ∧
    (beforeCompute E g i).relay_03 = (commandStep E (daqStep E g i) i).relay_03 ∧
    (beforeCompute E g i).relay_04 = (commandStep E (daqStep E g i) i).relay_04 ∧
    (beforeCompute E g i).relay_05 = (commandStep E (daqStep E g i) i).relay_05 ∧
    (beforeCompute E g i).relay_06 = (commandStep E (daqStep E g i) i).relay_06 ∧
    (beforeCompute E g i).relay_07 = (commandStep E (daqStep E g i) i).relay_07 ∧
    (beforeCompute E g i).relay_08 = (commandStep E (daqStep E g i) i).relay_08 ∧
    (beforeCompute E g i).relay_09 = (commandStep E (daqStep E g i) i).relay_09 ∧
    (beforeCompute E g i).T_click_1 = (commandStep E (daqStep E g i) i).T_click_1 := by
  simp only [beforeCompute, beforeGrant, beforeRequest]
  obtain ⟨a0, a1, a2, a3, a4, a5, a6, a7, a8, a9, a10⟩ :=
    pidModeStep_keeps (commandStep E (daqStep E g i) i)
  obtain ⟨b0, b1, b2, b3, b4, b5, b6, b7, b8, b9, b10⟩ :=
    requestStep_keeps (pidModeStep (commandStep E (daqStep E g i) i)) i.curMillis
  obtain ⟨c0, c1, c2, c3, c4, c5, c6, c7, c8, c9, c10⟩ :=
    grantStep_keeps (requestStep (pidModeStep (commandStep E (daqStep E g i) i)) i.curMillis)
      i.curMillis
  obtain ⟨d0, d1, d2, d3, d4, d5, d6, d7, d8, d9, d10⟩ :=
    applySetStep_keeps (grantStep (requestStep (pidModeStep (commandStep E (daqStep E g i) i))
      i.curMillis) i.curMillis)
  exact ⟨d0.trans (c0.trans (b0.trans a0)), d1.trans (c1.trans (b1.trans a1)),
    d2.trans (c2.trans (b2.trans a2)), d3.trans (c3.trans (b3.trans a3)),
    d4.trans (c4.trans (b4.trans a4)), d5.trans (c5.trans (b5.trans a5)),
    d6.trans (c6.trans (b6.trans a6)), d7.trans (c7.trans (b7.trans a7)),
    d8.trans (c8.trans (b8.trans a8)), d9.trans (c9.trans (b9.trans a9)),
    d10.trans (c10.trans (b10.trans a10))⟩

theorem beforeCompute_inAuto (E : Env) (g : Arduino1) (i : LoopInput) :
    (beforeCompute E g i).PID_pump.inAuto =
      ((commandStep E (daqStep E g i) i).state.ENA_PID_pump &&
        (commandStep E (daqStep E g i) i).state.relay_09) := by
  simp [beforeCompute, beforeGrant, beforeRequest, pidModeStep_inAuto]

/-- C26: at the end of the loop iteration that processes "soft_reset", for
every earlier state and every debug command of the same iteration, all nine
relays are applied off, the pump drive is 4 mA and 0 %, automatic control is
disabled and the PID is in manual mode when `Compute` is called (which
returns false and leaves the pump drive alone) and at the end, the setpoint is
0 and the interlock is enabled. -/
theorem soft_reset_effect (E : Env) (g : Arduino1) (i : LoopInput)
    (hcmd : i.pythonCmd = some "soft_reset") :
    ((loop E g i).relay_01._fState = false ∧ (loop E g i).relay_01._fPrevState = false ∧
      (loop E g i).state.relay_01 = false) ∧
    ((loop E g i).relay_02._fState = false ∧ (loop E g i).relay_02._fPrevState = false ∧
      (loop E g i).state.relay_02 = false) ∧
    ((loop E g i).relay_03._fState = false ∧ (loop E g i).relay_03._fPrevState = false ∧
      (loop E g i).state.relay_03 = false) ∧
    ((loop E g i).relay_04._fState = false ∧ (loop E g i).relay_04._fPrevState = false ∧
      (loop E g i).state.relay_04 = false) ∧
    ((loop E g i).relay_05._fState = false ∧ (loop E g i).relay_05._fPrevState = false ∧
      (loop E g i).state.relay_05 = false) ∧
    ((loop E g i).relay_06._fState = false ∧ (loop E g i).relay_06._fPrevState = false ∧
      (loop E g i).state.relay_06 = false) ∧
    ((loop E g i).relay_07._fState = false ∧ (loop E g i).relay_07._fPrevState = false ∧
      (loop E g i).state.relay_07 = false) ∧
    ((loop E g i).relay_08._fState = false ∧ (loop E g i).relay_08._fPrevState = false ∧
      (loop E g i).state.relay_08 = false) ∧
    ((loop E g i).relay_09._fState = false ∧ (loop E g i).relay_09._fPrevState = false ∧
      (loop E g i).state.relay_09 = false) ∧
    (loop E g i).state.set_pump_speed_mA = 4 ∧
    (loop E g i).state.set_pump_speed_pct = 0 ∧
    (loop E g i).T_click_1 = (beforePython E g i).T_click_1.set_mA 4 ∧
    (loop E g i).state.ENA_PID_pump = false ∧
    (beforeCompute E g i).PID_pump.inAuto = false ∧
    (computeStep (beforeCompute E g i) i.nowPID).1 = false ∧
    (loop E g i).PID_pump.inAuto = false ∧
    (loop E g i).state.setpoint_flow_rate_m3h = 0 ∧
    (loop E g i).state.ENA_OTP = true := by
  have hc := commandStep_python E g i _ hcmd
  rw [decodePython_lit.2.2.2.2] at hc
  obtain ⟨s0, r1, r2, r3, r4, r5, r6, r7, r8, r9, tc⟩ := beforeCompute_keeps E g i
  have hauto : (beforeCompute E g i).PID_pump.inAuto = false := by
    rw [beforeCompute_inAuto, hc]
    rfl
  have hcomp := computeStep_manual (beforeCompute E g i) i.nowPID hauto
  have hb : beforeOTP E g i = beforeCompute E g i := by
    rw [beforeOTP, hcomp]
  obtain ⟨_, _, _, hold⟩ := beforeOTP_relays E g i
  obtain ⟨os, o4, o5, o6, o7, o8, o9, otc, opid⟩ := otpStep_keeps (beforeOTP E g i) i.curMillis
  obtain ⟨k1, k2, k3⟩ := otpStep_keeps_off (beforeOTP E g i) i.curMillis
    (by rw [hold, hc]; rfl) (by rw [hb, r1, hc]; rfl) (by rw [hb, r2, hc]; rfl)
    (by rw [hb, r3, hc]; rfl)
  have k4 : (otpStep (beforeOTP E g i) i.curMillis).relay_04._fState = false := by
    rw [o4, hb, r4, hc]; rfl
  have k5 : (otpStep (beforeOTP E g i) i.curMillis).relay_05._fState = false := by
    rw [o5, hb, r5, hc]; rfl
  have k6 : (otpStep (beforeOTP E g i) i.curMillis).relay_06._fState = false := by
    rw [o6, hb, r6, hc]; rfl
  have k7 : (otpStep (beforeOTP E g i) i.curMillis).relay_07._fState = false := by
    rw [o7, hb, r7, hc]; rfl
  have k8 : (otpStep (beforeOTP E g i) i.curMillis).relay_08._fState = false := by
    rw [o8, hb, r8, hc]; rfl
  have k9 : (otpStep (beforeOTP E g i) i.curMillis).relay_09._fState = false := by
    rw [o9, hb, r9, hc]; rfl
  have hst : (otpStep (beforeOTP E g i) i.curMillis).state =
      (execCmd E (beforePython E g i) i.curMillis "soft_reset" Cmd.soft_reset).state := by
    rw [os, hb, s0, hc]
  obtain ⟨t1, t2, t3, t4, t5, t6, t7, t8, t9, u1, u2, u3, u4, u5, u6, u7, u8, u9,
    v1, v2, v3, v4, v5, vtc, vpid⟩ := loop_tail (otpStep (beforeOTP E g i) i.curMillis) i.curMillis
  have a1 := Relay.update_spec (otpStep (beforeOTP E g i) i.curMillis).relay_01
  have a2 := Relay.update_spec (otpStep (beforeOTP E g i) i.curMillis).relay_02
  have a3 := Relay.update_spec (otpStep (beforeOTP E g i) i.curMillis).relay_03
  have a4 := Relay.update_spec (otpStep (beforeOTP E g i) i.curMillis).relay_04
  have a5 := Relay.update_spec (otpStep (beforeOTP E g i) i.curMillis).relay_05
  have a6 := Relay.update_spec (otpStep (beforeOTP E g i) i.curMillis).relay_06
  have a7 := Relay.update_spec (otpStep (beforeOTP E g i) i.curMillis).relay_07
  have a8 := Relay.update_spec (otpStep (beforeOTP E g i) i.curMillis).relay_08
  have a9 := Relay.update_spec (otpStep (beforeOTP E g i) i.curMillis).relay_09
  simp only [loop]
  refine ⟨⟨?_, ?_, ?_⟩, ⟨?_, ?_, ?_⟩, ⟨?_, ?_, ?_⟩, ⟨?_, ?_, ?_⟩, ⟨?_, ?_, ?_⟩, ⟨?_, ?_, ?_⟩,
    ⟨?_, ?_, ?_⟩, ⟨?_, ?_, ?_⟩, ⟨?_, ?_, ?_⟩, ?_, ?_, ?_, ?_, hauto, ?_, ?_, ?_, ?_⟩
  · rw [t1, a1.1, k1]
  · rw [t1, a1.2.1, k1]
  · rw [u1, a1.2.2.1, k1]
  · rw [t2, a2.1, k2]
  · rw [t2, a2.2.1, k2]
  · rw [u2, a2.2.2.1, k2]
  · rw [t3, a3.1, k3]
  · rw [t3, a3.2.1, k3]
  · rw [u3, a3.2.2.1, k3]
  · rw [t4, a4.1, k4]
  · rw [t4, a4.2.1, k4]
  · rw [u4, a4.2.2.1, k4]
  · rw [t5, a5.1, k5]
  · rw [t5, a5.2.1, k5]
  · rw [u5, a5.2.2.1, k5]
  · rw [t6, a6.1, k6]
  · rw [t6, a6.2.1, k6]
  · rw [u6, a6.2.2.1, k6]
  · rw [t7, a7.1, k7]
  · rw [t7, a7.2.1, k7]
  · rw [u7, a7.2.2.1, k7]
  · rw [t8, a8.1, k8]
  · rw [t8, a8.2.1, k8]
  · rw [u8, a8.2.2.1, k8]
  · rw [t9, a9.1, k9]
  · rw [t9, a9.2.1, k9]
  · rw [u9, a9.2.2.1, k9]
  · rw [v1, hst]; rfl
  · rw [v2, hst]; rfl
  · rw [vtc, otc, hb, tc, hc]; rfl
  · rw [v3, hst]; rfl
  · rw [hcomp]
  · rw [vpid, opid, hb, hauto]
  · rw [v4, hst]; rfl
  · rw [v5, hst]; rfl

theorem soft_reset_effect_witness :
    (LoopInput.both 90 "r1 on" "soft_reset").pythonCmd = some "soft_reset" ∧
    Arduino1.pumping.relay_09._fPrevState = true ∧
    (loop (Env.sample 15)
      Arduino1.pumping
      (LoopInput.both 90 "r1 on" "soft_reset")).relay_09._fPrevState = false ∧
    (loop (Env.sample 15)
      Arduino1.pumping
      (LoopInput.both 90 "r1 on" "soft_reset")).state.relay_01 = false :=
  ⟨rfl, by decide!,
   (soft_reset_effect (Env.sample 15)
      Arduino1.pumping
      (LoopInput.both 90 "r1 on" "soft_reset") rfl).2.2.2.2.2.2.2.2.1.2.1,
   (soft_reset_effect (Env.sample 15)
      Arduino1.pumping
      (LoopInput.both 90 "r1 on" "soft_reset") rfl).1.2.2⟩

/-! ### The filter: accepted samples -/

theorem pollUpdate_accept (exp : ℚ → ℚ) (d : IIR_LP_DAQ) (cur r : Nat)
    (h : d._DAQ_interval_ms * 1000 < usub32 cur d._prevMicros) :
    (IIR_LP_DAQ.pollUpdate exp d cur r).1 = true ∧
    (IIR_LP_DAQ.pollUpdate exp d cur r).2._alpha =
      1 - exp (-((usub32 cur d._prevMicros : Nat) : ℚ) * (1 / 1000000) * d._f_LP_Hz) ∧
    (IIR_LP_DAQ.pollUpdate exp d cur r).2._IIR_LP_value =
      (if d._fStartup = true then (r : ℚ)
       else d._IIR_LP_value + (IIR_LP_DAQ.pollUpdate exp d cur r).2._alpha *
        ((r : ℚ) - d._IIR_LP_value)) ∧
    (IIR_LP_DAQ.pollUpdate exp d cur r).2._fStartup = false ∧
    (IIR_LP_DAQ.pollUpdate exp d cur r).2._prevMicros = cur ∧
    (IIR_LP_DAQ.pollUpdate exp d cur r).2._f_LP_Hz = d._f_LP_Hz ∧
    (IIR_LP_DAQ.pollUpdate exp d cur r).2._DAQ_interval_ms = d._DAQ_interval_ms := by
  simp only [IIR_LP_DAQ.pollUpdate]
  rw [if_pos h]
  cases hs : d._fStartup <;> simp

/-- C31: when `pollUpdate` accepts a sample with raw reading `r`: if it is the
first accepted sample the filtered value becomes exactly `r`; otherwise the
filtered value `v` becomes `v + alpha * (r - v)` with `alpha` the smoothing
factor computed in this call, `1 - exp(-elapsed * 1e-6 * f_LP_Hz)`; in both
cases the startup flag is cleared, the sample timestamp becomes `curMicros`
and `getValue` returns the new filtered value. -/
theorem pollUpdate_sample (exp : ℚ → ℚ) (d : IIR_LP_DAQ) (cur r : Nat)
    (hacc : (IIR_LP_DAQ.pollUpdate exp d cur r).1 = true) :
    (d._fStartup = true →
      (IIR_LP_DAQ.pollUpdate exp d cur r).2._IIR_LP_value = (r : ℚ)) ∧
    (d._fStartup = false →
      (IIR_LP_DAQ.pollUpdate exp d cur r).2._IIR_LP_value =
        d._IIR_LP_value + (IIR_LP_DAQ.pollUpdate exp d cur r).2._alpha *
          ((r : ℚ) - d._IIR_LP_value)) ∧
    (IIR_LP_DAQ.pollUpdate exp d cur r).2._alpha =
      1 - exp (-((usub32 cur d._prevMicros : Nat) : ℚ) * (1 / 1000000) * d._f_LP_Hz) ∧
    (IIR_LP_DAQ.pollUpdate exp d cur r).2._fStartup = false ∧
    (IIR_LP_DAQ.pollUpdate exp d cur r).2._prevMicros = cur ∧
    (IIR_LP_DAQ.pollUpdate exp d cur r).2.getValue =
      (IIR_LP_DAQ.pollUpdate exp d cur r).2._IIR_LP_value := by
  rw [pollUpdate_fst] at hacc
  have h : d._DAQ_interval_ms * 1000 < usub32 cur d._prevMicros := by simpa using hacc
  obtain ⟨_, a2, a3, a4, a5, _, _⟩ := pollUpdate_accept exp d cur r h
  refine ⟨fun hs => ?_, fun hs => ?_, a2, a4, a5, rfl⟩
  · rw [a3, if_pos hs]
  · rw [a3, if_neg (by simp [hs])]

theorem pollUpdate_sample_witness :
    (IIR_LP_DAQ.pollUpdate (fun _ => 1 / 2) (IIR_LP_DAQ.ctor 25 (2 / 10)) 30000 2000).1 = true ∧
    (IIR_LP_DAQ.pollUpdate (fun _ => 1 / 2) (IIR_LP_DAQ.ctor 25 (2 / 10)) 30000 2000).2._IIR_LP_value
      = 2000 ∧
    (IIR_LP_DAQ.pollUpdate (fun _ => 1 / 2)
      (IIR_LP_DAQ.pollUpdate (fun _ => 1 / 2) (IIR_LP_DAQ.ctor 25 (2 / 10)) 30000 2000).2
      60000 3000).2._IIR_LP_value = 2500 :=
  ⟨by decide!,
   (pollUpdate_sample (fun _ => 1 / 2) (IIR_LP_DAQ.ctor 25 (2 / 10)) 30000 2000
      (by decide!)).1 (by decide!),
   by decide!⟩

theorem convex_between {v r a lo hi : ℚ} (h0 : 0 ≤ a) (h1 : a ≤ 1)
    (hv : lo ≤ v ∧ v ≤ hi) (hr : lo ≤ r ∧ r ≤ hi) :
    lo ≤ v + a * (r - v) ∧ v + a * (r - v) ≤ hi := by
  constructor
  · nlinarith [mul_nonneg h0 (sub_nonneg.mpr hr.1), mul_nonneg (sub_nonneg.mpr h1) (sub_nonneg.mpr hv.1)]
  · nlinarith [mul_nonneg h0 (sub_nonneg.mpr hr.2), mul_nonneg (sub_nonneg.mpr h1) (sub_nonneg.mpr hv.2)]

theorem pollUpdate_alpha_range (exp : ℚ → ℚ)
    (hexp : ∀ x : ℚ, x ≤ 0 → 0 < exp x ∧ exp x ≤ 1) (d : IIR_LP_DAQ) (cur r : Nat)
    (hf : 0 ≤ d._f_LP_Hz) (h : d._DAQ_interval_ms * 1000 < usub32 cur d._prevMicros) :
    0 ≤ (IIR_LP_DAQ.pollUpdate exp d cur r).2._alpha ∧
    (IIR_LP_DAQ.pollUpdate exp d cur r).2._alpha < 1 := by
  obtain ⟨_, a2, _⟩ := pollUpdate_accept exp d cur r h
  have hx : -((usub32 cur d._prevMicros : Nat) : ℚ) * (1 / 1000000) * d._f_LP_Hz ≤ 0 := by
    have : (0 : ℚ) ≤ ((usub32 cur d._prevMicros : Nat) : ℚ) := Nat.cast_nonneg _
    have h2 : 0 ≤ ((usub32 cur d._prevMicros : Nat) : ℚ) * (1 / 1000000) * d._f_LP_Hz := by
      positivity
    linarith
  obtain ⟨e1, e2⟩ := hexp _ hx
  rw [a2]
  constructor <;> linarith

theorem polls_within (exp : ℚ → ℚ) (hexp : ∀ x : ℚ, x ≤ 0 → 0 < exp x ∧ exp x ≤ 1)
    (l : List (Nat × Nat)) :
    ∀ (d : IIR_LP_DAQ) (T : List Nat) (lo hi : ℚ), 0 ≤ d._f_LP_Hz →
      (d._fStartup = false → lo ≤ d._IIR_LP_value ∧ d._IIR_LP_value ≤ hi) →
      (∀ x ∈ T ++ IIR_LP_DAQ.taken exp d l, lo ≤ (x : ℚ) ∧ (x : ℚ) ≤ hi) →
      (IIR_LP_DAQ.polls exp d l)._fStartup = false →
      lo ≤ (IIR_LP_DAQ.polls exp d l)._IIR_LP_value ∧
      (IIR_LP_DAQ.polls exp d l)._IIR_LP_value ≤ hi := by
  induction l with
  | nil =>
    intro d T lo hi _ hinv _ hs
    exact hinv hs
  | cons p l ih =>
    intro d T lo hi hf hinv hT hs
    have hpolls : IIR_LP_DAQ.polls exp d (p :: l) =
        IIR_LP_DAQ.polls exp (IIR_LP_DAQ.pollUpdate exp d p.1 p.2).2 l := rfl
    rw [hpolls] at hs ⊢
    by_cases h : d._DAQ_interval_ms * 1000 < usub32 p.1 d._prevMicros
    · obtain ⟨a1, a2, a3, a4, a5, a6, a7⟩ := pollUpdate_accept exp d p.1 p.2 h
      have htk : IIR_LP_DAQ.taken exp d (p :: l) =
          p.2 :: IIR_LP_DAQ.taken exp (IIR_LP_DAQ.pollUpdate exp d p.1 p.2).2 l := by
        simp only [IIR_LP_DAQ.taken, a1, if_true]
      rw [htk] at hT
      have hp : lo ≤ (p.2 : ℚ) ∧ (p.2 : ℚ) ≤ hi := hT p.2 (by simp)
      apply ih _ (T ++ [p.2]) lo hi (by rw [a6]; exact hf) _ _ hs
      · intro _
        rw [a3]
        split_ifs with hst
        · exact hp
        · obtain ⟨b1, b2⟩ := pollUpdate_alpha_range exp hexp d p.1 p.2 hf h
          exact convex_between b1 b2.le (hinv (by simpa using hst)) hp
      · intro x hx
        apply hT x
        simpa using hx
    · rw [pollUpdate_false exp d p.1 p.2 h] at hs ⊢
      have htk : IIR_LP_DAQ.taken exp d (p :: l) = IIR_LP_DAQ.taken exp d l := by
        simp only [IIR_LP_DAQ.taken, pollUpdate_false exp d p.1 p.2 h]
        simp
      rw [htk] at hT
      exact ih d T lo hi hf hinv hT hs

/-- C40: the real exponential is in (0, 1] on arguments `<= 0`; with an `exp`
that has this property, for every accepted sample of a channel with cut-off
frequency `>= 0` the smoothing factor satisfies `0 <= alpha < 1`, and for a
non-startup sample the new filtered value lies between the old filtered value
and the raw reading; hence, from the constructor on, once a sample has been
taken the filtered value stays within any bounds that hold for all raw
readings taken so far (in particular their minimum and maximum). -/
theorem filter_never_overshoots (exp : ℚ → ℚ)
    (hexp : ∀ x : ℚ, x ≤ 0 → 0 < exp x ∧ exp x ≤ 1) :
    (∀ x : ℝ, x ≤ 0 → 0 < Real.exp x ∧ Real.exp x ≤ 1) ∧
    (∀ (d : IIR_LP_DAQ) (cur r : Nat), 0 ≤ d._f_LP_Hz →
      (IIR_LP_DAQ.pollUpdate exp d cur r).1 = true →
      0 ≤ (IIR_LP_DAQ.pollUpdate exp d cur r).2._alpha ∧
      (IIR_LP_DAQ.pollUpdate exp d cur r).2._alpha < 1 ∧
      (d._fStartup = false →
        min d._IIR_LP_value (r : ℚ) ≤ (IIR_LP_DAQ.pollUpdate exp d cur r).2._IIR_LP_value ∧
        (IIR_LP_DAQ.pollUpdate exp d cur r).2._IIR_LP_value ≤ max d._IIR_LP_value (r : ℚ))) ∧
    (∀ (interval : Nat) (f : ℚ) (l : List (Nat × Nat)) (lo hi : ℚ), 0 ≤ f →
      (IIR_LP_DAQ.polls exp (IIR_LP_DAQ.ctor interval f) l)._fStartup = false →
      (∀ x ∈ IIR_LP_DAQ.taken exp (IIR_LP_DAQ.ctor interval f) l,
        lo ≤ (x : ℚ) ∧ (x : ℚ) ≤ hi) →
      lo ≤ (IIR_LP_DAQ.polls exp (IIR_LP_DAQ.ctor interval f) l)._IIR_LP_value ∧
      (IIR_LP_DAQ.polls exp (IIR_LP_DAQ.ctor interval f) l)._IIR_LP_value ≤ hi) := by
  refine ⟨fun x hx => ⟨Real.exp_pos x, Real.exp_le_one_iff.mpr hx⟩, ?_, ?_⟩
  · intro d cur r hf hacc
    rw [pollUpdate_fst] at hacc
    have h : d._DAQ_interval_ms * 1000 < usub32 cur d._prevMicros := by simpa using hacc
    obtain ⟨b1, b2⟩ := pollUpdate_alpha_range exp hexp d cur r hf h
    refine ⟨b1, b2, fun hs => ?_⟩
    obtain ⟨_, _, a3, _⟩ := pollUpdate_accept exp d cur r h
    rw [a3, if_neg (by simp [hs])]
    exact convex_between b1 b2.le ⟨min_le_left _ _, le_max_left _ _⟩
      ⟨min_le_right _ _, le_max_right _ _⟩
  · intro interval f l lo hi hf hs hT
    exact polls_within exp hexp l (IIR_LP_DAQ.ctor interval f) [] lo hi hf
      (fun h => absurd h (by simp [IIR_LP_DAQ.ctor])) (by simpa using hT) hs

theorem filter_never_overshoots_witness :
    (∀ x : ℚ, x ≤ 0 → 0 < (fun y : ℚ => 1 / (1 + y ^ 2)) x ∧
      (fun y : ℚ => 1 / (1 + y ^ 2)) x ≤ 1) ∧
    (IIR_LP_DAQ.pollUpdate (fun y : ℚ => 1 / (1 + y ^ 2))
      (IIR_LP_DAQ.pollUpdate (fun y : ℚ => 1 / (1 + y ^ 2))
        (IIR_LP_DAQ.ctor 25 (2 / 10)) 30000 2000).2 5030000 3000).1 = true ∧
    (IIR_LP_DAQ.pollUpdate (fun y : ℚ => 1 / (1 + y ^ 2))
      (IIR_LP_DAQ.pollUpdate (fun y : ℚ => 1 / (1 + y ^ 2))
        (IIR_LP_DAQ.ctor 25 (2 / 10)) 30000 2000).2 5030000 3000).2._alpha = 1 / 2 ∧
    (IIR_LP_DAQ.pollUpdate (fun y : ℚ => 1 / (1 + y ^ 2))
      (IIR_LP_DAQ.pollUpdate (fun y : ℚ => 1 / (1 + y ^ 2))
        (IIR_LP_DAQ.ctor 25 (2 / 10)) 30000 2000).2 5030000 3000).2._alpha < 1 :=
  have hexp : ∀ x : ℚ, x ≤ 0 → 0 < (fun y : ℚ => 1 / (1 + y ^ 2)) x ∧
      (fun y : ℚ => 1 / (1 + y ^ 2)) x ≤ 1 := by
    intro x _
    have h1 : (0 : ℚ) < 1 + x ^ 2 := by positivity
    constructor
    · positivity
    · show 1 / (1 + x ^ 2) ≤ 1
      rw [div_le_one h1]
      nlinarith [sq_nonneg x]
  ⟨hexp, by decide!, by decide!,
   ((filter_never_overshoots (fun y : ℚ => 1 / (1 + y ^ 2)) hexp).2.1
      (IIR_LP_DAQ.pollUpdate (fun y : ℚ => 1 / (1 + y ^ 2))
        (IIR_LP_DAQ.ctor 25 (2 / 10)) 30000 2000).2 5030000 3000
      (by decide!) (by decide!)).2.1⟩

/-! ### Elapsed times across the wrap of the counters -/

theorem usub32_add (last d : Nat) (hd : d < U32) :
    usub32 ((last + d) % U32) last = d := by
  unfold usub32 U32 at *
  omega

theorem wdtStep_spec (g : Arduino1) (c : Nat) :
    (wdtStep g c).Watchdog_resets =
      (if millisPeriod_WDT_reset < usub32 c g.prevMillis_WDT_reset then g.Watchdog_resets + 1
       else g.Watchdog_resets) ∧
    (wdtStep g c).prevMillis_WDT_reset =
      (if millisPeriod_WDT_reset < usub32 c g.prevMillis_WDT_reset then c
       else g.prevMillis_WDT_reset) := by
  simp only [wdtStep]
  by_cases h : millisPeriod_WDT_reset < usub32 c g.prevMillis_WDT_reset
  · rw [if_pos h, if_pos h, if_pos h]
    exact ⟨rfl, rfl⟩
  · rw [if_neg h, if_neg h, if_neg h]
    exact ⟨rfl, rfl⟩

/-- C37: for every timestamp `last` and every true elapsed duration
`d < 2^32` with `now = (last + d) mod 2^32`, the elapsed value
`(now - last) mod 2^32` equals `d`, also when `now < last` numerically, and
each timed check decides on `d`: the PID sample period, the interlock
time-out, the dwell of the gain set, the watchdog period and the filter
interval. -/
theorem wrap_safe_elapsed (last d : Nat) (hd : d < U32) :
    usub32 ((last + d) % U32) last = d ∧
    (∀ (p : PID) (Input Setpoint Output : ℚ), p.lastTime = last →
      (p.Compute ((last + d) % U32) Input Setpoint Output).1 =
        (p.inAuto && decide (p.SampleTime ≤ d))) ∧
    (∀ g : Arduino1, g.state.ENA_OTP = true → g.OTP_okay_prevMillis = last →
      (otpStep g ((last + d) % U32)).OTP_tripped_status =
        (decide (OTP_OKAY_TIMEOUT_MS < d) || g.OTP_tripped_status)) ∧
    (∀ g : Arduino1, g.PID_pump_millis_when_set1_was_requested_last = last →
      g.state.ENA_PID_pump = true → g.PID_pump_cur_set = 1 → g.PID_pump_req_set = 2 →
      ((grantStep g ((last + d) % U32)).PID_pump_cur_set = 2 ↔
        PID_pump_switch_wait_period * 1000 < d)) ∧
    (∀ g : Arduino1, g.prevMillis_WDT_reset = last →
      ((wdtStep g ((last + d) % U32)).Watchdog_resets = g.Watchdog_resets + 1 ↔
        millisPeriod_WDT_reset < d)) ∧
    (∀ (exp : ℚ → ℚ) (q : IIR_LP_DAQ) (r : Nat), q._prevMicros = last →
      ((IIR_LP_DAQ.pollUpdate exp q ((last + d) % U32) r).1 = true ↔
        q._DAQ_interval_ms * 1000 < d)) := by
  have key := usub32_add last d hd
  refine ⟨key, ?_, ?_, ?_, ?_, ?_⟩
  · intro p Input Setpoint Output hp
    rw [Compute_fst, hp, key]
  · intro g he hp
    rw [otpStep_tripped g _ he, hp, key]
  · intro g hp he hc hr
    rw [grantStep_cur_set, hp, key, he, hc, hr]
    simp
  · intro g hp
    rw [(wdtStep_spec g _).1, hp, key]
    by_cases h : millisPeriod_WDT_reset < d
    · simp [h]
    · simp [h]
  · intro exp q r hq
    rw [pollUpdate_fst, hq, key]
    simp

theorem wrap_safe_elapsed_witness :
    (4294966296 < U32 ∧ 3001 < U32 ∧ (4294966296 + 3001) % U32 = 2001 ∧
      (4294966296 + 3000) % U32 = 2000) ∧
    usub32 2001 4294966296 = 3001 ∧
    (otpStep { Arduino1.init 0 0 with OTP_okay_prevMillis := 4294966296 } 2001).OTP_tripped_status
      = true ∧
    (otpStep { Arduino1.init 0 0 with OTP_okay_prevMillis := 4294966296 } 2000).OTP_tripped_status
      = false :=
  ⟨by decide,
   (wrap_safe_elapsed 4294966296 3001 (by decide)).1,
   by decide!, by decide!⟩

theorem SignInv_SetTunings (p : PID) (Kp Ki Kd : ℚ) (POn : Int)
    (hd : p.controllerDirection = DIRECT ∨ p.controllerDirection = REVERSE)
    (h : p.SignInv ∨ (0 ≤ Kp ∧ 0 ≤ Ki ∧ 0 ≤ Kd)) :
    (p.SetTunings Kp Ki Kd POn).SignInv := by
  have hs : (0 : ℚ) ≤ (p.SampleTime : ℚ) / 1000 := by positivity
  simp only [PID.SetTunings]
  by_cases hk : Kp < 0 ∨ Ki < 0 ∨ Kd < 0
  · rw [if_pos hk]
    rcases h with h | h
    · exact h
    · exfalso
      rcases hk with hk | hk | hk <;> linarith [h.1, h.2.1, h.2.2]
  · rw [if_neg hk]
    push_neg at hk
    obtain ⟨k1, k2, k3⟩ := hk
    have e2 : 0 ≤ Ki * ((p.SampleTime : ℚ) / 1000) := mul_nonneg k2 hs
    have e3 : 0 ≤ Kd / ((p.SampleTime : ℚ) / 1000) := div_nonneg k3 hs
    split_ifs with hq
    · have hq2 : p.controllerDirection = REVERSE := hq
      refine ⟨Or.inr hq2, fun h => ?_, fun _ => ⟨?_, ?_, ?_⟩⟩
      · have h3 : p.controllerDirection = DIRECT := h
        rw [hq2] at h3
        exact absurd h3 (by decide)
      · show 0 - Kp ≤ 0
        linarith
      · show 0 - Ki * ((p.SampleTime : ℚ) / 1000) ≤ 0
        linarith
      · show 0 - Kd / ((p.SampleTime : ℚ) / 1000) ≤ 0
        linarith
    · have hq2 : ¬ p.controllerDirection = REVERSE := hq
      have hd2 : p.controllerDirection = DIRECT := by
        rcases hd with hd | hd
        · exact hd
        · exact absurd hd hq2
      exact ⟨Or.inl hd2, fun _ => ⟨k1, e2, e3⟩, fun h => absurd h hq2⟩

theorem SignInv_SetSampleTime (p : PID) (T : Int) (h : p.SignInv) :
    (p.SetSampleTime T).SignInv := by
  simp only [PID.SetSampleTime]
  split_ifs with hT
  · have hr : (0 : ℚ) ≤ (T : ℚ) / (p.SampleTime : ℚ) := by
      have : (0 : ℚ) ≤ (T : ℚ) := by exact_mod_cast hT.le
      positivity
    obtain ⟨h0, h1, h2⟩ := h
    refine ⟨h0, fun hd => ?_, fun hd => ?_⟩
    · obtain ⟨a, b, c⟩ := h1 hd
      exact ⟨a, mul_nonneg b hr, div_nonneg c hr⟩
    · obtain ⟨a, b, c⟩ := h2 hd
      exact ⟨a, mul_nonpos_of_nonpos_of_nonneg b hr, div_nonpos_of_nonpos_of_nonneg c hr⟩
  · exact h

theorem SignInv_of_eq {p q : PID} (h1 : q.controllerDirection = p.controllerDirection)
    (h2 : q.kp = p.kp) (h3 : q.ki = p.ki) (h4 : q.kd = p.kd) (h : p.SignInv) : q.SignInv := by
  unfold PID.SignInv at *
  rw [h1, h2, h3, h4]
  exact h

theorem SignInv_SetControllerDirection (p : PID) (D : Int) (h : p.SignInv)
    (hok : p.dirCallOk (PID.Op.SetControllerDirection D) = true) :
    (p.SetControllerDirection D).SignInv := by
  simp only [PID.dirCallOk, Bool.and_eq_true, Bool.or_eq_true, decide_eq_true_eq] at hok
  obtain ⟨hD, hm⟩ := hok
  obtain ⟨h0, h1, h2⟩ := h
  simp only [PID.SetControllerDirection]
  by_cases hc : p.inAuto = true ∧ D ≠ p.controllerDirection
  · rw [if_pos hc]
    have hr : DIRECT ≠ REVERSE := by decide
    rcases hD with hD | hD
    · have hp : p.controllerDirection = REVERSE := by
        rcases h0 with h0 | h0
        · exact absurd (hD.trans h0.symm) hc.2
        · exact h0
      obtain ⟨a, b, c⟩ := h2 hp
      refine ⟨Or.inl hD, fun _ => ⟨?_, ?_, ?_⟩, fun h => absurd (hD.symm.trans h) hr⟩
      · show 0 ≤ 0 - p.kp
        linarith
      · show 0 ≤ 0 - p.ki
        linarith
      · show 0 ≤ 0 - p.kd
        linarith
    · have hp : p.controllerDirection = DIRECT := by
        rcases h0 with h0 | h0
        · exact h0
        · exact absurd (hD.trans h0.symm) hc.2
      obtain ⟨a, b, c⟩ := h1 hp
      refine ⟨Or.inr hD, fun h => absurd (h.symm.trans hD) hr, fun _ => ⟨?_, ?_, ?_⟩⟩
      · show 0 - p.kp ≤ 0
        linarith
      · show 0 - p.ki ≤ 0
        linarith
      · show 0 - p.kd ≤ 0
        linarith
  · rw [if_neg hc]
    have hDe : D = p.controllerDirection := by
      rcases hm with hm | hm
      · by_contra hne
        exact hc ⟨hm, hne⟩
      · exact hm
    refine ⟨?_, ?_, ?_⟩
    · show D = DIRECT ∨ D = REVERSE
      exact hD
    · intro hd
      exact h1 (hDe.symm.trans hd)
    · intro hd
      exact h2 (hDe.symm.trans hd)

theorem SignInv_call (p : PID) (op : PID.Op) (h : p.SignInv) (hok : p.dirCallOk op = true) :
    (p.call op).SignInv := by
  cases op with
  | Compute now Input Setpoint Output =>
    apply SignInv_of_eq _ _ _ _ h <;>
      (simp only [PID.call, PID.Compute]; split_ifs <;> rfl)
  | SetTunings Kp Ki Kd POn => exact SignInv_SetTunings p Kp Ki Kd POn h.1 (Or.inl h)
  | SetTunings3 Kp Ki Kd => exact SignInv_SetTunings p Kp Ki Kd p.pOn h.1 (Or.inl h)
  | SetSampleTime T => exact SignInv_SetSampleTime p T h
  | SetOutputLimits Output Min Max =>
    apply SignInv_of_eq _ _ _ _ h <;>
      (simp only [PID.call, PID.SetOutputLimits]; split_ifs <;> rfl)
  | SetMode Input Output Mode =>
    apply SignInv_of_eq _ _ _ _ h <;>
      (simp only [PID.call, PID.SetMode, PID.Initialize]; split_ifs <;> rfl)
  | SetControllerDirection Direction => exact SignInv_SetControllerDirection p Direction h hok

theorem SignInv_calls (ops : List PID.Op) :
    ∀ p : PID, p.SignInv → p.dirCallsOk ops = true → (p.calls ops).SignInv := by
  induction ops with
  | nil => intro p h _; exact h
  | cons op ops ih =>
    intro p h hok
    simp only [PID.dirCallsOk, Bool.and_eq_true] at hok
    exact ih (p.call op) (SignInv_call p op h hok.1) hok.2

theorem SignInv_ctor (raw : PID) (Kp Ki Kd : ℚ) (POn D : Int) (now : Nat)
    (hK : 0 ≤ Kp ∧ 0 ≤ Ki ∧ 0 ≤ Kd) (hD : D = DIRECT ∨ D = REVERSE) :
    (PID.ctor raw Kp Ki Kd POn D now).SignInv := by
  have h1 : ∀ q : PID, q.inAuto = false → (q.SetControllerDirection D).controllerDirection = D := by
    intro q _
    rfl
  have h2 := SignInv_SetTunings
    (({ ({ raw with inAuto := false, pTerm := 0, iTerm := 0, dTerm := 0 } :
      PID).SetOutputLimits 0 0 100 |>.1 with SampleTime := 1000 } : PID).SetControllerDirection D)
    Kp Ki Kd POn hD (Or.inr hK)
  exact h2

/-- C35, as stated, fails: after the constructor with direction DIRECT,
`SetControllerDirection(REVERSE)` in manual mode leaves `kp = 1 > 0` with the
direction REVERSE, and a following `SetMode(AUTOMATIC)` keeps both. -/
theorem direction_reversed_in_manual_keeps_signs :
    ((PID.ctor PID.zero 1 1 1 P_ON_E DIRECT 0).calls
      [PID.Op.SetControllerDirection REVERSE]).inAuto = false ∧
    ((PID.ctor PID.zero 1 1 1 P_ON_E DIRECT 0).calls
      [PID.Op.SetControllerDirection REVERSE]).controllerDirection = REVERSE ∧
    ((PID.ctor PID.zero 1 1 1 P_ON_E DIRECT 0).calls
      [PID.Op.SetControllerDirection REVERSE]).kp = 1 ∧
    ((PID.ctor PID.zero 1 1 1 P_ON_E DIRECT 0).calls
      [PID.Op.SetControllerDirection REVERSE, PID.Op.SetMode 0 0 AUTOMATIC]).inAuto = true ∧
    ((PID.ctor PID.zero 1 1 1 P_ON_E DIRECT 0).calls
      [PID.Op.SetControllerDirection REVERSE, PID.Op.SetMode 0 0 AUTOMATIC]).controllerDirection
      = REVERSE ∧
    ((PID.ctor PID.zero 1 1 1 P_ON_E DIRECT 0).calls
      [PID.Op.SetControllerDirection REVERSE, PID.Op.SetMode 0 0 AUTOMATIC]).kp = 1 := by
  decide!

/-- C35, amended: after the constructor with non-negative gains and any
sequence of the public operations in which every `SetControllerDirection`
names DIRECT or REVERSE and is made in automatic mode or does not change the
direction, `kp`, `ki` and `kd` are all `>= 0` when the direction is DIRECT and
all `<= 0` when it is REVERSE, in manual as well as in automatic mode. A
`SetControllerDirection` in automatic mode that changes the direction flips
the three signs as a block; in manual mode it only records the direction and
leaves the three coefficients as they are. -/
theorem signs_follow_direction (raw : PID) (Kp Ki Kd : ℚ) (POn D : Int) (now : Nat)
    (ops : List PID.Op) (hK : 0 ≤ Kp ∧ 0 ≤ Ki ∧ 0 ≤ Kd) (hD : D = DIRECT ∨ D = REVERSE)
    (hops : (PID.ctor raw Kp Ki Kd POn D now).dirCallsOk ops = true) :
    (((PID.ctor raw Kp Ki Kd POn D now).calls ops).controllerDirection = DIRECT →
      0 ≤ ((PID.ctor raw Kp Ki Kd POn D now).calls ops).kp ∧
      0 ≤ ((PID.ctor raw Kp Ki Kd POn D now).calls ops).ki ∧
      0 ≤ ((PID.ctor raw Kp Ki Kd POn D now).calls ops).kd) ∧
    (((PID.ctor raw Kp Ki Kd POn D now).calls ops).controllerDirection = REVERSE →
      ((PID.ctor raw Kp Ki Kd POn D now).calls ops).kp ≤ 0 ∧
      ((PID.ctor raw Kp Ki Kd POn D now).calls ops).ki ≤ 0 ∧
      ((PID.ctor raw Kp Ki Kd POn D now).calls ops).kd ≤ 0) ∧
    (∀ (p : PID) (D2 : Int), p.inAuto = false →
      (p.SetControllerDirection D2).kp = p.kp ∧ (p.SetControllerDirection D2).ki = p.ki ∧
      (p.SetControllerDirection D2).kd = p.kd ∧
      (p.SetControllerDirection D2).controllerDirection = D2) ∧
    (∀ (p : PID) (D2 : Int), p.inAuto = true → D2 ≠ p.controllerDirection →
      (p.SetControllerDirection D2).kp = 0 - p.kp ∧
      (p.SetControllerDirection D2).ki = 0 - p.ki ∧
      (p.SetControllerDirection D2).kd = 0 - p.kd ∧
      (p.SetControllerDirection D2).controllerDirection = D2) := by
  obtain ⟨_, h1, h2⟩ := SignInv_calls ops _ (SignInv_ctor raw Kp Ki Kd POn D now hK hD) hops
  refine ⟨h1, h2, ?_, ?_⟩
  · intro p D2 hm
    simp [PID.SetControllerDirection, hm]
  · intro p D2 ha hne
    simp [PID.SetControllerDirection, ha, hne]

theorem signs_follow_direction_witness :
    ((0 : ℚ) ≤ 1 ∧ (DIRECT = DIRECT ∨ DIRECT = REVERSE) ∧
      (PID.ctor PID.zero 1 1 1 P_ON_E DIRECT 0).dirCallsOk
        [PID.Op.SetMode 0 0 AUTOMATIC, PID.Op.SetControllerDirection REVERSE,
         PID.Op.SetSampleTime 500] = true ∧
      ((PID.ctor PID.zero 1 1 1 P_ON_E DIRECT 0).calls
        [PID.Op.SetMode 0 0 AUTOMATIC, PID.Op.SetControllerDirection REVERSE,
         PID.Op.SetSampleTime 500]).controllerDirection = REVERSE) ∧
    ((PID.ctor PID.zero 1 1 1 P_ON_E DIRECT 0).calls
      [PID.Op.SetMode 0 0 AUTOMATIC, PID.Op.SetControllerDirection REVERSE,
       PID.Op.SetSampleTime 500]).ki ≤ 0 ∧
    ((PID.ctor PID.zero 1 1 1 P_ON_E DIRECT 0).calls
      [PID.Op.SetMode 0 0 AUTOMATIC, PID.Op.SetControllerDirection REVERSE,
       PID.Op.SetSampleTime 500]).ki = -1 / 2 :=
  ⟨by decide!,
   ((signs_follow_direction PID.zero 1 1 1 P_ON_E DIRECT 0
      [PID.Op.SetMode 0 0 AUTOMATIC, PID.Op.SetControllerDirection REVERSE,
       PID.Op.SetSampleTime 500] (by decide!) (by decide!) (by decide!)).2.1 (by decide!)).2.1,
   by decide!⟩

/-! ### Commands with a numeric argument and unrecognized commands -/

theorem dispatch_of_first (pre post : List (Pat × Cmd)) (e : Pat × Cmd) (s : String)
    (hpre : ∀ x ∈ pre, x.1.test s = false) (he : e.1.test s = true) :
    dispatch (pre ++ e :: post) s = e.2 := by
  unfold dispatch
  have h1 : List.find? (fun x : Pat × Cmd => x.1.test s) pre = none := by
    rw [List.find?_eq_none]
    intro x hx
    simp [hpre x hx]
  rw [List.find?_append, h1]
  simp [List.find?_cons, he]

theorem dispatch_none (chain : List (Pat × Cmd)) (s : String)
    (h : ∀ x ∈ chain, x.1.test s = false) : dispatch chain s = Cmd.none := by
  unfold dispatch
  have h1 : List.find? (fun x : Pat × Cmd => x.1.test s) chain = none := by
    rw [List.find?_eq_none]
    intro x hx
    simp [h x hx]
  rw [h1]

/-- A comparison fails on a command whose first three characters are those of
`p`, when its own string differs from `p` within the first three characters. -/
theorem Pat.test_false_of_take3 (x : Pat) (p s : String)
    (hs : s.toList.take 3 = p.toList.take 3)
    (hx : (match x with
      | Pat.icase q =>
        decide ((q.toList.map Char.toLower).take 3 ≠ (p.toList.take 3).map Char.toLower)
      | Pat.exact q => decide (q.toList.take 3 ≠ p.toList.take 3)
      | Pat.first3 q => decide (q.toList.take 3 ≠ p.toList.take 3)) = true) :
    x.test s = false := by
  cases x with
  | icase q =>
    simp only [decide_eq_true_eq] at hx
    simp only [Pat.test, decide_eq_false_iff_not]
    intro h
    apply hx
    rw [← h, ← hs, List.map_take]
  | exact q =>
    simp only [decide_eq_true_eq] at hx
    simp only [Pat.test, decide_eq_false_iff_not]
    intro h
    apply hx
    rw [← h, hs]
  | first3 q =>
    simp only [decide_eq_true_eq] at hx
    simp only [Pat.test, decide_eq_false_iff_not]
    intro h
    apply hx
    rw [← h, hs]

theorem decodePython_sps (s : String) (h : (Pat.first3 "sps").test s = true) :
    decodePython s = Cmd.sps := by
  have hs : s.toList.take 3 = "sps".toList.take 3 := by simpa [Pat.test] using h
  have hchain : pythonChain = pythonChain.take 29 ++ (Pat.first3 "sps", Cmd.sps) ::
      pythonChain.drop 30 := by decide
  have hpre : (pythonChain.take 29).all (fun x => match x.1 with
      | Pat.icase q =>
        decide ((q.toList.map Char.toLower).take 3 ≠ ("sps".toList.take 3).map Char.toLower)
      | Pat.exact q => decide (q.toList.take 3 ≠ "sps".toList.take 3)
      | Pat.first3 q => decide (q.toList.take 3 ≠ "sps".toList.take 3)) = true := by decide
  rw [List.all_eq_true] at hpre
  unfold decodePython
  rw [hchain]
  exact dispatch_of_first _ _ _ s (fun x hx => Pat.test_false_of_take3 x.1 "sps" s hs (hpre x hx)) h

theorem decodePython_sfr (s : String) (h : (Pat.first3 "sfr").test s = true) :
    decodePython s = Cmd.sfr := by
  have hs : s.toList.take 3 = "sfr".toList.take 3 := by simpa [Pat.test] using h
  have hchain : pythonChain = pythonChain.take 36 ++ (Pat.first3 "sfr", Cmd.sfr) ::
      pythonChain.drop 37 := by decide
  have hpre : (pythonChain.take 36).all (fun x => match x.1 with
      | Pat.icase q =>
        decide ((q.toList.map Char.toLower).take 3 ≠ ("sfr".toList.take 3).map Char.toLower)
      | Pat.exact q => decide (q.toList.take 3 ≠ "sfr".toList.take 3)
      | Pat.first3 q => decide (q.toList.take 3 ≠ "sfr".toList.take 3)) = true := by decide
  rw [List.all_eq_true] at hpre
  unfold decodePython
  rw [hchain]
  exact dispatch_of_first _ _ _ s (fun x hx => Pat.test_false_of_take3 x.1 "sfr" s hs (hpre x hx)) h

theorem constrain_eq_clamp {a lo hi : ℚ} (h : lo ≤ hi) : constrain a lo hi = max lo (min a hi) := by
  unfold constrain
  split_ifs with h1 h2
  · rw [max_eq_left]
    exact le_trans (min_le_left _ _) h1.le
  · rw [min_eq_right h2.le, max_eq_right h]
  · push_neg at h1 h2
    rw [min_eq_left h2, max_eq_right h1]

/-- C32: numeric command arguments are clamped before being stored: a command
of the Python channel that starts with "sps" stores
`set_pump_speed_mA = clamp(x, 4, 20)` and
`set_pump_speed_pct = (set_pump_speed_mA - 4) / 0.16`, which is in [0, 100],
and one that starts with "sfr" stores `setpoint_flow_rate_m3h = clamp(x, 0, 30)`,
for every value `x` that `parseFloatInString` returns. -/
theorem numeric_arguments_clamped (E : Env) (g : Arduino1) (c : Nat) (s : String) :
    ((Pat.first3 "sps").test s = true →
      (pythonCommand E g c s).state.set_pump_speed_mA =
        max 4 (min (E.parseFloatInString s 3) 20) ∧
      (pythonCommand E g c s).state.set_pump_speed_pct =
        ((pythonCommand E g c s).state.set_pump_speed_mA - 4) / (16 / 100) ∧
      (4 ≤ (pythonCommand E g c s).state.set_pump_speed_mA ∧
        (pythonCommand E g c s).state.set_pump_speed_mA ≤ 20) ∧
      (0 ≤ (pythonCommand E g c s).state.set_pump_speed_pct ∧
        (pythonCommand E g c s).state.set_pump_speed_pct ≤ 100)) ∧
    ((Pat.first3 "sfr").test s = true →
      (pythonCommand E g c s).state.setpoint_flow_rate_m3h =
        max 0 (min (E.parseFloatInString s 3) QMAX_FLOW_METER) ∧
      0 ≤ (pythonCommand E g c s).state.setpoint_flow_rate_m3h ∧
      (pythonCommand E g c s).state.setpoint_flow_rate_m3h ≤ 30) := by
  constructor
  · intro h
    have hm := @constrain_mem (E.parseFloatInString s 3) 4 20 (by norm_num)
    have e1 : (pythonCommand E g c s).state.set_pump_speed_mA =
        constrain (E.parseFloatInString s 3) 4 20 := by
      rw [pythonCommand, decodePython_sps s h]; rfl
    have e2 : (pythonCommand E g c s).state.set_pump_speed_pct =
        (constrain (E.parseFloatInString s 3) 4 20 - 4) / (16 / 100) := by
      rw [pythonCommand, decodePython_sps s h]; rfl
    rw [e1, e2]
    refine ⟨constrain_eq_clamp (by norm_num), rfl, hm, ?_, ?_⟩
    · apply div_nonneg <;> linarith [hm.1]
    · rw [div_le_iff₀ (by norm_num)]
      linarith [hm.2]
  · intro h
    have hm := @constrain_mem (E.parseFloatInString s 3) 0 QMAX_FLOW_METER
      (by norm_num [QMAX_FLOW_METER])
    have e1 : (pythonCommand E g c s).state.setpoint_flow_rate_m3h =
        constrain (E.parseFloatInString s 3) 0 QMAX_FLOW_METER := by
      rw [pythonCommand, decodePython_sfr s h]; rfl
    rw [e1]
    refine ⟨constrain_eq_clamp (by norm_num [QMAX_FLOW_METER]), hm.1, ?_⟩
    have := hm.2
    norm_num [QMAX_FLOW_METER] at this
    exact this

theorem numeric_arguments_clamped_witness :
    ((Pat.first3 "sps").test "sps25.5" = true ∧ (Pat.first3 "sfr").test "sfr-3" = true) ∧
    (pythonCommand (Env.sample (51 / 2)) (Arduino1.init 0 0) 10 "sps25.5").state.set_pump_speed_mA
      = 20 ∧
    (pythonCommand (Env.sample (51 / 2)) (Arduino1.init 0 0) 10 "sps25.5").state.set_pump_speed_pct
      = 100 ∧
    (pythonCommand (Env.sample (-3)) (Arduino1.init 0 0) 10 "sfr-3").state.setpoint_flow_rate_m3h
      = 0 ∧
    (pythonCommand (Env.sample (51 / 2)) (Arduino1.init 0 0) 10 "sps25.5").state.set_pump_speed_mA
      ≤ 20 ∧
    0 ≤ (pythonCommand (Env.sample (-3)) (Arduino1.init 0 0) 10
      "sfr-3").state.setpoint_flow_rate_m3h :=
  ⟨by decide, by decide!, by decide!, by decide!,
   ((numeric_arguments_clamped (Env.sample (51 / 2)) (Arduino1.init 0 0) 10 "sps25.5").1
      (by decide)).2.2.1.2,
   ((numeric_arguments_clamped (Env.sample (-3)) (Arduino1.init 0 0) 10 "sfr-3").2
      (by decide)).2.1⟩

/-- C33: a command string of the Python channel on which every `strcmp`
comparison of the chain fails and which does not start with "sps" or "sfr" is
ignored: the command branch returns the program's variables unchanged, and so
does the command section of a loop iteration that receives it. -/
theorem unrecognized_command_ignored (E : Env) (g : Arduino1) (i : LoopInput) (s : String)
    (hs : ∀ e ∈ pythonChain, e.1 ≠ Pat.icase "id?" → e.1.test s = false) :
    pythonCommand E g i.curMillis s = g ∧
    (i.pythonCmd = some s → commandStep E (daqStep E g i) i = beforePython E g i) := by
  have hchain : pythonChain = [] ++ (Pat.icase "id?", Cmd.id) :: pythonChain.drop 1 := by decide
  have hdec : decodePython s = Cmd.id ∨ decodePython s = Cmd.none := by
    cases ht : (Pat.icase "id?").test s with
    | true =>
      left
      unfold decodePython
      rw [hchain]
      exact dispatch_of_first [] _ (Pat.icase "id?", Cmd.id) s (by simp) ht
    | false =>
      right
      apply dispatch_none
      intro x hx
      by_cases hxe : x.1 = Pat.icase "id?"
      · rw [hxe]
        exact ht
      · exact hs x hx hxe
  have key : ∀ (h : Arduino1) (c : Nat), pythonCommand E h c s = h := by
    intro h c
    unfold pythonCommand
    rcases hdec with hd | hd <;> rw [hd] <;> rfl
  refine ⟨key g i.curMillis, fun hi => ?_⟩
  rw [commandStep_python E g i s hi]
  exact key _ _

theorem unrecognized_command_ignored_witness :
    (∀ e ∈ pythonChain, e.1 ≠ Pat.icase "id?" → e.1.test "SOFT_RESET" = false) ∧
    pythonCommand (Env.sample 0) Arduino1.pumping 90 "SOFT_RESET" = Arduino1.pumping :=
  ⟨by decide,
   (unrecognized_command_ignored (Env.sample 0) Arduino1.pumping (LoopInput.idle 90)
      "SOFT_RESET" (by decide)).1⟩

/-! ### Withdrawing an enable of the PID -/

theorem decodePython_lit2 :
    decodePython "r9 off" = Cmd.relay 9 relay_action.off ∧
    decodePython "ena_pfr off" = Cmd.ena_pfr false := by
  decide

theorem beforeOTP_relay_09 (E : Env) (g : Arduino1) (i : LoopInput) :
    (beforeOTP E g i).relay_09 = (commandStep E (daqStep E g i) i).relay_09 := by
  simp [beforeOTP, beforeCompute, beforeGrant, beforeRequest]

theorem loop_state_relay_09 (E : Env) (g : Arduino1) (i : LoopInput) :
    (loop E g i).state.relay_09 = (commandStep E (daqStep E g i) i).relay_09._fState := by
  obtain ⟨_, _, _, _, _, _, _, _, _, _, _, _, _, _, _, _, _, u9, _⟩ :=
    loop_tail (otpStep (beforeOTP E g i) i.curMillis) i.curMillis
  obtain ⟨_, _, _, _, _, _, o9, _, _⟩ := otpStep_keeps (beforeOTP E g i) i.curMillis
  simp only [loop]
  rw [u9, (Relay.update_spec _).2.2.1, o9, beforeOTP_relay_09]

theorem loop_pump_of_manual (E : Env) (g : Arduino1) (i : LoopInput)
    (h : (beforeCompute E g i).PID_pump.inAuto = false) :
    (computeStep (beforeCompute E g i) i.nowPID).1 = false ∧
    (loop E g i).state.set_pump_speed_pct =
      (commandStep E (daqStep E g i) i).state.set_pump_speed_pct ∧
    (loop E g i).state.set_pump_speed_mA =
      (commandStep E (daqStep E g i) i).state.set_pump_speed_mA ∧
    (loop E g i).T_click_1 = (commandStep E (daqStep E g i) i).T_click_1 := by
  have hcomp := computeStep_manual (beforeCompute E g i) i.nowPID h
  have hb : beforeOTP E g i = beforeCompute E g i := by rw [beforeOTP, hcomp]
  obtain ⟨s0, _, _, _, _, _, _, _, _, _, tc⟩ := beforeCompute_keeps E g i
  obtain ⟨os, _, _, _, _, _, _, otc, _⟩ := otpStep_keeps (beforeOTP E g i) i.curMillis
  obtain ⟨_, _, _, _, _, _, _, _, _, _, _, _, _, _, _, _, _, _, v1, v2, _, _, _, vtc, _⟩ :=
    loop_tail (otpStep (beforeOTP E g i) i.curMillis) i.curMillis
  simp only [loop]
  refine ⟨by rw [hcomp], ?_, ?_, ?_⟩
  · rw [v2, os, hb, s0]
  · rw [v1, os, hb, s0]
  · rw [vtc, otc, hb, tc]

/-- C36, as stated, fails: with the PID in automatic mode and the pump drive
at 0 %, the iteration at 2000 ms that processes "r9 off" still has the PID in
automatic mode when `Compute` is called; `Compute` returns true and the pump
drive is rewritten to 19551/6340 %. -/
theorem automatic_in_iteration_of_r9_off :
    Arduino1.regulating.PID_pump.inAuto = true ∧
    Arduino1.regulating.state.set_pump_speed_pct = 0 ∧
    (beforeCompute (Env.sample 15) Arduino1.regulating
      (LoopInput.sampling 2000 2000 (some "r9 off"))).PID_pump.inAuto = true ∧
    (computeStep (beforeCompute (Env.sample 15) Arduino1.regulating
      (LoopInput.sampling 2000 2000 (some "r9 off"))) 2000).1 = true ∧
    (loop (Env.sample 15) Arduino1.regulating
      (LoopInput.sampling 2000 2000 (some "r9 off"))).state.set_pump_speed_pct = 19551 / 6340 := by
  decide!

/-- C36, amended: in the iteration that processes "ena_pfr off" the PID is in
manual mode when `Compute` is called, `Compute` returns false and the pump
drive is not rewritten. In the iteration that processes "r9 off" the PID mode
still follows the applied relay state of the previous iteration
(`state.relay_09`), which becomes false at the end of that iteration; in the
next iteration, whatever it receives, the PID is in manual mode when `Compute`
is called, `Compute` returns false and the pump drive is not rewritten. -/
theorem disengaged_on_withdrawal (E : Env) (g : Arduino1) (i : LoopInput) :
    (i.pythonCmd = some "ena_pfr off" →
      (beforeCompute E g i).PID_pump.inAuto = false ∧
      (computeStep (beforeCompute E g i) i.nowPID).1 = false ∧
      (loop E g i).state.set_pump_speed_pct = (beforePython E g i).state.set_pump_speed_pct ∧
      (loop E g i).state.set_pump_speed_mA = (beforePython E g i).state.set_pump_speed_mA ∧
      (loop E g i).T_click_1 = (beforePython E g i).T_click_1) ∧
    (i.pythonCmd = some "r9 off" →
      (beforeCompute E g i).PID_pump.inAuto =
        ((beforePython E g i).state.ENA_PID_pump && g.state.relay_09) ∧
      (loop E g i).state.relay_09 = false ∧
      (∀ j : LoopInput,
        (beforeCompute E (loop E g i) j).PID_pump.inAuto = false ∧
        (computeStep (beforeCompute E (loop E g i) j) j.nowPID).1 = false ∧
        (loop E (loop E g i) j).state.set_pump_speed_pct =
          (commandStep E (daqStep E (loop E g i) j) j).state.set_pump_speed_pct)) := by
  constructor
  · intro hcmd
    have hc := commandStep_python E g i _ hcmd
    rw [decodePython_lit2.2] at hc
    have hauto : (beforeCompute E g i).PID_pump.inAuto = false := by
      rw [beforeCompute_inAuto, hc]
      rfl
    obtain ⟨a, b, c, d⟩ := loop_pump_of_manual E g i hauto
    rw [hc] at b c d
    exact ⟨hauto, a, b, c, d⟩
  · intro hcmd
    have hc := commandStep_python E g i _ hcmd
    rw [decodePython_lit2.1] at hc
    have h9 : (loop E g i).state.relay_09 = false := by
      rw [loop_state_relay_09, hc]
      rfl
    refine ⟨?_, h9, fun j => ?_⟩
    · rw [beforeCompute_inAuto]
      have h1 : (commandStep E (daqStep E g i) i).state.relay_09 = g.state.relay_09 := by
        simp
      rw [h1, hc]
      rfl
    · have hauto : (beforeCompute E (loop E g i) j).PID_pump.inAuto = false := by
        rw [beforeCompute_inAuto]
        have h1 : (commandStep E (daqStep E (loop E g i) j) j).state.relay_09 =
            (loop E g i).state.relay_09 := by simp
        rw [h1, h9]
        simp
      obtain ⟨a, b, _, _⟩ := loop_pump_of_manual E (loop E g i) j hauto
      exact ⟨hauto, a, b⟩

theorem disengaged_on_withdrawal_witness :
    ((LoopInput.sampling 2000 2000 (some "ena_pfr off")).pythonCmd = some "ena_pfr off" ∧
      (LoopInput.sampling 2000 2000 (some "r9 off")).pythonCmd = some "r9 off" ∧
      Arduino1.regulating.PID_pump.inAuto = true) ∧
    (beforeCompute (Env.sample 15) Arduino1.regulating
      (LoopInput.sampling 2000 2000 (some "ena_pfr off"))).PID_pump.inAuto = false ∧
    (beforeCompute (Env.sample 15)
      (loop (Env.sample 15) Arduino1.regulating (LoopInput.sampling 2000 2000 (some "r9 off")))
      (LoopInput.sampling 3000 2000 none)).PID_pump.inAuto = false :=
  ⟨by decide!,
   ((disengaged_on_withdrawal (Env.sample 15) Arduino1.regulating
      (LoopInput.sampling 2000 2000 (some "ena_pfr off"))).1 rfl).1,
   (((disengaged_on_withdrawal (Env.sample 15) Arduino1.regulating
      (LoopInput.sampling 2000 2000 (some "r9 off"))).2 rfl).2.2
      (LoopInput.sampling 3000 2000 none)).1⟩

/-! ### The watchdog -/

theorem execCmd_wdt (E : Env) (g : Arduino1) (c : Nat) (strCmd : String) (cmd : Cmd) :
    (execCmd E g c strCmd cmd).prevMillis_WDT_reset = g.prevMillis_WDT_reset ∧
    (execCmd E g c strCmd cmd).Watchdog_resets = g.Watchdog_resets := by
  cases cmd with
  | relay n a =>
    simp only [execCmd, setRelay]
    split <;> exact ⟨rfl, rfl⟩
  | ena_otp b => cases b <;> exact ⟨rfl, rfl⟩
  | _ => exact ⟨rfl, rfl⟩

theorem commandStep_wdt (E : Env) (g : Arduino1) (i : LoopInput) :
    (commandStep E g i).prevMillis_WDT_reset = g.prevMillis_WDT_reset ∧
    (commandStep E g i).Watchdog_resets = g.Watchdog_resets := by
  obtain ⟨cm, m1, r1, m2, r2, dc, pc, np⟩ := i
  cases dc with
  | none =>
    cases pc with
    | none => exact ⟨rfl, rfl⟩
    | some sp => exact execCmd_wdt E g cm sp _
  | some sd =>
    obtain ⟨a1, a2⟩ := execCmd_wdt E g cm sd (decodeDebug sd)
    cases pc with
    | none => exact ⟨a1, a2⟩
    | some sp =>
      obtain ⟨b1, b2⟩ := execCmd_wdt E (execCmd E g cm sd (decodeDebug sd)) cm sp (decodePython sp)
      exact ⟨b1.trans a1, b2.trans a2⟩

theorem daqStep_wdt (E : Env) (g : Arduino1) (i : LoopInput) :
    (daqStep E g i).prevMillis_WDT_reset = g.prevMillis_WDT_reset ∧
    (daqStep E g i).Watchdog_resets = g.Watchdog_resets := by
  simp only [daqStep]
  split_ifs <;> exact ⟨rfl, rfl⟩

theorem pidModeStep_wdt (g : Arduino1) :
    (pidModeStep g).prevMillis_WDT_reset = g.prevMillis_WDT_reset ∧
    (pidModeStep g).Watchdog_resets = g.Watchdog_resets := by
  simp only [pidModeStep]
  split_ifs <;> exact ⟨rfl, rfl⟩

theorem requestStep_wdt (g : Arduino1) (c : Nat) :
    (requestStep g c).prevMillis_WDT_reset = g.prevMillis_WDT_reset ∧
    (requestStep g c).Watchdog_resets = g.Watchdog_resets := by
  simp only [requestStep]
  split_ifs <;> exact ⟨rfl, rfl⟩

theorem grantStep_wdt (g : Arduino1) (c : Nat) :
    (grantStep g c).prevMillis_WDT_reset = g.prevMillis_WDT_reset ∧
    (grantStep g c).Watchdog_resets = g.Watchdog_resets := by
  simp only [grantStep]
  split_ifs <;> exact ⟨rfl, rfl⟩

theorem applySetStep_wdt (g : Arduino1) :
    (applySetStep g).prevMillis_WDT_reset = g.prevMillis_WDT_reset ∧
    (applySetStep g).Watchdog_resets = g.Watchdog_resets := by
  simp only [applySetStep]
  split_ifs <;> exact ⟨rfl, rfl⟩

theorem computeStep_wdt (g : Arduino1) (n : Nat) :
    (computeStep g n).2.prevMillis_WDT_reset = g.prevMillis_WDT_reset ∧
    (computeStep g n).2.Watchdog_resets = g.Watchdog_resets := by
  simp only [computeStep]
  split_ifs <;> exact ⟨rfl, rfl⟩

theorem otpStep_wdt (g : Arduino1) (c : Nat) :
    (otpStep g c).prevMillis_WDT_reset = g.prevMillis_WDT_reset ∧
    (otpStep g c).Watchdog_resets = g.Watchdog_resets := by
  simp only [otpStep]
  split_ifs <;> exact ⟨rfl, rfl⟩

theorem relayUpdateStep_wdt (g : Arduino1) :
    (relayUpdateStep g).prevMillis_WDT_reset = g.prevMillis_WDT_reset ∧
    (relayUpdateStep g).Watchdog_resets = g.Watchdog_resets :=
  ⟨rfl, rfl⟩

theorem loop_wdt (E : Env) (g : Arduino1) (i : LoopInput) :
    (loop E g i).Watchdog_resets =
      (if millisPeriod_WDT_reset < usub32 i.curMillis g.prevMillis_WDT_reset then
        g.Watchdog_resets + 1 else g.Watchdog_resets) ∧
    (loop E g i).prevMillis_WDT_reset =
      (if millisPeriod_WDT_reset < usub32 i.curMillis g.prevMillis_WDT_reset then i.curMillis
       else g.prevMillis_WDT_reset) := by
  have h : (relayUpdateStep (otpStep (beforeOTP E g i) i.curMillis)).prevMillis_WDT_reset =
        g.prevMillis_WDT_reset ∧
      (relayUpdateStep (otpStep (beforeOTP E g i) i.curMillis)).Watchdog_resets =
        g.Watchdog_resets := by
    simp only [beforeOTP, beforeCompute, beforeGrant, beforeRequest]
    constructor
    · rw [(relayUpdateStep_wdt _).1, (otpStep_wdt _ _).1, (computeStep_wdt _ _).1,
        (applySetStep_wdt _).1, (grantStep_wdt _ _).1, (requestStep_wdt _ _).1,
        (pidModeStep_wdt _).1, (commandStep_wdt _ _ _).1, (daqStep_wdt _ _ _).1]
    · rw [(relayUpdateStep_wdt _).2, (otpStep_wdt _ _).2, (computeStep_wdt _ _).2,
        (applySetStep_wdt _).2, (grantStep_wdt _ _).2, (requestStep_wdt _ _).2,
        (pidModeStep_wdt _).2, (commandStep_wdt _ _ _).2, (daqStep_wdt _ _ _).2]
  obtain ⟨a, b⟩ := wdtStep_spec (relayUpdateStep (otpStep (beforeOTP E g i) i.curMillis))
    i.curMillis
  simp only [loop]
  rw [a, b, h.1, h.2]
  exact ⟨rfl, rfl⟩

theorem usub32_of_le (a b : Nat) (h : b ≤ a) (ha : a < U32) : usub32 a b = a - b := by
  unfold usub32 U32 at *
  omega

theorem wdtResetTimes_chain (E : Env) (d : Nat) (is : List LoopInput) :
    ∀ (g : Arduino1) (t : Nat), g.prevMillis_WDT_reset ≤ t →
      t ≤ g.prevMillis_WDT_reset + millisPeriod_WDT_reset →
      List.Chain (fun a b => a ≤ b ∧ b ≤ a + d) t (is.map LoopInput.curMillis) →
      (∀ i ∈ is, i.curMillis < U32) →
      List.Chain (fun a b => a < b ∧ b ≤ a + millisPeriod_WDT_reset + d)
        g.prevMillis_WDT_reset (wdtResetTimes E g is) := by
  induction is with
  | nil => intro g t _ _ _ _; exact List.Chain.nil
  | cons i is ih =>
    intro g t h1 h2 hch hU
    rw [List.map_cons, List.chain_cons] at hch
    obtain ⟨⟨c1, c2⟩, hrest⟩ := hch
    have hi : i.curMillis < U32 := hU i (List.mem_cons_self _ _)
    have hU2 : ∀ j ∈ is, j.curMillis < U32 := fun j hj => hU j (List.mem_cons_of_mem _ hj)
    have hsub : usub32 i.curMillis g.prevMillis_WDT_reset = i.curMillis - g.prevMillis_WDT_reset :=
      usub32_of_le _ _ (le_trans h1 c1) hi
    obtain ⟨w1, w2⟩ := loop_wdt E g i
    rw [hsub] at w1 w2
    by_cases hr : millisPeriod_WDT_reset < i.curMillis - g.prevMillis_WDT_reset
    · rw [if_pos hr] at w1 w2
      have ht : wdtResetTimes E g (i :: is) = i.curMillis :: wdtResetTimes E (loop E g i) is := by
        simp only [wdtResetTimes, w1, if_true]
      rw [ht, List.chain_cons]
      refine ⟨⟨by omega, by omega⟩, ?_⟩
      have := ih (loop E g i) i.curMillis (by rw [w2]) (by rw [w2]; omega) hrest hU2
      rw [w2] at this
      exact this
    · rw [if_neg hr] at w1 w2
      have ht : wdtResetTimes E g (i :: is) = wdtResetTimes E (loop E g i) is := by
        simp only [wdtResetTimes, w1]
        rw [if_neg (by omega)]
      rw [ht]
      have := ih (loop E g i) i.curMillis (by rw [w2]; omega) (by rw [w2]; omega) hrest hU2
      rw [w2] at this
      exact this

/-- C34: in every loop iteration the watchdog is reset exactly when
`(curMillis - prevMillis_WDT_reset) mod 2^32 > 800`, and the reset time is
then recorded, otherwise nothing changes; along every sequence of iterations
that follows an iteration with a reset, with start times non-decreasing, at
most `d` ms apart and below `2^32`, two consecutive watchdog resets are at
most `800 + d` ms apart, so for `d < 200` less than 1000 ms apart. -/
theorem watchdog_cadence (E : Env) (g : Arduino1) (i0 : LoopInput) (is : List LoopInput)
    (d : Nat)
    (hpace : List.Chain (fun a b => a ≤ b ∧ b ≤ a + d) i0.curMillis
      (is.map LoopInput.curMillis))
    (hwrap : ∀ i ∈ is, i.curMillis < U32)
    (hreset : (loop E g i0).Watchdog_resets = g.Watchdog_resets + 1) :
    (∀ (h : Arduino1) (i : LoopInput),
      ((loop E h i).Watchdog_resets = h.Watchdog_resets + 1 ↔
        millisPeriod_WDT_reset < usub32 i.curMillis h.prevMillis_WDT_reset) ∧
      ((loop E h i).Watchdog_resets = h.Watchdog_resets + 1 →
        (loop E h i).prevMillis_WDT_reset = i.curMillis) ∧
      ((loop E h i).Watchdog_resets ≠ h.Watchdog_resets + 1 →
        (loop E h i).Watchdog_resets = h.Watchdog_resets ∧
        (loop E h i).prevMillis_WDT_reset = h.prevMillis_WDT_reset)) ∧
    List.Chain (fun a b => a < b ∧ b ≤ a + 800 + d) i0.curMillis
      (wdtResetTimes E (loop E g i0) is) ∧
    (d < 200 → List.Chain (fun a b => a < b ∧ b - a < 1000) i0.curMillis
      (wdtResetTimes E (loop E g i0) is)) := by
  have hrule : ∀ (h : Arduino1) (i : LoopInput),
      ((loop E h i).Watchdog_resets = h.Watchdog_resets + 1 ↔
        millisPeriod_WDT_reset < usub32 i.curMillis h.prevMillis_WDT_reset) ∧
      ((loop E h i).Watchdog_resets = h.Watchdog_resets + 1 →
        (loop E h i).prevMillis_WDT_reset = i.curMillis) ∧
      ((loop E h i).Watchdog_resets ≠ h.Watchdog_resets + 1 →
        (loop E h i).Watchdog_resets = h.Watchdog_resets ∧
        (loop E h i).prevMillis_WDT_reset = h.prevMillis_WDT_reset) := by
    intro h i
    obtain ⟨w1, w2⟩ := loop_wdt E h i
    by_cases hr : millisPeriod_WDT_reset < usub32 i.curMillis h.prevMillis_WDT_reset
    · rw [if_pos hr] at w1 w2
      exact ⟨⟨fun _ => hr, fun _ => w1⟩, fun _ => w2, fun hne => absurd w1 hne⟩
    · rw [if_neg hr] at w1 w2
      refine ⟨⟨fun he => ?_, fun he => absurd he hr⟩, fun he => ?_, fun _ => ⟨w1, w2⟩⟩
      · rw [w1] at he
        omega
      · rw [w1] at he
        omega
  have hp : (loop E g i0).prevMillis_WDT_reset = i0.curMillis := (hrule g i0).2.1 hreset
  have hchain := wdtResetTimes_chain E d is (loop E g i0) i0.curMillis (by rw [hp])
    (by rw [hp]; omega) hpace hwrap
  rw [hp] at hchain
  refine ⟨hrule, hchain, fun hd => ?_⟩
  exact List.Chain.imp (fun a b hab => ⟨hab.1, by
    have := hab.2
    simp only [millisPeriod_WDT_reset] at this
    omega⟩) hchain

theorem watchdog_cadence_witness :
    (List.Chain (fun a b => a ≤ b ∧ b ≤ a + 150) (LoopInput.idle 900).curMillis
        (LoopInput.paced.map LoopInput.curMillis) ∧
      (∀ i ∈ LoopInput.paced, i.curMillis < U32) ∧
      (loop (Env.sample 0) (Arduino1.init 0 0) (LoopInput.idle 900)).Watchdog_resets =
        (Arduino1.init 0 0).Watchdog_resets + 1 ∧
      wdtResetTimes (Env.sample 0)
        (loop (Env.sample 0) (Arduino1.init 0 0) (LoopInput.idle 900)) LoopInput.paced = [1800]) ∧
    List.Chain (fun a b => a < b ∧ b ≤ a + 800 + 150) (LoopInput.idle 900).curMillis
      (wdtResetTimes (Env.sample 0)
        (loop (Env.sample 0) (Arduino1.init 0 0) (LoopInput.idle 900)) LoopInput.paced) :=
  ⟨⟨by simp [LoopInput.paced, LoopInput.idle], by decide!, by decide!, by decide!⟩,
   (watchdog_cadence (Env.sample 0) (Arduino1.init 0 0) (LoopInput.idle 900) LoopInput.paced
      150 (by simp [LoopInput.paced, LoopInput.idle]) (by decide!) (by decide!)).2.1⟩

/-! ### The pump drive -/

theorem F32.consts :
    F32.ofNat 0 = F32.num false 0 0 ∧
    F32.ofNat 100 = F32.num false 133 4718592 ∧
    F32.units 133 4718592 ≠ 0 ∧
    PID_pump_switch_pct32.add (PID_pump_switch_deadband32.div (F32.ofNat 2)) =
      F32.num false 129 0 ∧
    PID_pump_switch_pct32.sub (PID_pump_switch_deadband32.div (F32.ofNat 2)) =
      F32.num false 128 0 ∧
    F32.ofNat 4 = F32.num false 129 0 ∧ F32.ofNat 2 = F32.num false 128 0 := by
  decide!

theorem F32.round_ne_nan (neg : Bool) (t : ℚ) : F32.round neg t ≠ F32.nan := by
  simp only [F32.round]
  split_ifs <;> simp

theorem requestStep32_of_inf (g : Arduino1) (m s : F32) (c : Nat) (z : Bool)
    (h : dev_setp_pct32 m s = F32.inf z) :
    requestStep32 g m s c =
      if z then { g with PID_pump_req_set := 2 }
      else { g with PID_pump_req_set := 1,
                    PID_pump_millis_when_set1_was_requested_last := c } := by
  simp only [requestStep32, h, F32.consts.2.2.2.1, F32.consts.2.2.2.2.1]
  cases z <;> simp [F32.gt, F32.lt]

theorem requestStep32_of_nan (g : Arduino1) (m s : F32) (c : Nat)
    (h : dev_setp_pct32 m s = F32.nan) : requestStep32 g m s c = g := by
  simp only [requestStep32, h, F32.consts.2.2.2.1, F32.consts.2.2.2.2.1]
  simp [F32.gt, F32.lt]

theorem dev_of_nan (s : F32) : dev_setp_pct32 F32.nan s = F32.nan := by
  have h1 : F32.nan.sub s = F32.nan := by
    cases s <;> rfl
  have h2 : F32.nan.absMacro = F32.nan := by
    simp [F32.absMacro, F32.gt, F32.lt, F32.consts.1, F32.neg]
  have h3 : F32.nan.div s = F32.nan := by
    cases s <;> rfl
  simp only [dev_setp_pct32, h1, h2, h3]
  rw [F32.consts.2.1]
  rfl

theorem F32.sub_num_ne_nan (sa : Bool) (Ea : Fin 255) (Ma : Fin 8388608) (sb : Bool)
    (Eb : Fin 255) (Mb : Fin 8388608) :
    (F32.num sa Ea Ma).sub (F32.num sb Eb Mb) ≠ F32.nan := by
  simp only [F32.sub, F32.neg, F32.add]
  split_ifs
  · simp
  · exact F32.round_ne_nan _ _

theorem F32.absMacro_ne_nan (x : F32) (h : x ≠ F32.nan) : x.absMacro ≠ F32.nan := by
  simp only [F32.absMacro]
  split_ifs
  · exact h
  · cases x with
    | nan => exact absurd rfl h
    | inf s => simp [F32.neg]
    | num s E M => simp [F32.neg]

theorem F32.div_num_ne_nan (x : F32) (s : Bool) (E : Fin 255) (M : Fin 8388608)
    (h : x ≠ F32.nan) (hu : F32.units E M ≠ 0) : x.div (F32.num s E M) ≠ F32.nan := by
  cases x with
  | nan => exact absurd rfl h
  | inf sa => simp [F32.div]
  | num sa Ea Ma =>
    simp only [F32.div, if_neg hu]
    exact F32.round_ne_nan _ _

theorem F32.mul_100_ne_nan (x : F32) (h : x ≠ F32.nan) : x.mul (F32.ofNat 100) ≠ F32.nan := by
  rw [F32.consts.2.1]
  cases x with
  | nan => exact absurd rfl h
  | inf sa => simp [F32.mul, F32.consts.2.2.1]
  | num sa Ea Ma =>
    simp only [F32.mul]
    exact F32.round_ne_nan _ _

theorem dev_ne_nan (sm : Bool) (Em : Fin 255) (Mm : Fin 8388608) (ss : Bool) (Es : Fin 255)
    (Ms : Fin 8388608) (hs : F32.units Es Ms ≠ 0) :
    dev_setp_pct32 (F32.num sm Em Mm) (F32.num ss Es Ms) ≠ F32.nan :=
  F32.mul_100_ne_nan _ (F32.div_num_ne_nan _ ss Es Ms
    (F32.absMacro_ne_nan _ (F32.sub_num_ne_nan sm Em Mm ss Es Ms)) hs)

theorem F32.le_of_not_lt (a b : F32) (ha : a ≠ F32.nan) (hb : b ≠ F32.nan)
    (h : b.lt a = false) : a.le b = true := by
  cases a with
  | nan => exact absurd rfl ha
  | inf sa =>
    cases b with
    | nan => exact absurd rfl hb
    | inf sb => cases sa <;> cases sb <;> simp_all [F32.lt, F32.le]
    | num sb Eb Mb => cases sa <;> simp_all [F32.lt, F32.le]
  | num sa Ea Ma =>
    cases b with
    | nan => exact absurd rfl hb
    | inf sb => cases sb <;> simp_all [F32.lt, F32.le]
    | num sb Eb Mb =>
      simp only [F32.lt, decide_eq_false_iff_not, not_lt] at h
      simp only [F32.le, decide_eq_true_eq]
      exact h
theorem F32.lt_false_of_le (a b : F32) (h : b.le a = true) : a.lt b = false := by
  cases a with
  | nan => cases b <;> rfl
  | inf sa =>
    cases b with
    | nan => rfl
    | inf sb => cases sa <;> cases sb <;> simp_all [F32.lt, F32.le]
    | num sb Eb Mb => cases sa <;> simp_all [F32.lt, F32.le]
  | num sa Ea Ma =>
    cases b with
    | nan => rfl
    | inf sb => cases sb <;> simp_all [F32.lt, F32.le]
    | num sb Eb Mb =>
      simp only [F32.le, decide_eq_true_eq] at h
      simp only [F32.lt, decide_eq_false_iff_not, not_lt]
      exact h

theorem F32.gt_four_false_of_lt_two (d : F32) (h : d.lt (F32.ofNat 2) = true) :
    d.gt (F32.ofNat 4) = false := by
  have h24 : F32.signedUnits false 128 0 < F32.signedUnits false 129 0 := by decide!
  rw [F32.consts.2.2.2.2.2.2] at h
  rw [F32.consts.2.2.2.2.2.1]
  cases d with
  | nan => rfl
  | inf s => cases s <;> simp_all [F32.lt, F32.gt]
  | num s E M =>
    simp only [F32.lt, decide_eq_true_eq] at h
    simp only [F32.gt, F32.lt, decide_eq_false_iff_not, not_lt]
    omega

theorem dev_of_nan_setpoint (m : F32) : dev_setp_pct32 m F32.nan = F32.nan := by
  have h1 : m.sub F32.nan = F32.nan := by
    cases m <;> rfl
  have h2 : F32.nan.absMacro = F32.nan := by
    simp [F32.absMacro, F32.gt, F32.lt, F32.consts.1, F32.neg]
  simp only [dev_setp_pct32, h1, h2]
  rw [F32.consts.2.1]
  rfl

/-- The pass `loop32` is the pass `loop` with the request for a PID set
replaced by its evaluation in single precision. -/
theorem loop_eq_afterRequest (E : Env) (g : Arduino1) (i : LoopInput) :
    loop E g i = afterRequest (requestStep (beforeRequest E g i) i.curMillis) i := rfl

theorem afterRequest_req_stamp (g : Arduino1) (i : LoopInput) :
    (afterRequest g i).PID_pump_req_set = g.PID_pump_req_set ∧
    (afterRequest g i).PID_pump_millis_when_set1_was_requested_last =
      g.PID_pump_millis_when_set1_was_requested_last := by
  constructor <;> simp [afterRequest]

theorem beforeRequest_req_stamp (E : Env) (g : Arduino1) (i : LoopInput) :
    (beforeRequest E g i).PID_pump_req_set = g.PID_pump_req_set ∧
    (beforeRequest E g i).PID_pump_millis_when_set1_was_requested_last =
      g.PID_pump_millis_when_set1_was_requested_last := by
  constructor <;> simp [beforeRequest]

theorem requestStep32_fields (g : Arduino1) (m s : F32) (c : Nat) :
    (requestStep32 g m s c).PID_pump_req_set =
      (if (dev_setp_pct32 m s).gt (F32.ofNat 4) = true then 1
       else if (dev_setp_pct32 m s).lt (F32.ofNat 2) = true then 2
       else g.PID_pump_req_set) ∧
    (requestStep32 g m s c).PID_pump_millis_when_set1_was_requested_last =
      (if (dev_setp_pct32 m s).gt (F32.ofNat 4) = true then c
       else g.PID_pump_millis_when_set1_was_requested_last) := by
  obtain ⟨_, _, _, t4, t2, n4, n2⟩ := F32.consts
  unfold requestStep32
  rw [t4, t2, ← n4, ← n2]
  split_ifs <;> exact ⟨rfl, rfl⟩

/-- Nothing before or after the request in a pass of `loop()` writes the
requested set or the fast-last-requested time. -/
theorem loop32_req_stamp (E : Env) (g : Arduino1) (i : LoopInput) (m s : F32) :
    (loop32 E g i m s).PID_pump_req_set =
      (if (dev_setp_pct32 m s).gt (F32.ofNat 4) = true then 1
       else if (dev_setp_pct32 m s).lt (F32.ofNat 2) = true then 2
       else g.PID_pump_req_set) ∧
    (loop32 E g i m s).PID_pump_millis_when_set1_was_requested_last =
      (if (dev_setp_pct32 m s).gt (F32.ofNat 4) = true then i.curMillis
       else g.PID_pump_millis_when_set1_was_requested_last) := by
  obtain ⟨a1, a2⟩ := afterRequest_req_stamp
    (requestStep32 (beforeRequest E g i) m s i.curMillis) i
  obtain ⟨r1, r2⟩ := requestStep32_fields (beforeRequest E g i) m s i.curMillis
  obtain ⟨b1, b2⟩ := beforeRequest_req_stamp E g i
  rw [b1] at r1
  rw [b2] at r2
  exact ⟨a1.trans r1, a2.trans r2⟩

theorem loop32_of_nan (E : Env) (g : Arduino1) (i : LoopInput) (m s : F32)
    (h : dev_setp_pct32 m s = F32.nan) :
    (loop32 E g i m s).PID_pump_req_set = g.PID_pump_req_set ∧
    (loop32 E g i m s).PID_pump_millis_when_set1_was_requested_last =
      g.PID_pump_millis_when_set1_was_requested_last := by
  obtain ⟨l1, l2⟩ := loop32_req_stamp E g i m s
  rw [l1, l2, h, F32.consts.2.2.2.2.2.1, F32.consts.2.2.2.2.2.2]
  exact ⟨rfl, rfl⟩

/-- C15, as stated, fails: with setpoint 3.5899999 and measured flow 3.5181999
(the `float`s with bit patterns 0x4065C28F and 0x40612A30) the deviation
`|measured - setpoint| / setpoint * 100` is 30115100/15057551, below 2, but the
program, which rounds the difference, the quotient and the product to single
precision, computes exactly 2: the test `dev_setp_pct < 2` is false and the
pass of `loop()` leaves the requested set at 1. -/
theorem deviation_rounded_onto_threshold :
    (F32.ofBits 1080410767).toRat = 15057551 / 4194304 ∧
    (F32.ofBits 1080109616).toRat = 922275 / 262144 ∧
    |(F32.ofBits 1080109616).toRat - (F32.ofBits 1080410767).toRat| /
      (F32.ofBits 1080410767).toRat * 100 = 30115100 / 15057551 ∧
    ((30115100 : ℚ) / 15057551 < 2) ∧
    dev_setp_pct32 (F32.ofBits 1080109616) (F32.ofBits 1080410767) = F32.ofNat 2 ∧
    (Arduino1.init 0 0).PID_pump_req_set = 1 ∧
    (loop32 Env.digits (Arduino1.init 0 0) (LoopInput.idle 60) (F32.ofBits 1080109616)
      (F32.ofBits 1080410767)).PID_pump_req_set = 1 := by
  decide!

/-- C15, amended: in every pass of `loop()` in which the measured flow rate is
a number and the setpoint a non-zero number, with `d` the deviation as the
program computes it, `|measured - setpoint| / setpoint * 100` with the
difference, the quotient and the product each rounded to single precision:
the two thresholds are exactly 4 and 2; `d` is not NaN and exactly one of
`d > 4`, `d < 2`, `2 <= d <= 4` holds; if `d > 4` the requested set becomes 1
and the fast-last-requested timestamp becomes `curMillis`; if `d < 2` the
requested set becomes 2 and the timestamp is unchanged; if `2 <= d <= 4` both
are unchanged. When the measured flow rate or the setpoint is NaN (the
measured flow rate is NaN until the first sample), both are unchanged. -/
theorem request_rule_single_precision (E : Env) (g : Arduino1) (i : LoopInput) (sm : Bool)
    (Em : Fin 255) (Mm : Fin 8388608) (ss : Bool) (Es : Fin 255) (Ms : Fin 8388608)
    (hs : F32.units Es Ms ≠ 0) :
    (PID_pump_switch_pct32.add (PID_pump_switch_deadband32.div (F32.ofNat 2)) = F32.ofNat 4 ∧
      PID_pump_switch_pct32.sub (PID_pump_switch_deadband32.div (F32.ofNat 2)) = F32.ofNat 2) ∧
    dev_setp_pct32 (F32.num sm Em Mm) (F32.num ss Es Ms) ≠ F32.nan ∧
    ((dev_setp_pct32 (F32.num sm Em Mm) (F32.num ss Es Ms)).gt (F32.ofNat 4) = true ∨
      (dev_setp_pct32 (F32.num sm Em Mm) (F32.num ss Es Ms)).lt (F32.ofNat 2) = true ∨
      ((F32.ofNat 2).le (dev_setp_pct32 (F32.num sm Em Mm) (F32.num ss Es Ms)) = true ∧
        (dev_setp_pct32 (F32.num sm Em Mm) (F32.num ss Es Ms)).le (F32.ofNat 4) = true)) ∧
    ((dev_setp_pct32 (F32.num sm Em Mm) (F32.num ss Es Ms)).gt (F32.ofNat 4) = true →
      (loop32 E g i (F32.num sm Em Mm) (F32.num ss Es Ms)).PID_pump_req_set = 1 ∧
      (loop32 E g i (F32.num sm Em Mm) (F32.num ss Es
        Ms)).PID_pump_millis_when_set1_was_requested_last = i.curMillis) ∧
    ((dev_setp_pct32 (F32.num sm Em Mm) (F32.num ss Es Ms)).lt (F32.ofNat 2) = true →
      (dev_setp_pct32 (F32.num sm Em Mm) (F32.num ss Es Ms)).gt (F32.ofNat 4) = false ∧
      (loop32 E g i (F32.num sm Em Mm) (F32.num ss Es Ms)).PID_pump_req_set = 2 ∧
      (loop32 E g i (F32.num sm Em Mm) (F32.num ss Es
        Ms)).PID_pump_millis_when_set1_was_requested_last =
        g.PID_pump_millis_when_set1_was_requested_last) ∧
    ((F32.ofNat 2).le (dev_setp_pct32 (F32.num sm Em Mm) (F32.num ss Es Ms)) = true →
      (dev_setp_pct32 (F32.num sm Em Mm) (F32.num ss Es Ms)).le (F32.ofNat 4) = true →
      (loop32 E g i (F32.num sm Em Mm) (F32.num ss Es Ms)).PID_pump_req_set =
        g.PID_pump_req_set ∧
      (loop32 E g i (F32.num sm Em Mm) (F32.num ss Es
        Ms)).PID_pump_millis_when_set1_was_requested_last =
        g.PID_pump_millis_when_set1_was_requested_last) ∧
    (∀ x : F32,
      ((loop32 E g i F32.nan x).PID_pump_req_set = g.PID_pump_req_set ∧
       (loop32 E g i F32.nan x).PID_pump_millis_when_set1_was_requested_last =
        g.PID_pump_millis_when_set1_was_requested_last) ∧
      ((loop32 E g i x F32.nan).PID_pump_req_set = g.PID_pump_req_set ∧
       (loop32 E g i x F32.nan).PID_pump_millis_when_set1_was_requested_last =
        g.PID_pump_millis_when_set1_was_requested_last)) := by
  obtain ⟨_, _, _, t4, t2, n4, n2⟩ := F32.consts
  have hd := dev_ne_nan sm Em Mm ss Es Ms hs
  have h4 : F32.ofNat 4 ≠ F32.nan := by rw [n4]; simp
  have h2 : F32.ofNat 2 ≠ F32.nan := by rw [n2]; simp
  obtain ⟨l1, l2⟩ := loop32_req_stamp E g i (F32.num sm Em Mm) (F32.num ss Es Ms)
  refine ⟨⟨t4.trans n4.symm, t2.trans n2.symm⟩, hd, ?_, fun h => ?_, fun k => ?_,
    fun ha hb => ?_, fun x => ⟨?_, ?_⟩⟩
  · by_cases h : (dev_setp_pct32 (F32.num sm Em Mm) (F32.num ss Es Ms)).gt (F32.ofNat 4) = true
    · exact Or.inl h
    · by_cases k : (dev_setp_pct32 (F32.num sm Em Mm) (F32.num ss Es Ms)).lt (F32.ofNat 2) = true
      · exact Or.inr (Or.inl k)
      · exact Or.inr (Or.inr ⟨F32.le_of_not_lt _ _ h2 hd (by simpa using k),
          F32.le_of_not_lt _ _ hd h4 (by simpa using h)⟩)
  · rw [l1, l2, if_pos h, if_pos h]
    exact ⟨rfl, rfl⟩
  · have h := F32.gt_four_false_of_lt_two _ k
    rw [l1, l2, if_neg (by simp [h]), if_pos k, if_neg (by simp [h])]
    exact ⟨h, rfl, rfl⟩
  · have h : (dev_setp_pct32 (F32.num sm Em Mm) (F32.num ss Es Ms)).gt (F32.ofNat 4) = false :=
      F32.lt_false_of_le _ _ hb
    have k := F32.lt_false_of_le _ _ ha
    rw [l1, l2, if_neg (by simp [h]), if_neg (by simp [k]), if_neg (by simp [h])]
    exact ⟨rfl, rfl⟩
  · exact loop32_of_nan E g i F32.nan x (dev_of_nan x)
  · exact loop32_of_nan E g i x F32.nan (dev_of_nan_setpoint x)

theorem request_rule_single_precision_witness :
    F32.units 130 2097152 ≠ 0 ∧
    (F32.num false 130 2621440).toRat = 21 / 2 ∧ (F32.num false 130 2097152).toRat = 10 ∧
    dev_setp_pct32 (F32.num false 130 2621440) (F32.num false 130 2097152) = F32.ofNat 5 ∧
    (dev_setp_pct32 (F32.num false 130 2621440) (F32.num false 130 2097152)).gt (F32.ofNat 4)
      = true ∧
    (loop32 Env.digits (Arduino1.init 0 0) (LoopInput.idle 60) (F32.num false 130 2621440)
      (F32.num false 130 2097152)).PID_pump_millis_when_set1_was_requested_last =
      (LoopInput.idle 60).curMillis :=
  ⟨by decide!, by decide!, by decide!, by decide!, by decide!,
   ((request_rule_single_precision Env.digits (Arduino1.init 0 0) (LoopInput.idle 60) false 130
      2621440 false 130 2097152 (by decide!)).2.2.2.1 (by decide!)).2⟩

end MHT
